import Mathlib

/-!
# Service Manager: service instance interceptor and catalog helpers

A shallow embedding of `storage/interceptors/service_instance_interceptor.go`, of
`storage/interceptors/broker_catalog_helper.go`, of `pkg/types/service_broker_cascade.go`
and of `api/osb/context_signature.go`.

* Go pointers to records that the interceptor mutates (`*types.Operation`,
  `*types.ServiceInstance`) are modelled by explicit state passing.
* Calls that leave the interceptor (repository, OSB client, the inner function `f`)
  are answered by oracle functions and recorded, in order, in a trace of `Event`s.
* A Go call either returns normally, returns an error, or faults at run time
  (nil pointer dereference); the poll loop may in addition still be waiting when the
  modelled schedule of `select` outcomes is exhausted. `Outcome` keeps the four apart.
* Log statements have no effect on the modelled state and are left out.
-/

namespace ServiceManager

/-! ## Errors -/

/-- Go `error` values seen by the interceptor, by dynamic type. -/
inductive GoError where
  /-- Type `osbc.HTTPStatusCodeError`: the broker answered with an unexpected status code. -/
  | httpStatus (statusCode : Int) (msg : String)
  /-- Type `*url.Error`; `timeout` is what its `Timeout()` method reports. -/
  | urlError (timeout : Bool) (msg : String)
  /-- Type `*util.HTTPError` with its `ErrorType` and `Description`. -/
  | utilHTTP (errorType : String) (description : String)
  /-- Sentinel `util.ErrNotFoundInStorage`. -/
  | notFoundInStorage
  /-- Any other error value, such as one built by `fmt.Errorf`. -/
  | errorf (msg : String)
  deriving DecidableEq, Repr

/-- The text of `err.Error()`. -/
def GoError.Error : GoError → String
  | .httpStatus _ msg => msg
  | .urlError _ msg => msg
  | .utilHTTP _ description => description
  | .notFoundInStorage => "not found"
  | .errorf msg => msg

/-- The interceptor reports broker failures as `*util.HTTPError` with type `BrokerError`. -/
def GoError.isBrokerError : GoError → Bool
  | .utilHTTP errorType _ => errorType == "BrokerError"
  | _ => false

/-- A `*util.HTTPError` with type `BadRequest`. -/
def GoError.isBadRequest : GoError → Bool
  | .utilHTTP errorType _ => errorType == "BadRequest"
  | _ => false

/-- Constant `http.StatusOK`. -/
def StatusOK : Int := 200
/-- Constant `http.StatusRequestTimeout`. -/
def StatusRequestTimeout : Int := 408
/-- Constant `http.StatusGone`. -/
def StatusGone : Int := 410

/-- Function `osbc.IsHTTPError`: a type assertion to `HTTPStatusCodeError`, giving the status code. -/
def IsHTTPError : GoError → Option Int
  | .httpStatus statusCode _ => some statusCode
  | _ => none

/-- Function `osbc.IsGoneError`: an HTTP status code error with status 410. -/
def IsGoneError (err : GoError) : Bool :=
  match IsHTTPError err with
  | some statusCode => statusCode == StatusGone
  | none => false

/-- Method `ServiceInstanceInterceptor.shouldStartOrphanMitigation`. -/
def shouldStartOrphanMitigation (err : GoError) : Bool :=
  match IsHTTPError err with
  | some statusCode =>
    let is2XX := decide (statusCode ≥ 200) && decide (statusCode < 300)
    let is5XX := decide (statusCode ≥ 500) && decide (statusCode < 600)
    (is2XX && statusCode != StatusOK) ||
      statusCode == StatusRequestTimeout ||
      is5XX
  | none =>
    match err with
    | .urlError true _ => true
    | _ => false

/-! ## Data model -/

/-- Go `time.Time` as a number of clock ticks. -/
abbrev Time := Nat

/-- Constant `types.SMPlatform`. -/
def SMPlatform : String := "service-manager"

/-- Record `types.Operation`, with the fields the interceptor reads or writes.
The zero `time.Time` of `DeletionScheduled` is `none`. -/
structure Operation where
  ID : String
  Reschedule : Bool
  DeletionScheduled : Option Time
  ExternalID : String
  deriving DecidableEq, Repr

/-- Record `types.ServiceInstance`. `Labels` is the Go map `map[string][]string`. -/
structure ServiceInstance where
  ID : String
  Name : String
  PlatformID : String
  ServicePlanID : String
  DashboardURL : String
  Parameters : String
  Labels : List (String × List String)
  ReferencedInstanceID : String
  Shared : Bool
  deriving DecidableEq, Repr

/-- Record `types.ServicePlan`. `Bindable` is the Go `*bool`; `Shareable` is what
`IsShareablePlan()` reads from the plan metadata. -/
structure ServicePlan where
  ID : String
  CatalogID : String
  CatalogName : String
  Name : String
  Description : String
  ServiceOfferingID : String
  Bindable : Option Bool
  Shareable : Bool
  deriving DecidableEq, Repr

/-- Record `types.ServiceOffering`. -/
structure ServiceOffering where
  ID : String
  CatalogID : String
  BrokerID : String
  Bindable : Bool
  Plans : List ServicePlan
  deriving DecidableEq, Repr

/-- Record `types.ServiceBroker` with its basic credentials. -/
structure ServiceBroker where
  ID : String
  Name : String
  BrokerURL : String
  Username : String
  Password : String
  deriving DecidableEq, Repr

/-- A value stored in the `Context` map of a provision request. -/
inductive ContextValue where
  | str (s : String)
  | strs (ss : List String)
  deriving DecidableEq, Repr

/-- Go map assignment `m[k] = v` on an association list with unique keys. -/
def mapSet {β : Type} (m : List (String × β)) (k : String) (v : β) : List (String × β) :=
  match m with
  | [] => [(k, v)]
  | (k', v') :: rest => if k' = k then (k, v) :: rest else (k', v') :: mapSet rest k v

/-- Go map lookup `v, ok := m[k]`. -/
def mapGet {β : Type} (m : List (String × β)) (k : String) : Option β :=
  match m with
  | [] => none
  | (k', v') :: rest => if k' = k then some v' else mapGet rest k

/-- Record `osbc.ProvisionRequest` (`OriginatingIdentity` is always nil). -/
structure ProvisionRequest where
  InstanceID : String
  AcceptsIncomplete : Bool
  ServiceID : String
  PlanID : String
  OrganizationGUID : String
  SpaceGUID : String
  Parameters : String
  Context : List (String × ContextValue)
  deriving DecidableEq, Repr

/-- Record `osbc.ProvisionResponse`. -/
structure ProvisionResponse where
  Async : Bool
  DashboardURL : Option String
  OperationKey : Option String
  deriving DecidableEq, Repr

/-- Record `osbc.DeprovisionRequest` (`OriginatingIdentity` is always nil). -/
structure DeprovisionRequest where
  InstanceID : String
  AcceptsIncomplete : Bool
  ServiceID : String
  PlanID : String
  deriving DecidableEq, Repr

/-- Record `osbc.DeprovisionResponse`. -/
structure DeprovisionResponse where
  Async : Bool
  OperationKey : Option String
  deriving DecidableEq, Repr

/-- Record `osbc.LastOperationRequest` (`OriginatingIdentity` is always nil). -/
structure LastOperationRequest where
  InstanceID : String
  ServiceID : Option String
  PlanID : Option String
  OperationKey : Option String
  deriving DecidableEq, Repr

/-- Record `osbc.LastOperationResponse`; `State` is the string type `osbc.LastOperationState`. -/
structure LastOperationResponse where
  State : String
  Description : Option String
  deriving DecidableEq, Repr

/-- Constant `osbc.StateInProgress`. -/
def StateInProgress : String := "in progress"
/-- Constant `osbc.StateSucceeded`. -/
def StateSucceeded : String := "succeeded"
/-- Constant `osbc.StateFailed`. -/
def StateFailed : String := "failed"

/-- Record `osbc.ClientConfiguration`, with the fields `prepare` fills in. -/
structure ClientConfiguration where
  Name : String
  URL : String
  Username : String
  Password : String
  deriving DecidableEq, Repr

/-- The storage object types named by the interceptor. -/
inductive ObjectType where
  | ServiceInstanceType
  | ServiceBindingType
  | ServicePlanType
  | ServiceOfferingType
  | ServiceBrokerType
  | VisibilityType
  deriving DecidableEq, Repr

/-- A `query.Criterion` built by `query.ByField`. -/
structure Criterion where
  Operator : String
  LeftOp : String
  RightOp : List String
  deriving DecidableEq, Repr

/-- Constant `query.EqualsOperator`. -/
def EqualsOperator : String := "eq"

/-- Function `query.ByField`. -/
def ByField (operator leftOp : String) (rightOp : List String) : Criterion :=
  { Operator := operator, LeftOp := leftOp, RightOp := rightOp }

/-- A `types.Object` handed to `repository.Update`, as it is at the time of the call. -/
inductive Object where
  | serviceInstance (o : ServiceInstance)
  | operation (o : Operation)
  deriving DecidableEq, Repr

/-! ## Effects -/

/-- A call that leaves the interceptor, with its arguments. -/
inductive Event where
  | repoGet (objectType : ObjectType) (criteria : List Criterion)
  | repoList (objectType : ObjectType) (criteria : List Criterion)
  | repoCount (objectType : ObjectType) (criteria : List Criterion)
  | repoUpdate (obj : Object)
  | osbClientCreate (cfg : ClientConfiguration)
  | ProvisionInstance (req : ProvisionRequest)
  | DeprovisionInstance (req : DeprovisionRequest)
  | PollLastOperation (req : LastOperationRequest)
  /-- The inner create function `f(ctx, obj)`, with the Operation record that `ctx`
  holds at the time of the call. -/
  | callCreate (obj : ServiceInstance) (ctxOperation : Option Operation)
  /-- The inner delete function `f(ctx, deletionCriteria...)`, with the Operation record
  that `ctx` holds at the time of the call. -/
  | callDelete (criteria : List Criterion) (ctxOperation : Option Operation)
  deriving DecidableEq, Repr

/-- How a Go call ends. -/
inductive Outcome (α : Type) where
  /-- Normal return with a nil error. -/
  | ret (v : α)
  /-- Return with a non-nil error. -/
  | fail (err : GoError)
  /-- Run-time fault: nil pointer dereference. -/
  | nilDereference
  /-- The schedule of `select` outcomes ended while the poll loop was still waiting. -/
  | blocked
  deriving DecidableEq, Repr

/-- The result of running a piece of the interceptor: the Operation record found in the
request context (as left behind), the calls made, and how the run ended. -/
structure Run (α : Type) where
  operation : Option Operation
  trace : List Event
  outcome : Outcome α
  deriving DecidableEq, Repr

/-- Interface `storage.TransactionalRepository`, one oracle per method used. `Get` is
split by the object type asked for, `List` is asked for service instances only, and
`Update` returns only its error. -/
structure Repository where
  GetPlan : List Criterion → Except GoError ServicePlan
  GetOffering : List Criterion → Except GoError ServiceOffering
  GetBroker : List Criterion → Except GoError ServiceBroker
  ListInstances : List Criterion → Except GoError (List ServiceInstance)
  Count : ObjectType → List Criterion → Except GoError Int
  Update : Object → Option GoError

/-- Interface `osbc.Client`: the broker's replies to provision and deprovision. The
replies to `PollLastOperation` are part of the poll schedule. -/
structure Client where
  ProvisionInstance : ProvisionRequest → Except GoError ProvisionResponse
  DeprovisionInstance : DeprovisionRequest → Except GoError DeprovisionResponse

/-- Record `ServiceInstanceInterceptor` (the polling interval and `maxParallelDeletions`
play no part in the modelled behaviour). -/
structure ServiceInstanceInterceptor where
  osbClientCreateFunc : ClientConfiguration → Except GoError Client
  repository : Repository
  tenantKey : String

/-- What the Go runtime supplies: the clock read by `time.Now()` and the text that
`fmt` renders for a request under the verb `%+v`. -/
structure Runtime where
  now : Time
  fmtProvisionRequest : ProvisionRequest → String
  fmtDeprovisionRequest : DeprovisionRequest → String
  fmtLastOperationRequest : LastOperationRequest → String

/-- One outcome of the `select` in the poll loop: the request context is done, or the
ticker fires and the broker answers the poll. -/
inductive SelectEvent where
  | ctxDone
  | tick (reply : Except GoError LastOperationResponse)

/-- Method `ServiceInstanceInterceptor.prepare`: resolve plan, offering and broker and
build the OSB client. -/
def prepare (i : ServiceInstanceInterceptor) (inst : ServiceInstance) (trace : List Event) :
    List Event × Except GoError (Client × ServiceBroker × ServiceOffering × ServicePlan) :=
  let byPlanID := [ByField EqualsOperator "id" [inst.ServicePlanID]]
  let trace := trace ++ [.repoGet .ServicePlanType byPlanID]
  match i.repository.GetPlan byPlanID with
  | .error err => (trace, .error err)
  | .ok plan =>
    let byServiceID := [ByField EqualsOperator "id" [plan.ServiceOfferingID]]
    let trace := trace ++ [.repoGet .ServiceOfferingType byServiceID]
    match i.repository.GetOffering byServiceID with
    | .error err => (trace, .error err)
    | .ok service =>
      let byBrokerID := [ByField EqualsOperator "id" [service.BrokerID]]
      let trace := trace ++ [.repoGet .ServiceBrokerType byBrokerID]
      match i.repository.GetBroker byBrokerID with
      | .error err => (trace, .error err)
      | .ok broker =>
        let cfg : ClientConfiguration :=
          { Name := broker.Name ++ " broker client",
            URL := broker.BrokerURL,
            Username := broker.Username,
            Password := broker.Password }
        let trace := trace ++ [.osbClientCreate cfg]
        match i.osbClientCreateFunc cfg with
        | .error err => (trace, .error err)
        | .ok osbClient => (trace, .ok (osbClient, broker, service, plan))

/-- Method `ServiceInstanceInterceptor.pollServiceInstance`. The loop consumes one
`select` outcome of the schedule per iteration. -/
def pollServiceInstance (rt : Runtime) (i : ServiceInstanceInterceptor)
    (inst : ServiceInstance) (operation : Operation)
    (brokerID serviceCatalogID planCatalogID : String) (operationKey : Option String)
    (enableOrphanMitigation : Bool) (schedule : List SelectEvent) (trace : List Event) :
    Run Unit :=
  let pollingRequest : LastOperationRequest :=
    { InstanceID := inst.ID,
      ServiceID := some serviceCatalogID,
      PlanID := some planCatalogID,
      OperationKey := operationKey }
  match schedule with
  | [] => ⟨some operation, trace, .blocked⟩
  | .ctxDone :: _ => ⟨some operation, trace, .ret ()⟩
  | .tick reply :: rest =>
    let trace := trace ++ [.PollLastOperation pollingRequest]
    match reply with
    | .error err =>
      ⟨some operation, trace, .fail (.utilHTTP "BrokerError"
        ("Failed poll last operation request " ++ rt.fmtLastOperationRequest pollingRequest ++
          " for instance with id " ++ inst.ID ++ " and name " ++ inst.Name ++ ": " ++
          err.Error))⟩
    | .ok pollingResponse =>
      if pollingResponse.State = StateInProgress then
        pollServiceInstance rt i inst operation brokerID serviceCatalogID planCatalogID
          operationKey enableOrphanMitigation rest trace
      else if pollingResponse.State = StateSucceeded then
        let operation := { operation with Reschedule := false }
        let trace := trace ++ [.repoUpdate (.operation operation)]
        match i.repository.Update (.operation operation) with
        | some _ =>
          ⟨some operation, trace, .fail (.errorf
            ("failed to update operation with id " ++ operation.ID ++
              " to mark that next execution should be a reschedule"))⟩
        | none => ⟨some operation, trace, .ret ()⟩
      else if pollingResponse.State = StateFailed then
        let operation := { operation with Reschedule := false }
        let operation :=
          if enableOrphanMitigation then { operation with DeletionScheduled := some rt.now }
          else operation
        let trace := trace ++ [.repoUpdate (.serviceInstance inst)]
        match i.repository.Update (.serviceInstance inst) with
        | some _ =>
          ⟨some operation, trace, .fail (.errorf
            ("failed to update operation with id " ++ operation.ID ++
              " after failed of last operation for instance with id " ++ inst.ID))⟩
        | none =>
          let errDescription :=
            match pollingResponse.Description with
            | some d => d
            | none => "no description provided by broker"
          ⟨some operation, trace, .fail (.utilHTTP "BrokerError"
            ("failed polling operation for instance with id " ++ inst.ID ++ " and name " ++
              inst.Name ++ " due to polling last operation error: " ++ errDescription))⟩
      else
        ⟨some operation, trace, .fail (.errorf
          ("invalid state during poll last operation for instance with id " ++ inst.ID ++
            " and name " ++ inst.Name ++ ": " ++ pollingResponse.State))⟩

/-- The result of `pollServiceInstance` seen by a caller that returns `v` when the poller
returns nil and passes every other ending on. -/
def Run.andReturn {α : Type} (r : Run Unit) (v : α) : Run α :=
  match r.outcome with
  | .ret _ => ⟨r.operation, r.trace, .ret v⟩
  | .fail err => ⟨r.operation, r.trace, .fail err⟩
  | .nilDereference => ⟨r.operation, r.trace, .nilDereference⟩
  | .blocked => ⟨r.operation, r.trace, .blocked⟩

/-- The provision request built by `AroundTxCreate` (source lines 187 to 205). -/
def provisionRequestFor (i : ServiceInstanceInterceptor) (inst : ServiceInstance)
    (service : ServiceOffering) (plan : ServicePlan) : ProvisionRequest :=
  let provisionRequest : ProvisionRequest :=
    { InstanceID := inst.ID,
      AcceptsIncomplete := true,
      ServiceID := service.CatalogID,
      PlanID := plan.CatalogID,
      OrganizationGUID := "-",
      SpaceGUID := "-",
      Parameters := inst.Parameters,
      Context := [("platform", .str "service-manager")] }
  if i.tenantKey.length ≠ 0 then
    match mapGet inst.Labels i.tenantKey with
    | some tenantValue =>
      { provisionRequest with
        Context := mapSet provisionRequest.Context i.tenantKey (.strs tenantValue) }
    | none => provisionRequest
  else provisionRequest

/-- The assignment of the dashboard URL in `AroundTxCreate` (source lines 224 to 227):
the instance takes the URL of the provision response when the response has one. -/
def applyDashboardURL (inst : ServiceInstance) (provisionResponse : ProvisionResponse) :
    ServiceInstance :=
  match provisionResponse.DashboardURL with
  | some dashboardURL => { inst with DashboardURL := dashboardURL }
  | none => inst

/-- The end of `AroundTxCreate` (source lines 243 to 255): run `f`, then poll when the
Operation is marked for reschedule. `provisionResponse` is nil when no provision
request was sent. -/
def createFinish (rt : Runtime) (i : ServiceInstanceInterceptor)
    (f : ServiceInstance → Except GoError ServiceInstance)
    (broker : ServiceBroker) (service : ServiceOffering) (plan : ServicePlan)
    (operation : Operation) (obj : ServiceInstance)
    (provisionResponse : Option ProvisionResponse) (schedule : List SelectEvent)
    (trace : List Event) : Run ServiceInstance :=
  let trace := trace ++ [.callCreate obj (some operation)]
  match f obj with
  | .error err => ⟨some operation, trace, .fail err⟩
  | .ok object =>
    let inst := object
    if operation.Reschedule then
      match provisionResponse with
      | none => ⟨some operation, trace, .nilDereference⟩
      | some response =>
        (pollServiceInstance rt i inst operation broker.ID service.CatalogID plan.CatalogID
          response.OperationKey true schedule trace).andReturn inst
    else ⟨some operation, trace, .ret inst⟩

/-- Method `ServiceInstanceInterceptor.AroundTxCreate`, applied to the inner create
function `f`, the Operation found in the request context (if any) and the object. -/
def AroundTxCreate (rt : Runtime) (i : ServiceInstanceInterceptor)
    (f : ServiceInstance → Except GoError ServiceInstance)
    (ctxOperation : Option Operation) (obj : ServiceInstance)
    (schedule : List SelectEvent) : Run ServiceInstance :=
  let inst := obj
  if inst.PlatformID ≠ SMPlatform then
    match f obj with
    | .error err => ⟨ctxOperation, [.callCreate obj ctxOperation], .fail err⟩
    | .ok object => ⟨ctxOperation, [.callCreate obj ctxOperation], .ret object⟩
  else
    match ctxOperation with
    | none => ⟨none, [], .fail (.errorf "operation missing from context")⟩
    | some operation =>
      match prepare i inst [] with
      | (trace, .error err) => ⟨some operation, trace, .fail err⟩
      | (trace, .ok (osbClient, broker, service, plan)) =>
        if !operation.Reschedule then
          let provisionRequest := provisionRequestFor i inst service plan
          let trace := trace ++ [.ProvisionInstance provisionRequest]
          match osbClient.ProvisionInstance provisionRequest with
          | .error err =>
            let brokerError := GoError.utilHTTP "BrokerError"
              ("Failed provisioning request " ++ rt.fmtProvisionRequest provisionRequest ++
                ": " ++ err.Error)
            if shouldStartOrphanMitigation err then
              let operation :=
                { operation with DeletionScheduled := some rt.now, Reschedule := false }
              let trace := trace ++ [.repoUpdate (.operation operation)]
              match i.repository.Update (.operation operation) with
              | some err =>
                ⟨some operation, trace, .fail (.errorf
                  ("failed to update operation with id " ++ operation.ID ++
                    " to schedule orphan mitigation after broker error " ++
                    brokerError.Error ++ ": " ++ err.Error))⟩
              | none => ⟨some operation, trace, .fail brokerError⟩
            else ⟨some operation, trace, .fail brokerError⟩
          | .ok provisionResponse =>
            let inst := applyDashboardURL inst provisionResponse
            if provisionResponse.Async then
              let operation := { operation with Reschedule := true }
              let trace := trace ++ [.repoUpdate (.serviceInstance inst)]
              match i.repository.Update (.serviceInstance inst) with
              | some _ =>
                ⟨some operation, trace, .fail (.errorf
                  ("failed to update operation with id " ++ inst.ID ++
                    " to mark that next execution should be a reschedule"))⟩
              | none =>
                createFinish rt i f broker service plan operation inst
                  (some provisionResponse) schedule trace
            else
              createFinish rt i f broker service plan operation inst
                (some provisionResponse) schedule trace
        else
          createFinish rt i f broker service plan operation inst none schedule trace

/-- The end of `deleteSingleInstance` (source lines 364 to 370): poll when the Operation
is marked for reschedule. `deprovisionResponse` is nil when no deprovision request was
sent. -/
def deletePoll (rt : Runtime) (i : ServiceInstanceInterceptor) (broker : ServiceBroker)
    (service : ServiceOffering) (plan : ServicePlan) (inst : ServiceInstance)
    (operation : Operation) (deprovisionResponse : Option DeprovisionResponse)
    (schedule : List SelectEvent) (trace : List Event) : Run Unit :=
  if operation.Reschedule then
    match deprovisionResponse with
    | none => ⟨some operation, trace, .nilDereference⟩
    | some response =>
      pollServiceInstance rt i inst operation broker.ID service.CatalogID
        plan.CatalogID response.OperationKey true schedule trace
  else ⟨some operation, trace, .ret ()⟩

/-- Method `ServiceInstanceInterceptor.deleteSingleInstance`. -/
def deleteSingleInstance (rt : Runtime) (i : ServiceInstanceInterceptor)
    (inst : ServiceInstance) (operation : Operation) (schedule : List SelectEvent)
    (trace : List Event) : Run Unit :=
  let byServiceInstanceID := [ByField EqualsOperator "service_instance_id" [inst.ID]]
  let trace := trace ++ [.repoCount .ServiceBindingType byServiceInstanceID]
  match i.repository.Count .ServiceBindingType byServiceInstanceID with
  | .error _ =>
    ⟨some operation, trace, .fail (.errorf
      ("could not fetch bindings for instance with id " ++ inst.ID))⟩
  | .ok bindingsCount =>
    if bindingsCount > 0 then
      ⟨some operation, trace, .fail (.utilHTTP "BadRequest"
        ("could not delete instance due to " ++ toString bindingsCount ++
          " existing bindings"))⟩
    else
      match prepare i inst trace with
      | (trace, .error err) => ⟨some operation, trace, .fail err⟩
      | (trace, .ok (osbClient, broker, service, plan)) =>
        if !operation.Reschedule then
          let deprovisionRequest : DeprovisionRequest :=
            { InstanceID := inst.ID,
              AcceptsIncomplete := true,
              ServiceID := service.CatalogID,
              PlanID := plan.CatalogID }
          let trace := trace ++ [.DeprovisionInstance deprovisionRequest]
          match osbClient.DeprovisionInstance deprovisionRequest with
          | .error err =>
            if IsGoneError err then ⟨some operation, trace, .ret ()⟩
            else
              let brokerError := GoError.utilHTTP "BrokerError"
                ("Failed deprovisioning request " ++
                  rt.fmtDeprovisionRequest deprovisionRequest ++ ": " ++ err.Error)
              if shouldStartOrphanMitigation err then
                let operation :=
                  { operation with DeletionScheduled := some rt.now, Reschedule := false }
                let trace := trace ++ [.repoUpdate (.operation operation)]
                match i.repository.Update (.operation operation) with
                | some err =>
                  ⟨some operation, trace, .fail (.errorf
                    ("failed to update operation with id " ++ operation.ID ++
                      " to schedule orphan mitigation after broker error " ++
                      brokerError.Error ++ ": " ++ err.Error))⟩
                | none => ⟨some operation, trace, .fail brokerError⟩
              else ⟨some operation, trace, .fail brokerError⟩
          | .ok deprovisionResponse =>
            if deprovisionResponse.Async then
              let operation := { operation with Reschedule := true }
              let trace := trace ++ [.repoUpdate (.serviceInstance inst)]
              match i.repository.Update (.serviceInstance inst) with
              | some _ =>
                ⟨some operation, trace, .fail (.errorf
                  ("failed to update operation with id " ++ operation.ID ++
                    " to mark that rescheduling is possible"))⟩
              | none =>
                deletePoll rt i broker service plan inst operation (some deprovisionResponse)
                  schedule trace
            else
              deletePoll rt i broker service plan inst operation (some deprovisionResponse)
                schedule trace
        else deletePoll rt i broker service plan inst operation none schedule trace

/-- The end of `AroundTxDelete` (source lines 291 to 295): run the inner delete
function and return its error, if any. -/
def deleteFinish (f : List Criterion → Option GoError) (operation : Option Operation)
    (deletionCriteria : List Criterion) (trace : List Event) : Run Unit :=
  match f deletionCriteria with
  | some err => ⟨operation, trace ++ [.callDelete deletionCriteria operation], .fail err⟩
  | none => ⟨operation, trace ++ [.callDelete deletionCriteria operation], .ret ()⟩

/-- Method `ServiceInstanceInterceptor.AroundTxDelete`, applied to the inner delete
function `f`, the Operation found in the request context (if any) and the criteria. -/
def AroundTxDelete (rt : Runtime) (i : ServiceInstanceInterceptor)
    (f : List Criterion → Option GoError) (ctxOperation : Option Operation)
    (deletionCriteria : List Criterion) (schedule : List SelectEvent) : Run Unit :=
  let trace := [Event.repoList .ServiceInstanceType deletionCriteria]
  match i.repository.ListInstances deletionCriteria with
  | .error err =>
    ⟨ctxOperation, trace, .fail (.errorf
      ("failed to get instances for deletion: " ++ err.Error))⟩
  | .ok instances =>
    if instances.length > 1 then
      ⟨ctxOperation, trace, .fail (.errorf "deletion of multiple instances is not supported")⟩
    else
      match instances with
      | [] => deleteFinish f ctxOperation deletionCriteria trace
      | inst :: _ =>
        if inst.PlatformID ≠ SMPlatform then
          deleteFinish f ctxOperation deletionCriteria trace
        else
          match ctxOperation with
          | none => ⟨none, trace, .fail (.errorf "operation missing from context")⟩
          | some operation =>
            let r := deleteSingleInstance rt i inst operation schedule trace
            match r.outcome with
            | .ret _ => deleteFinish f r.operation deletionCriteria r.trace
            | _ => r

/-! ## Observations on a trace -/

/-- The event is a call of the inner create function `f`. -/
def Event.isCallCreate : Event → Bool
  | .callCreate _ _ => true
  | _ => false

/-- The event is a call of the inner delete function `f`. -/
def Event.isCallDelete : Event → Bool
  | .callDelete _ _ => true
  | _ => false

/-- The event is a `repository.Update` call. -/
def Event.isUpdate : Event → Bool
  | .repoUpdate _ => true
  | _ => false

/-- The event is a request sent to the broker through the OSB client. -/
def Event.isBrokerCall : Event → Bool
  | .ProvisionInstance _ => true
  | .DeprovisionInstance _ => true
  | .PollLastOperation _ => true
  | _ => false

/-- The event is a provision or deprovision request. -/
def Event.isProvisionOrDeprovision : Event → Bool
  | .ProvisionInstance _ => true
  | .DeprovisionInstance _ => true
  | _ => false

/-- The event is a `PollLastOperation` request. -/
def Event.isPoll : Event → Bool
  | .PollLastOperation _ => true
  | _ => false

/-- The events that `prepare` adds for the given plan, offering and broker. -/
def prepareEvents (inst : ServiceInstance) (plan : ServicePlan) (service : ServiceOffering)
    (broker : ServiceBroker) : List Event :=
  [.repoGet .ServicePlanType [ByField EqualsOperator "id" [inst.ServicePlanID]],
   .repoGet .ServiceOfferingType [ByField EqualsOperator "id" [plan.ServiceOfferingID]],
   .repoGet .ServiceBrokerType [ByField EqualsOperator "id" [service.BrokerID]],
   .osbClientCreate
     { Name := broker.Name ++ " broker client",
       URL := broker.BrokerURL,
       Username := broker.Username,
       Password := broker.Password }]

/-- The Operation record after the two assignments that schedule orphan mitigation:
`DeletionScheduled = time.Now()` and `Reschedule = false`. -/
def Operation.mitigationScheduled (operation : Operation) (now : Time) : Operation :=
  { operation with DeletionScheduled := some now, Reschedule := false }

/-! ## Sample values -/

/-- A plan stored under id `p1`. -/
def samplePlan : ServicePlan :=
  { ID := "p1", CatalogID := "cp1", CatalogName := "small", Name := "small",
    Description := "", ServiceOfferingID := "s1", Bindable := none, Shareable := false }

/-- The offering of `samplePlan`. -/
def sampleOffering : ServiceOffering :=
  { ID := "s1", CatalogID := "cs1", BrokerID := "b1", Bindable := true, Plans := [] }

/-- The broker of `sampleOffering`. -/
def sampleBroker : ServiceBroker :=
  { ID := "b1", Name := "broker", BrokerURL := "http://broker", Username := "u",
    Password := "p" }

/-- An instance of `samplePlan` owned by the service-manager platform. -/
def sampleInstance : ServiceInstance :=
  { ID := "i1", Name := "db", PlatformID := "service-manager", ServicePlanID := "p1",
    DashboardURL := "", Parameters := "", Labels := [], ReferencedInstanceID := "",
    Shared := false }

/-- A second instance, owned by a foreign platform. -/
def sampleForeignInstance : ServiceInstance :=
  { sampleInstance with ID := "i2", PlatformID := "cf" }

/-- A fresh Operation: not rescheduled, no deletion scheduled. -/
def sampleOperation : Operation :=
  { ID := "op1", Reschedule := false, DeletionScheduled := none, ExternalID := "" }

/-- An Operation left behind by an earlier run that was accepted asynchronously. -/
def sampleResumedOperation : Operation :=
  { ID := "op1", Reschedule := true, DeletionScheduled := none, ExternalID := "key-1" }

/-- A runtime whose clock reads 42. -/
def sampleRuntime : Runtime :=
  { now := 42,
    fmtProvisionRequest := fun _ => "request",
    fmtDeprovisionRequest := fun _ => "request",
    fmtLastOperationRequest := fun _ => "request" }

/-- An OSB client with fixed replies to provision and deprovision. -/
def sampleClient (provision : Except GoError ProvisionResponse)
    (deprovision : Except GoError DeprovisionResponse) : Client :=
  { ProvisionInstance := fun _ => provision, DeprovisionInstance := fun _ => deprovision }

/-- An interceptor over a store that resolves the sample plan, offering and broker,
lists `instances`, counts `bindings` bindings and answers every `Update` with `update`. -/
def sampleInterceptor (provision : Except GoError ProvisionResponse)
    (deprovision : Except GoError DeprovisionResponse) (update : Option GoError)
    (instances : List ServiceInstance) (bindings : Int) : ServiceInstanceInterceptor :=
  { osbClientCreateFunc := fun _ => .ok (sampleClient provision deprovision),
    repository :=
      { GetPlan := fun _ => .ok samplePlan,
        GetOffering := fun _ => .ok sampleOffering,
        GetBroker := fun _ => .ok sampleBroker,
        ListInstances := fun _ => .ok instances,
        Count := fun _ _ => .ok bindings,
        Update := fun _ => update },
    tenantKey := "" }

/-- An inner create function that stores the object as it is. -/
def sampleCreate : ServiceInstance → Except GoError ServiceInstance :=
  fun obj => .ok obj

/-- An inner delete function that succeeds. -/
def sampleDelete : List Criterion → Option GoError :=
  fun _ => none

/-- A synchronous provision reply. -/
def syncProvision : ProvisionResponse :=
  { Async := false, DashboardURL := none, OperationKey := none }

/-- An asynchronous provision reply with operation key `key-1`. -/
def asyncProvision : ProvisionResponse :=
  { Async := true, DashboardURL := none, OperationKey := some "key-1" }

/-- A synchronous deprovision reply. -/
def syncDeprovision : DeprovisionResponse :=
  { Async := false, OperationKey := none }

/-- An asynchronous deprovision reply with operation key `key-1`. -/
def asyncDeprovision : DeprovisionResponse :=
  { Async := true, OperationKey := some "key-1" }

/-! ## Update -/

/-- Record `query.LabelChange`. -/
structure LabelChange where
  Operation : String
  Key : String
  Values : List String
  deriving DecidableEq, Repr

/-- Type `storage.InterceptUpdateAroundTxFunc`: from the Operation in the request
context, the object and the label changes to what the call leaves behind (the Operation,
the calls made, the object or error returned). -/
abbrev InterceptUpdateAroundTxFunc : Type :=
  Option Operation → Object → List LabelChange → Run Object

/-- Method `ServiceInstanceInterceptor.AroundTxUpdate`. -/
def AroundTxUpdate (_i : ServiceInstanceInterceptor) (h : InterceptUpdateAroundTxFunc) :
    InterceptUpdateAroundTxFunc :=
  h

/-- An inner update function that records its call as an Update of the repository and
returns the object. -/
def sampleUpdate : InterceptUpdateAroundTxFunc :=
  fun ctxOperation obj _ => ⟨ctxOperation, [.repoUpdate obj], .ret obj⟩

/-! ## Catalog checks -/

/-- Modelled from the spec: constant `constant.ReferencePlanName`, whose declaration is
not among the sources; the spec fixes the reserved reference plan name to
`reference-plan`. -/
def ReferencePlanName : String := "reference-plan"

/-- The sentinel errors of package `util` that the catalog helper hands to
`util.HandleInstanceSharingError`. -/
inductive SharingError where
  | ErrCatalogUsesReservedPlanName
  | ErrPlanMustBeBindable
  deriving DecidableEq, Repr

/-- The inner loop of `VerifyCatalogDoesNotUseReferencePlan` over the plans of one
offering. `handleInstanceSharingError` stands for `util.HandleInstanceSharingError`,
whose body is not among the sources. -/
def verifyPlans (handleInstanceSharingError : SharingError → String → GoError) :
    List ServicePlan → Option GoError
  | [] => none
  | plan :: rest =>
    if plan.Name = ReferencePlanName ∨ plan.CatalogName = ReferencePlanName then
      some (handleInstanceSharingError .ErrCatalogUsesReservedPlanName ReferencePlanName)
    else verifyPlans handleInstanceSharingError rest

/-- The outer loop of `VerifyCatalogDoesNotUseReferencePlan` over the offerings. -/
def verifyServices (handleInstanceSharingError : SharingError → String → GoError) :
    List ServiceOffering → Option GoError
  | [] => none
  | service :: rest =>
    match verifyPlans handleInstanceSharingError service.Plans with
    | some err => some err
    | none => verifyServices handleInstanceSharingError rest

/-- What a catalog helper leaves behind: the offerings of the catalog as they are after
the call (the Go slice holds pointers, so writes would be seen by the caller) and the
error returned. -/
structure CatalogResult where
  catalogServices : List ServiceOffering
  err : Option GoError
  deriving DecidableEq, Repr

/-- Function `VerifyCatalogDoesNotUseReferencePlan`. The source only reads the
offerings and their plans, so the catalog after the call is the catalog passed in. -/
def VerifyCatalogDoesNotUseReferencePlan
    (handleInstanceSharingError : SharingError → String → GoError)
    (catalogServices : List ServiceOffering) : CatalogResult :=
  { catalogServices := catalogServices,
    err := verifyServices handleInstanceSharingError catalogServices }

/-! ## Sample values for references and catalogs -/

/-- A stored plan that carries the reserved reference plan name. -/
def sampleReferencePlan : ServicePlan :=
  { ID := "p-ref", CatalogID := "cp-ref", CatalogName := "reference-plan",
    Name := "reference-plan", Description := "", ServiceOfferingID := "s1",
    Bindable := some true, Shareable := false }

/-- A service-manager instance of `sampleReferencePlan` that refers to instance `i1`. -/
def sampleReferenceInstance : ServiceInstance :=
  { ID := "i3", Name := "ref", PlatformID := "service-manager", ServicePlanID := "p-ref",
    DashboardURL := "", Parameters := "", Labels := [], ReferencedInstanceID := "i1",
    Shared := false }

/-- An interceptor like `sampleInterceptor` whose store resolves every plan id to
`sampleReferencePlan`. -/
def sampleReferenceInterceptor (provision : Except GoError ProvisionResponse)
    (deprovision : Except GoError DeprovisionResponse) (update : Option GoError)
    (instances : List ServiceInstance) (bindings : Int) : ServiceInstanceInterceptor :=
  { osbClientCreateFunc := fun _ => .ok (sampleClient provision deprovision),
    repository :=
      { GetPlan := fun _ => .ok sampleReferencePlan,
        GetOffering := fun _ => .ok sampleOffering,
        GetBroker := fun _ => .ok sampleBroker,
        ListInstances := fun _ => .ok instances,
        Count := fun _ _ => .ok bindings,
        Update := fun _ => update },
    tenantKey := "" }

/-- A stand-in for `util.HandleInstanceSharingError`. -/
def sampleHandleInstanceSharingError : SharingError → String → GoError
  | .ErrCatalogUsesReservedPlanName, entityName =>
    .utilHTTP "CatalogUsesReservedPlanName" entityName
  | .ErrPlanMustBeBindable, entityName => .utilHTTP "PlanMustBeBindable" entityName

/-- A catalog whose second offering has a plan with the reserved catalog name. -/
def sampleReservedCatalog : List ServiceOffering :=
  [{ sampleOffering with Plans := [samplePlan] },
   { sampleOffering with
     ID := "s2", CatalogID := "cs2",
     Plans := [samplePlan, { samplePlan with ID := "p2", CatalogName := "reference-plan" }] }]

/-- A catalog without reserved names: an offering without plans and one with a plan. -/
def sampleCleanCatalog : List ServiceOffering :=
  [sampleOffering, { sampleOffering with ID := "s2", CatalogID := "cs2", Plans := [samplePlan] }]

/-! ## Reference plans for shareable offerings -/

/-- What `GenerateReferencePlanForShareableOfferings` takes from outside the sources:
the repository, the two error helpers of package `util`, the text of
`constant.ReferencePlanDescription`, and `uuid.NewV4`, whose reply may depend on the
number of UUIDs drawn before. -/
structure CatalogEnv where
  repository : Repository
  handleInstanceSharingError : SharingError → String → GoError
  handleStorageError : GoError → ObjectType → GoError
  referencePlanDescription : String
  uuidNewV4 : Nat → Except GoError String

/-- Function `isPlanBindable`. -/
def isPlanBindable (service : ServiceOffering) (plan : ServicePlan) : Bool :=
  match plan.Bindable with
  | some bindable => bindable
  | none => service.Bindable

/-- Function `generateReferencePlanObject`, drawing the UUID number `uuidCount`. The
result is `none` when `uuid.NewV4` fails, in which case the source panics. -/
def generateReferencePlanObject (env : CatalogEnv) (uuidCount : Nat)
    (serviceOfferingId : String) : Option ServicePlan :=
  match env.uuidNewV4 uuidCount with
  | .error _ => none
  | .ok UUID =>
    some
      { ID := UUID,
        CatalogID := UUID,
        CatalogName := ReferencePlanName,
        Name := ReferencePlanName,
        Description := env.referencePlanDescription,
        ServiceOfferingID := serviceOfferingId,
        Bindable := some true,
        Shareable := false }

/-- The criteria that `getExistingReferencePlan` passes to `repository.Get`. -/
def referencePlanCriteria (serviceID : String) : List Criterion :=
  [ByField EqualsOperator "service_offering_id" [serviceID],
   ByField EqualsOperator "name" [ReferencePlanName]]

/-- Function `getExistingReferencePlan`: nil without error when the store has no such
plan. -/
def getExistingReferencePlan (env : CatalogEnv) (serviceID : String) :
    Except GoError (Option ServicePlan) :=
  match env.repository.GetPlan (referencePlanCriteria serviceID) with
  | .error err =>
    if err ≠ .notFoundInStorage then .error (env.handleStorageError err .ServicePlanType)
    else .ok none
  | .ok plan => .ok (some plan)

/-- Function `getServiceOfferingByCatalogID`: nil without error when the store has no
such offering. -/
def getServiceOfferingByCatalogID (env : CatalogEnv) (serviceID : String) :
    Except GoError (Option ServiceOffering) :=
  match env.repository.GetOffering [ByField EqualsOperator "catalog_id" [serviceID]] with
  | .error err =>
    if err ≠ .notFoundInStorage then .error (env.handleStorageError err .ServicePlanType)
    else .ok none
  | .ok service => .ok (some service)

/-- The variables of `GenerateReferencePlanForShareableOfferings` that live across the
iterations of its outer loop: the local `existingReferencePlan`, declared before the
loop, the number of UUIDs drawn, and the map `catalogPlansMap` (`none` is the nil map). -/
structure GenerateState where
  existingReferencePlan : Option ServicePlan
  uuidCount : Nat
  catalogPlansMap : Option (List (String × List ServicePlan))
  deriving DecidableEq, Repr

/-- How one iteration of the outer loop ends: the offering as it is afterwards and the
state for the next iteration, an error return, or the panic on a failed UUID. -/
inductive StepResult where
  | next (service : ServiceOffering) (state : GenerateState)
  | fail (err : GoError)
  | uuidPanic
  deriving DecidableEq, Repr

/-- The statements after the reference plan is chosen (source lines 48 to 53): append
it to the plans of the offering and, when the map is not nil, to the entry of the map
under the catalog id of the offering. -/
def attachReferencePlan (service : ServiceOffering) (state : GenerateState)
    (referencePlan : ServicePlan) : ServiceOffering × GenerateState :=
  ({ service with Plans := service.Plans ++ [referencePlan] },
    { state with
      catalogPlansMap :=
        match state.catalogPlansMap with
        | some m =>
          some (mapSet m service.CatalogID
            ((match mapGet m service.CatalogID with
              | some plans => plans
              | none => []) ++ [referencePlan]))
        | none => none })

/-- The inner loop of `GenerateReferencePlanForShareableOfferings` over the plans of an
offering (source lines 37 to 55): it stops at the first shareable plan. -/
def generateForPlans (env : CatalogEnv) (service : ServiceOffering) (state : GenerateState) :
    List ServicePlan → StepResult
  | [] => .next service state
  | plan :: rest =>
    if plan.Shareable then
      if !isPlanBindable service plan then
        .fail (env.handleInstanceSharingError .ErrPlanMustBeBindable plan.Name)
      else
        match state.existingReferencePlan with
        | some referencePlan =>
          .next (attachReferencePlan service state referencePlan).1
            (attachReferencePlan service state referencePlan).2
        | none =>
          match generateReferencePlanObject env state.uuidCount plan.ServiceOfferingID with
          | none => .uuidPanic
          | some referencePlan =>
            .next
              (attachReferencePlan service
                { state with uuidCount := state.uuidCount + 1 } referencePlan).1
              (attachReferencePlan service
                { state with uuidCount := state.uuidCount + 1 } referencePlan).2
    else generateForPlans env service state rest

/-- One iteration of the outer loop (source lines 27 to 55). `existingReferencePlan` is
assigned only when the offering is found in the store. -/
def generateForOffering (env : CatalogEnv) (state : GenerateState)
    (service : ServiceOffering) : StepResult :=
  match getServiceOfferingByCatalogID env service.CatalogID with
  | .error err => .fail err
  | .ok none => generateForPlans env service state service.Plans
  | .ok (some serviceOffering) =>
    match getExistingReferencePlan env serviceOffering.ID with
    | .error err => .fail err
    | .ok existingReferencePlan =>
      generateForPlans env service
        { state with existingReferencePlan := existingReferencePlan } service.Plans

/-- How `GenerateReferencePlanForShareableOfferings` ends. -/
inductive GenerateOutcome where
  /-- Return of a nil error. -/
  | ok
  /-- Return of an error. -/
  | fail (err : GoError)
  /-- Panic: `uuid.NewV4` failed. -/
  | uuidPanic
  deriving DecidableEq, Repr

/-- What a run of `GenerateReferencePlanForShareableOfferings` leaves behind: the
offerings of the catalog (the slice holds pointers, so the appended plans are seen by
the caller), the loop state with the map, and how the run ended. -/
structure GenerateRun where
  catalogServices : List ServiceOffering
  state : GenerateState
  outcome : GenerateOutcome
  deriving DecidableEq, Repr

/-- The outer loop of `GenerateReferencePlanForShareableOfferings`; `done` holds the
offerings of the iterations that are over. -/
def generateLoop (env : CatalogEnv) (state : GenerateState) (done : List ServiceOffering) :
    List ServiceOffering → GenerateRun
  | [] => ⟨done, state, .ok⟩
  | service :: rest =>
    match generateForOffering env state service with
    | .next service' state' => generateLoop env state' (done ++ [service']) rest
    | .fail err => ⟨done ++ service :: rest, state, .fail err⟩
    | .uuidPanic => ⟨done ++ service :: rest, state, .uuidPanic⟩

/-- Function `GenerateReferencePlanForShareableOfferings`. -/
def GenerateReferencePlanForShareableOfferings (env : CatalogEnv)
    (catalogServices : List ServiceOffering)
    (catalogPlansMap : Option (List (String × List ServicePlan))) : GenerateRun :=
  generateLoop env
    { existingReferencePlan := none, uuidCount := 0, catalogPlansMap := catalogPlansMap }
    [] catalogServices

/-- The contract of `repository.Get` for the query of `getExistingReferencePlan`: a plan
that is returned satisfies the two criteria of the query. -/
def Repository.referencePlanLookupSound (repository : Repository) : Prop :=
  ∀ serviceID plan, repository.GetPlan (referencePlanCriteria serviceID) = .ok plan →
    plan.ServiceOfferingID = serviceID ∧ plan.Name = ReferencePlanName

/-- The number of plans of an offering that carry the reserved reference plan name. -/
def referencePlanCount (service : ServiceOffering) : Nat :=
  (service.Plans.filter (fun plan => decide (plan.Name = ReferencePlanName))).length

/-- The offering has at least one shareable plan. -/
def hasShareablePlan (service : ServiceOffering) : Bool :=
  service.Plans.any (fun plan => plan.Shareable)

/-! ## Sample values for reference plan generation -/

/-- A shareable plan of the offering with id `offeringID`, bindable through its
offering. -/
def sampleShareablePlan (offeringID : String) : ServicePlan :=
  { ID := "shared-of-" ++ offeringID, CatalogID := "c-shared", CatalogName := "shared",
    Name := "shared", Description := "", ServiceOfferingID := offeringID,
    Bindable := none, Shareable := true }

/-- A shareable plan of the offering with id `offeringID` whose own bindable override
is false. -/
def sampleUnbindablePlan (offeringID : String) : ServicePlan :=
  { ID := "locked-of-" ++ offeringID, CatalogID := "c-locked", CatalogName := "locked",
    Name := "locked", Description := "", ServiceOfferingID := offeringID,
    Bindable := some false, Shareable := true }

/-- A catalog offering that the sample store knows under catalog id `cs1`, with one
shareable plan. -/
def sampleCatalogOfferingA : ServiceOffering :=
  { ID := "s1", CatalogID := "cs1", BrokerID := "b1", Bindable := true,
    Plans := [sampleShareablePlan "s1"] }

/-- A catalog offering that the sample store does not know, with one shareable plan. -/
def sampleCatalogOfferingB : ServiceOffering :=
  { ID := "s2", CatalogID := "cs2", BrokerID := "b1", Bindable := true,
    Plans := [sampleShareablePlan "s2"] }

/-- A catalog offering that the sample store does not know, whose first shareable plan
is bindable and whose second shareable plan is not. -/
def sampleCatalogOfferingC : ServiceOffering :=
  { ID := "s3", CatalogID := "cs3", BrokerID := "b1", Bindable := true,
    Plans := [sampleShareablePlan "s3", sampleUnbindablePlan "s3"] }

/-- A catalog offering that the sample store does not know, whose only shareable plan
is not bindable. -/
def sampleCatalogOfferingD : ServiceOffering :=
  { ID := "s4", CatalogID := "cs4", BrokerID := "b1", Bindable := true,
    Plans := [samplePlan, sampleUnbindablePlan "s4"] }

/-- A store that holds the offering with catalog id `cs1` under id `s1` together with
its reference plan `sampleReferencePlan`, and nothing else. -/
def sampleCatalogRepository : Repository :=
  { GetPlan := fun criteria =>
      if criteria = referencePlanCriteria "s1" then .ok sampleReferencePlan
      else .error .notFoundInStorage,
    GetOffering := fun criteria =>
      if criteria = [ByField EqualsOperator "catalog_id" ["cs1"]] then .ok sampleOffering
      else .error .notFoundInStorage,
    GetBroker := fun _ => .error .notFoundInStorage,
    ListInstances := fun _ => .ok [],
    Count := fun _ _ => .ok 0,
    Update := fun _ => none }

/-- A source of UUIDs. -/
def sampleUUID : Nat → Except GoError String
  | 0 => .ok "uuid-0"
  | 1 => .ok "uuid-1"
  | _ => .ok "uuid-n"

/-- An environment over `sampleCatalogRepository`. -/
def sampleCatalogEnv : CatalogEnv :=
  { repository := sampleCatalogRepository,
    handleInstanceSharingError := sampleHandleInstanceSharingError,
    handleStorageError := fun err _ => err,
    referencePlanDescription := "Reference plan",
    uuidNewV4 := sampleUUID }

/-- A JSON document. -/
inductive Json where
  | null
  | bool (b : Bool)
  | num (n : Int)
  | str (s : String)
  | arr (items : List Json)
  | obj (fields : List (String × Json))

/-- The Go value behind an `interface{}`, by dynamic type. The elements of a
`[]interface{}` and of a `map[string]interface{}` are kept as JSON values: a type
assertion looks at the dynamic type of the outer value only. -/
inductive GoValue where
  /-- The nil interface. -/
  | nil
  | bool (b : Bool)
  | float64 (n : Int)
  | string (s : String)
  /-- Dynamic type `[]interface{}`. -/
  | interfaceSlice (items : List Json)
  /-- Dynamic type `map[string]interface{}`. -/
  | interfaceMap (fields : List (String × Json))
  /-- Dynamic type `[]string`. -/
  | stringSlice (items : List String)

/-- Method `gjson.Result.Value` of the library `gjson`, on the result of a query
(`none` when the path does not exist): nil, bool, float64 or string for a scalar,
`[]interface{}` for a JSON array and `map[string]interface{}` for a JSON object. -/
def gjsonValue : Option Json → GoValue
  | none => .nil
  | some .null => .nil
  | some (.bool b) => .bool b
  | some (.num n) => .float64 n
  | some (.str s) => .string s
  | some (.arr items) => .interfaceSlice items
  | some (.obj fields) => .interfaceMap fields

/-- The Go type assertion `v.([]string)`; `none` is the panic of a failed assertion. -/
def assertStringSlice : GoValue → Option (List String)
  | .stringSlice items => some items
  | _ => none

/-- The query `#.id` of `gjson` on a JSON value: the array of the `id` fields of the
elements of an array. -/
def gjsonEachID : Json → Option Json
  | .arr items =>
    some (.arr (items.filterMap (fun item =>
      match item with
      | .obj fields => mapGet fields "id"
      | _ => none)))
  | _ => none

/-- The query `services.#.id` of `gjson` on the catalog. -/
def gjsonServiceIDs : Json → Option Json
  | .obj fields =>
    match mapGet fields "services" with
    | some services => gjsonEachID services
    | none => none
  | _ => none

/-- The query `services.#.plans.#.id` of `gjson` on the catalog: for every service with
plans the array of the ids of its plans. -/
def gjsonPlanIDs : Json → Option Json
  | .obj fields =>
    match mapGet fields "services" with
    | some (.arr services) =>
      some (.arr (services.filterMap (fun service =>
        match service with
        | .obj serviceFields =>
          match mapGet serviceFields "plans" with
          | some plans => gjsonEachID plans
          | none => none
        | _ => none)))
    | _ => none
  | _ => none

/-- Constant `query.InOperator`. -/
def InOperator : String := "in"

/-- Method `ServiceBroker.GetChildrenCriteria`, as a function of the `Catalog` field of
the broker, the only field it reads. The entries of the map literal are evaluated in
source order; `none` is the panic of a failed type assertion. -/
def GetChildrenCriteria (catalog : Json) : Option (List (ObjectType × List Criterion)) :=
  let plansIDs := gjsonPlanIDs catalog
  let serviceOfferingIDs := gjsonServiceIDs catalog
  match assertStringSlice (gjsonValue plansIDs) with
  | none => none
  | some instancePlanIDs =>
    match assertStringSlice (gjsonValue serviceOfferingIDs) with
    | none => none
    | some offeringIDs =>
      match assertStringSlice (gjsonValue plansIDs) with
      | none => none
      | some planIDs =>
        match assertStringSlice (gjsonValue plansIDs) with
        | none => none
        | some visibilityPlanIDs =>
          some
            [(.ServiceInstanceType, [ByField InOperator "service_plan_id" instancePlanIDs]),
             (.ServiceOfferingType, [ByField InOperator "id" offeringIDs]),
             (.ServicePlanType, [ByField InOperator "id" planIDs]),
             (.VisibilityType, [ByField InOperator "service_plan_id" visibilityPlanIDs])]

/-- A catalog with two services, the first with two plans and the second with one. -/
def sampleCatalogDocument : Json :=
  .obj [("services", .arr
    [.obj [("id", .str "cs1"),
        ("plans", .arr [.obj [("id", .str "cp1")], .obj [("id", .str "cp2")]])],
      .obj [("id", .str "cs2"), ("plans", .arr [.obj [("id", .str "cp3")]])]])]

/-! ## Context signature -/

/-- Record `ContextSignaturePlugin`. -/
structure ContextSignaturePlugin where
  CtxPrivateKey : String
  CtxPublicKey : String
  deriving DecidableEq, Repr

/-- The library functions that the context signature plugin calls, as oracles on texts:
`base64`, `pem` and `x509` for the key, `gjson` and `sjson` for the body,
`encoding/json` for the context, `sha256` and `rsa` for the signature. -/
structure SignatureLibrary where
  /-- Type `*rsa.PrivateKey`. -/
  PrivateKey : Type
  /-- Type `map[string]interface{}` as filled by `json.Unmarshal`. -/
  JsonMap : Type
  base64Decode : String → Except GoError String
  /-- Function `pem.Decode`: the bytes of the block, `none` when there is no block. -/
  pemDecode : String → Option String
  parsePKCS1PrivateKey : String → Except GoError PrivateKey
  /-- Function `gjson.GetBytes` followed by `String()`: `none` when the path does not
  exist. -/
  gjsonGet : String → String → Option String
  jsonUnmarshal : String → Except GoError JsonMap
  /-- Function `json.Marshal` on a map: the keys come out in sorted order. -/
  jsonMarshal : JsonMap → Except GoError String
  sha256Sum : String → String
  signPKCS1v15 : PrivateKey → String → Except GoError String
  base64Encode : String → String
  sjsonSet : String → String → String → Except GoError String

/-- Function `parseRsaPrivateKey`. -/
def parseRsaPrivateKey (lib : SignatureLibrary) (rsaPrivateKey : String) :
    Except GoError lib.PrivateKey :=
  match lib.base64Decode rsaPrivateKey with
  | .error err => .error err
  | .ok key =>
    match lib.pemDecode key with
    | none => .error (.errorf "failed to pem decode context rsa private key")
    | some block =>
      match lib.parsePKCS1PrivateKey block with
      | .error err => .error err
      | .ok privateKey => .ok privateKey

/-- Function `getSignature`. -/
def getSignature (lib : SignatureLibrary) (ctxStr : String) (key : lib.PrivateKey) :
    Except GoError String :=
  match lib.signPKCS1v15 key (lib.sha256Sum ctxStr) with
  | .error err => .error err
  | .ok signature => .ok (lib.base64Encode signature)

/-- Method `ContextSignaturePlugin.sign`, on the body of the request: every path ends in
`next.Handle(req)`, with the body replaced only on the last one. -/
def ContextSignaturePlugin.sign {α : Type} (lib : SignatureLibrary)
    (s : ContextSignaturePlugin) (body : String) (next : String → α) : α :=
  if s.CtxPrivateKey = "" ∨ s.CtxPublicKey = "" then next body
  else
    match parseRsaPrivateKey lib s.CtxPrivateKey with
    | .error _ => next body
    | .ok privateKey =>
      match lib.gjsonGet body "context" with
      | none => next body
      | some ctxStr =>
        match lib.jsonUnmarshal ctxStr with
        | .error _ => next body
        | .ok ctxMap =>
          match lib.jsonMarshal ctxMap with
          | .error _ => next body
          | .ok ctxStr =>
            match getSignature lib ctxStr privateKey with
            | .error _ => next body
            | .ok signedCtx =>
              match lib.sjsonSet body "context.signature" signedCtx with
              | .error _ => next body
              | .ok reqBody => next reqBody

/-- Method `ContextSignaturePlugin.Provision`. -/
def ContextSignaturePlugin.Provision {α : Type} (lib : SignatureLibrary)
    (s : ContextSignaturePlugin) (body : String) (next : String → α) : α :=
  s.sign lib body next

/-- Method `ContextSignaturePlugin.Bind`. -/
def ContextSignaturePlugin.Bind {α : Type} (lib : SignatureLibrary)
    (s : ContextSignaturePlugin) (body : String) (next : String → α) : α :=
  s.sign lib body next

/-- A toy library: keys and maps are texts, every step succeeds and wraps its input in
the name of the step. -/
def sampleSignatureLibrary : SignatureLibrary :=
  { PrivateKey := String,
    JsonMap := String,
    base64Decode := fun s => .ok s,
    pemDecode := fun s => some s,
    parsePKCS1PrivateKey := fun s => .ok s,
    gjsonGet := fun body path => if path = "context" then some ("context of " ++ body) else none,
    jsonUnmarshal := fun s => .ok s,
    jsonMarshal := fun m => .ok ("sorted " ++ m),
    sha256Sum := fun s => "sha256 of " ++ s,
    signPKCS1v15 := fun key hashed => .ok (hashed ++ " signed with " ++ key),
    base64Encode := fun s => "base64 of " ++ s,
    sjsonSet := fun body path value => .ok (body ++ " with " ++ path ++ " = " ++ value) }

/-! ## Lemmas on `prepare` -/

/-- A successful `prepare` adds exactly the four lookup events to the trace. -/
theorem prepare_ok_trace (i : ServiceInstanceInterceptor) (inst : ServiceInstance)
    (trace trace' : List Event) (osbClient : Client) (broker : ServiceBroker)
    (service : ServiceOffering) (plan : ServicePlan)
    (h : prepare i inst trace = (trace', .ok (osbClient, broker, service, plan))) :
    trace' = trace ++ prepareEvents inst plan service broker := by
  unfold prepare at h
  simp only [] at h
  split at h
  · simp at h
  · split at h
    · simp at h
    · split at h
      · simp at h
      · split at h
        · simp at h
        · simp only [Prod.mk.injEq, Except.ok.injEq] at h
          obtain ⟨h1, -, rfl, rfl, rfl⟩ := h
          rw [← h1]
          simp [prepareEvents]

/-- No event of `prepareEvents` is a call of `f`, an update or a broker request. -/
theorem prepareEvents_filter (inst : ServiceInstance) (plan : ServicePlan)
    (service : ServiceOffering) (broker : ServiceBroker) :
    (prepareEvents inst plan service broker).filter Event.isCallCreate = [] ∧
      (prepareEvents inst plan service broker).filter Event.isCallDelete = [] ∧
      (prepareEvents inst plan service broker).filter Event.isUpdate = [] ∧
      (prepareEvents inst plan service broker).filter Event.isBrokerCall = [] := by
  simp [prepareEvents, Event.isCallCreate, Event.isCallDelete, Event.isUpdate,
    Event.isBrokerCall]

/-! ## Orphan-mitigation classification -/

/-- C2: `shouldStartOrphanMitigation err` is true exactly when `err` is a broker HTTP
status error whose code is 2xx other than 200, or 408, or 5xx, or `err` is a URL error
that reports a timeout; it is false for an HTTP error with status 200, any 3xx, any 4xx
other than 408, a URL error that reports no timeout, and every other error value. -/
theorem shouldStartOrphanMitigation_iff (err : GoError) :
    (shouldStartOrphanMitigation err = true ↔
      (∃ s msg, err = .httpStatus s msg ∧
          ((200 ≤ s ∧ s < 300 ∧ s ≠ 200) ∨ s = 408 ∨ (500 ≤ s ∧ s < 600))) ∨
        (∃ msg, err = .urlError true msg)) ∧
      (∀ msg, shouldStartOrphanMitigation (.httpStatus 200 msg) = false) ∧
      (∀ s msg, 300 ≤ s → s < 400 → shouldStartOrphanMitigation (.httpStatus s msg) = false) ∧
      (∀ s msg, 400 ≤ s → s < 500 → s ≠ 408 →
        shouldStartOrphanMitigation (.httpStatus s msg) = false) ∧
      (∀ msg, shouldStartOrphanMitigation (.urlError false msg) = false) ∧
      (∀ t d, shouldStartOrphanMitigation (.utilHTTP t d) = false) ∧
      shouldStartOrphanMitigation .notFoundInStorage = false ∧
      (∀ msg, shouldStartOrphanMitigation (.errorf msg) = false) := by
  refine ⟨?_, ?_, ?_, ?_, ?_, ?_, ?_, ?_⟩
  · cases err with
    | httpStatus s msg =>
      simp only [shouldStartOrphanMitigation, IsHTTPError, StatusOK, StatusRequestTimeout]
      simp
      omega
    | urlError timeout msg =>
      cases timeout <;> simp [shouldStartOrphanMitigation, IsHTTPError]
    | utilHTTP t d => simp [shouldStartOrphanMitigation, IsHTTPError]
    | notFoundInStorage => simp [shouldStartOrphanMitigation, IsHTTPError]
    | errorf msg => simp [shouldStartOrphanMitigation, IsHTTPError]
  · intro msg
    simp [shouldStartOrphanMitigation, IsHTTPError, StatusOK, StatusRequestTimeout]
  · intro s msg h1 h2
    simp only [shouldStartOrphanMitigation, IsHTTPError, StatusOK, StatusRequestTimeout]
    simp
    omega
  · intro s msg h1 h2 h3
    simp only [shouldStartOrphanMitigation, IsHTTPError, StatusOK, StatusRequestTimeout]
    simp
    omega
  · intro msg
    simp [shouldStartOrphanMitigation, IsHTTPError]
  · intro t d
    simp [shouldStartOrphanMitigation, IsHTTPError]
  · simp [shouldStartOrphanMitigation, IsHTTPError]
  · intro msg
    simp [shouldStartOrphanMitigation, IsHTTPError]

/-- C2, at sample inputs: status 404 starts no orphan mitigation, status 503 does. -/
theorem shouldStartOrphanMitigation_iff_witness :
    shouldStartOrphanMitigation (.httpStatus 404 "not found") = false ∧
      shouldStartOrphanMitigation (.httpStatus 503 "unavailable") = true :=
  ⟨(shouldStartOrphanMitigation_iff (.httpStatus 404 "not found")).2.2.2.1 404 "not found"
      (by decide) (by decide) (by decide),
    (shouldStartOrphanMitigation_iff (.httpStatus 503 "unavailable")).1.mpr
      (Or.inl ⟨503, "unavailable", rfl, Or.inr (Or.inr (by decide))⟩)⟩

/-! ## Create: the provision call fails -/

/-- The error that `AroundTxCreate` builds from a failed provision call. -/
theorem create_provision_error_run (rt : Runtime) (i : ServiceInstanceInterceptor)
    (f : ServiceInstance → Except GoError ServiceInstance) (operation : Operation)
    (obj : ServiceInstance) (schedule : List SelectEvent) (osbClient : Client)
    (broker : ServiceBroker) (service : ServiceOffering) (plan : ServicePlan)
    (trace : List Event) (err : GoError)
    (hplatform : obj.PlatformID = SMPlatform)
    (hreschedule : operation.Reschedule = false)
    (hprepare : prepare i obj [] = (trace, .ok (osbClient, broker, service, plan)))
    (hprovision :
      osbClient.ProvisionInstance (provisionRequestFor i obj service plan) = .error err) :
    AroundTxCreate rt i f (some operation) obj schedule =
      if shouldStartOrphanMitigation err then
        ⟨some { operation with DeletionScheduled := some rt.now, Reschedule := false },
          trace ++ [.ProvisionInstance (provisionRequestFor i obj service plan),
            .repoUpdate (.operation
              { operation with DeletionScheduled := some rt.now, Reschedule := false })],
          match i.repository.Update (.operation
              { operation with DeletionScheduled := some rt.now, Reschedule := false }) with
          | some uerr =>
            .fail (.errorf ("failed to update operation with id " ++ operation.ID ++
              " to schedule orphan mitigation after broker error " ++
              ("Failed provisioning request " ++
                rt.fmtProvisionRequest (provisionRequestFor i obj service plan) ++
                ": " ++ err.Error) ++ ": " ++ uerr.Error))
          | none =>
            .fail (.utilHTTP "BrokerError" ("Failed provisioning request " ++
              rt.fmtProvisionRequest (provisionRequestFor i obj service plan) ++
              ": " ++ err.Error))⟩
      else
        ⟨some operation,
          trace ++ [.ProvisionInstance (provisionRequestFor i obj service plan)],
          .fail (.utilHTTP "BrokerError" ("Failed provisioning request " ++
            rt.fmtProvisionRequest (provisionRequestFor i obj service plan) ++
            ": " ++ err.Error))⟩ := by
  unfold AroundTxCreate
  simp only [hplatform, ne_eq, not_true_eq_false, ↓reduceIte, hprepare, hreschedule,
    Bool.not_false, hprovision]
  by_cases hm : shouldStartOrphanMitigation err = true
  · simp only [hm, ↓reduceIte, GoError.Error]
    cases hu : i.repository.Update (.operation
      { operation with DeletionScheduled := some rt.now, Reschedule := false }) <;>
      simp [List.append_assoc]
  · simp [hm]

/-- C1 (as stated, refuted): a create whose Operation has reschedule=false and whose
provision call fails with status 500 does not return a BrokerError when the repository
Update of the Operation fails; it returns the plain error about the failed update. -/
theorem create_provision_failure_not_always_broker_error :
    sampleInstance.PlatformID = SMPlatform ∧
      sampleOperation.Reschedule = false ∧
      (sampleClient (.error (.httpStatus 500 "boom")) (.ok syncDeprovision)).ProvisionInstance
          (provisionRequestFor
            (sampleInterceptor (.error (.httpStatus 500 "boom")) (.ok syncDeprovision)
              (some (.errorf "conflict")) [] 0)
            sampleInstance sampleOffering samplePlan) = .error (.httpStatus 500 "boom") ∧
      ∃ e,
        (AroundTxCreate sampleRuntime
            (sampleInterceptor (.error (.httpStatus 500 "boom")) (.ok syncDeprovision)
              (some (.errorf "conflict")) [] 0)
            sampleCreate (some sampleOperation) sampleInstance []).outcome = .fail e ∧
          e.isBrokerError = false :=
  ⟨rfl, rfl, rfl, _, rfl, rfl⟩

/-- C1 (amended): for a create of a service-manager instance whose Operation has
reschedule=false and whose provision call fails, the wrapped create returns an error and
never calls `f`; the error is a BrokerError unless the provision error is
orphan-mitigatable and the repository Update of the Operation fails. When the provision
error is orphan-mitigatable the Operation gets deletion_scheduled = now and
reschedule=false and that Operation record is the one object passed to Update; for every
other provision error the Operation is unchanged and no Update is made. -/
theorem create_provision_failure (rt : Runtime) (i : ServiceInstanceInterceptor)
    (f : ServiceInstance → Except GoError ServiceInstance) (operation : Operation)
    (obj : ServiceInstance) (schedule : List SelectEvent) (osbClient : Client)
    (broker : ServiceBroker) (service : ServiceOffering) (plan : ServicePlan)
    (trace : List Event) (err : GoError)
    (hplatform : obj.PlatformID = SMPlatform)
    (hreschedule : operation.Reschedule = false)
    (hprepare : prepare i obj [] = (trace, .ok (osbClient, broker, service, plan)))
    (hprovision :
      osbClient.ProvisionInstance (provisionRequestFor i obj service plan) = .error err) :
    (∃ e, (AroundTxCreate rt i f (some operation) obj schedule).outcome = .fail e ∧
        (e.isBrokerError = true ↔
          (shouldStartOrphanMitigation err = true →
            i.repository.Update (.operation (operation.mitigationScheduled rt.now)) = none))) ∧
      (AroundTxCreate rt i f (some operation) obj schedule).trace.filter
          Event.isCallCreate = [] ∧
      (shouldStartOrphanMitigation err = true →
        (AroundTxCreate rt i f (some operation) obj schedule).operation =
            some (operation.mitigationScheduled rt.now) ∧
          (AroundTxCreate rt i f (some operation) obj schedule).trace.filter Event.isUpdate =
            [.repoUpdate (.operation (operation.mitigationScheduled rt.now))]) ∧
      (shouldStartOrphanMitigation err = false →
        (AroundTxCreate rt i f (some operation) obj schedule).operation = some operation ∧
          (AroundTxCreate rt i f (some operation) obj schedule).trace.filter
            Event.isUpdate = []) := by
  have htrace := prepare_ok_trace i obj [] trace osbClient broker service plan hprepare
  rw [create_provision_error_run rt i f operation obj schedule osbClient broker service plan
    trace err hplatform hreschedule hprepare hprovision]
  subst htrace
  by_cases hm : shouldStartOrphanMitigation err = true
  · cases hu : i.repository.Update (.operation
      { operation with DeletionScheduled := some rt.now, Reschedule := false }) <;>
      simp [hm, hu, Operation.mitigationScheduled, prepareEvents, Event.isCallCreate,
        Event.isUpdate, GoError.isBrokerError]
  · simp [hm, prepareEvents, Event.isCallCreate, Event.isUpdate, GoError.isBrokerError]

/-- C1 (amended), at a sample input: provision fails with status 500 and the Update
succeeds. -/
theorem create_provision_failure_witness :
    sampleInstance.PlatformID = SMPlatform ∧
      sampleOperation.Reschedule = false ∧
      shouldStartOrphanMitigation (.httpStatus 500 "boom") = true ∧
      (AroundTxCreate sampleRuntime
          (sampleInterceptor (.error (.httpStatus 500 "boom")) (.ok syncDeprovision) none [] 0)
          sampleCreate (some sampleOperation) sampleInstance []).operation =
        some { ID := "op1", Reschedule := false, DeletionScheduled := some 42,
               ExternalID := "" } :=
  ⟨rfl, rfl, rfl,
    ((create_provision_failure sampleRuntime
      (sampleInterceptor (.error (.httpStatus 500 "boom")) (.ok syncDeprovision) none [] 0)
      sampleCreate sampleOperation sampleInstance []
      (sampleClient (.error (.httpStatus 500 "boom")) (.ok syncDeprovision))
      sampleBroker sampleOffering samplePlan
      (prepareEvents sampleInstance samplePlan sampleOffering sampleBroker)
      (.httpStatus 500 "boom") rfl rfl rfl rfl).2.2.1 rfl).1⟩

/-! ## Lemmas on the poll loop -/

/-- The trace after `pollServiceInstance` is the trace on entry followed by polls with
the request built on entry and the Update made on a terminal reply. -/
theorem pollServiceInstance_trace (rt : Runtime) (i : ServiceInstanceInterceptor)
    (inst : ServiceInstance) (operation : Operation)
    (brokerID serviceCatalogID planCatalogID : String) (operationKey : Option String)
    (enableOrphanMitigation : Bool) (schedule : List SelectEvent) (trace : List Event) :
    ∃ added : List Event,
      (pollServiceInstance rt i inst operation brokerID serviceCatalogID planCatalogID
        operationKey enableOrphanMitigation schedule trace).trace = trace ++ added ∧
      ∀ e ∈ added,
        e = .PollLastOperation
          { InstanceID := inst.ID, ServiceID := some serviceCatalogID,
            PlanID := some planCatalogID, OperationKey := operationKey } ∨
        e = .repoUpdate (.operation { operation with Reschedule := false }) ∨
        e = .repoUpdate (.serviceInstance inst) := by
  induction schedule generalizing trace with
  | nil => exact ⟨[], by simp [pollServiceInstance]⟩
  | cons ev rest ih =>
    cases ev with
    | ctxDone => exact ⟨[], by simp [pollServiceInstance]⟩
    | tick reply =>
      unfold pollServiceInstance
      simp only []
      cases reply with
      | error err =>
        exact ⟨[.PollLastOperation
          { InstanceID := inst.ID, ServiceID := some serviceCatalogID,
            PlanID := some planCatalogID, OperationKey := operationKey }], rfl, by simp⟩
      | ok pollingResponse =>
        simp only []
        split
        · obtain ⟨added, h1, h2⟩ := ih (trace ++ [.PollLastOperation
            { InstanceID := inst.ID, ServiceID := some serviceCatalogID,
              PlanID := some planCatalogID, OperationKey := operationKey }])
          refine ⟨.PollLastOperation
            { InstanceID := inst.ID, ServiceID := some serviceCatalogID,
              PlanID := some planCatalogID, OperationKey := operationKey } :: added, ?_, ?_⟩
          · rw [h1]; simp
          · intro e he
            rcases List.mem_cons.mp he with he | he
            · exact Or.inl he
            · exact h2 e he
        · split
          · split <;>
              exact ⟨[.PollLastOperation
                { InstanceID := inst.ID, ServiceID := some serviceCatalogID,
                  PlanID := some planCatalogID, OperationKey := operationKey },
                .repoUpdate (.operation { operation with Reschedule := false })],
                by simp, by simp⟩
          · split
            · split <;>
                exact ⟨[.PollLastOperation
                  { InstanceID := inst.ID, ServiceID := some serviceCatalogID,
                    PlanID := some planCatalogID, OperationKey := operationKey },
                  .repoUpdate (.serviceInstance inst)], by simp, by simp⟩
            · exact ⟨[.PollLastOperation
                { InstanceID := inst.ID, ServiceID := some serviceCatalogID,
                  PlanID := some planCatalogID, OperationKey := operationKey }],
                rfl, by simp⟩

/-- The poll loop never calls the inner function `f`. -/
theorem pollServiceInstance_filter_callCreate (rt : Runtime) (i : ServiceInstanceInterceptor)
    (inst : ServiceInstance) (operation : Operation)
    (brokerID serviceCatalogID planCatalogID : String) (operationKey : Option String)
    (enableOrphanMitigation : Bool) (schedule : List SelectEvent) (trace : List Event) :
    (pollServiceInstance rt i inst operation brokerID serviceCatalogID planCatalogID
      operationKey enableOrphanMitigation schedule trace).trace.filter Event.isCallCreate =
      trace.filter Event.isCallCreate := by
  obtain ⟨added, h1, h2⟩ := pollServiceInstance_trace rt i inst operation brokerID
    serviceCatalogID planCatalogID operationKey enableOrphanMitigation schedule trace
  rw [h1, List.filter_append]
  have : added.filter Event.isCallCreate = [] := by
    rw [List.filter_eq_nil_iff]
    intro e he
    rcases h2 e he with h | h | h <;> simp [h, Event.isCallCreate]
  simp [this]

/-- The trace and the Operation are those of the poll run, whatever value is returned. -/
theorem Run.andReturn_trace {α : Type} (r : Run Unit) (v : α) :
    (r.andReturn v).trace = r.trace ∧ (r.andReturn v).operation = r.operation := by
  unfold Run.andReturn
  split <;> simp

/-- The end of `AroundTxCreate` calls `f` once, with the Operation as it is on entry. -/
theorem createFinish_filter_callCreate (rt : Runtime) (i : ServiceInstanceInterceptor)
    (f : ServiceInstance → Except GoError ServiceInstance)
    (broker : ServiceBroker) (service : ServiceOffering) (plan : ServicePlan)
    (operation : Operation) (obj : ServiceInstance)
    (provisionResponse : Option ProvisionResponse) (schedule : List SelectEvent)
    (trace : List Event) :
    (createFinish rt i f broker service plan operation obj provisionResponse schedule
      trace).trace.filter Event.isCallCreate =
      trace.filter Event.isCallCreate ++ [.callCreate obj (some operation)] := by
  unfold createFinish
  simp only []
  split
  · simp [Event.isCallCreate]
  · split
    · split
      · simp [Event.isCallCreate]
      · rw [(Run.andReturn_trace _ _).1, pollServiceInstance_filter_callCreate]
        simp [Event.isCallCreate]
    · simp [Event.isCallCreate]

/-! ## Create: the provision call succeeds -/

/-- How `AroundTxCreate` continues after a provision call that the broker accepted
asynchronously. -/
theorem create_async_run (rt : Runtime) (i : ServiceInstanceInterceptor)
    (f : ServiceInstance → Except GoError ServiceInstance) (operation : Operation)
    (obj : ServiceInstance) (schedule : List SelectEvent) (osbClient : Client)
    (broker : ServiceBroker) (service : ServiceOffering) (plan : ServicePlan)
    (trace : List Event) (response : ProvisionResponse)
    (hplatform : obj.PlatformID = SMPlatform)
    (hreschedule : operation.Reschedule = false)
    (hprepare : prepare i obj [] = (trace, .ok (osbClient, broker, service, plan)))
    (hprovision :
      osbClient.ProvisionInstance (provisionRequestFor i obj service plan) = .ok response)
    (hasync : response.Async = true) :
    AroundTxCreate rt i f (some operation) obj schedule =
      match i.repository.Update (.serviceInstance (applyDashboardURL obj response)) with
      | some _ =>
        ⟨some { operation with Reschedule := true },
          trace ++ [.ProvisionInstance (provisionRequestFor i obj service plan),
            .repoUpdate (.serviceInstance (applyDashboardURL obj response))],
          .fail (.errorf ("failed to update operation with id " ++
            (applyDashboardURL obj response).ID ++
            " to mark that next execution should be a reschedule"))⟩
      | none =>
        createFinish rt i f broker service plan { operation with Reschedule := true }
          (applyDashboardURL obj response) (some response) schedule
          (trace ++ [.ProvisionInstance (provisionRequestFor i obj service plan),
            .repoUpdate (.serviceInstance (applyDashboardURL obj response))]) := by
  unfold AroundTxCreate
  simp only [hplatform, ne_eq, not_true_eq_false, ↓reduceIte, hprepare, hreschedule,
    Bool.not_false, hprovision, hasync]
  cases hu : i.repository.Update (.serviceInstance (applyDashboardURL obj response)) <;>
    simp [List.append_assoc]

/-- How `AroundTxCreate` continues after a provision call that the broker completed
synchronously. -/
theorem create_sync_run (rt : Runtime) (i : ServiceInstanceInterceptor)
    (f : ServiceInstance → Except GoError ServiceInstance) (operation : Operation)
    (obj : ServiceInstance) (schedule : List SelectEvent) (osbClient : Client)
    (broker : ServiceBroker) (service : ServiceOffering) (plan : ServicePlan)
    (trace : List Event) (response : ProvisionResponse)
    (hplatform : obj.PlatformID = SMPlatform)
    (hreschedule : operation.Reschedule = false)
    (hprepare : prepare i obj [] = (trace, .ok (osbClient, broker, service, plan)))
    (hprovision :
      osbClient.ProvisionInstance (provisionRequestFor i obj service plan) = .ok response)
    (hsync : response.Async = false) :
    AroundTxCreate rt i f (some operation) obj schedule =
      ⟨some operation,
        trace ++ [.ProvisionInstance (provisionRequestFor i obj service plan),
          .callCreate (applyDashboardURL obj response) (some operation)],
        match f (applyDashboardURL obj response) with
        | .ok object => .ret object
        | .error err => .fail err⟩ := by
  unfold AroundTxCreate
  simp only [hplatform, ne_eq, not_true_eq_false, ↓reduceIte, hprepare, hreschedule,
    Bool.not_false, hprovision, hsync, createFinish]
  cases hf : f (applyDashboardURL obj response) <;> simp [List.append_assoc]

/-- The poll loop leaves the id and the external id of the Operation as they are. -/
theorem pollServiceInstance_operation (rt : Runtime) (i : ServiceInstanceInterceptor)
    (inst : ServiceInstance) (operation : Operation)
    (brokerID serviceCatalogID planCatalogID : String) (operationKey : Option String)
    (enableOrphanMitigation : Bool) (schedule : List SelectEvent) (trace : List Event) :
    ∃ operation',
      (pollServiceInstance rt i inst operation brokerID serviceCatalogID planCatalogID
        operationKey enableOrphanMitigation schedule trace).operation = some operation' ∧
      operation'.ID = operation.ID ∧ operation'.ExternalID = operation.ExternalID := by
  induction schedule generalizing trace with
  | nil => exact ⟨operation, by simp [pollServiceInstance]⟩
  | cons ev rest ih =>
    cases ev with
    | ctxDone => exact ⟨operation, by simp [pollServiceInstance]⟩
    | tick reply =>
      unfold pollServiceInstance
      simp only []
      cases reply with
      | error err => exact ⟨operation, rfl, rfl, rfl⟩
      | ok pollingResponse =>
        simp only []
        split
        · exact ih _
        · split
          · split <;> exact ⟨_, rfl, rfl, rfl⟩
          · split
            · cases enableOrphanMitigation <;> split <;> exact ⟨_, rfl, rfl, rfl⟩
            · exact ⟨operation, rfl, rfl, rfl⟩

/-- Every poll that the end of `AroundTxCreate` sends carries the operation key of the
provision response. -/
theorem createFinish_polls (rt : Runtime) (i : ServiceInstanceInterceptor)
    (f : ServiceInstance → Except GoError ServiceInstance)
    (broker : ServiceBroker) (service : ServiceOffering) (plan : ServicePlan)
    (operation : Operation) (obj : ServiceInstance)
    (response : ProvisionResponse) (schedule : List SelectEvent)
    (trace : List Event) (e : Event)
    (he : e ∈ (createFinish rt i f broker service plan operation obj (some response)
      schedule trace).trace)
    (hpoll : e.isPoll = true) :
    e ∈ trace ∨ ∃ req, e = .PollLastOperation req ∧ req.OperationKey = response.OperationKey := by
  unfold createFinish at he
  simp only [] at he
  split at he
  · simp at he
    rcases he with he | he
    · exact Or.inl he
    · simp [he, Event.isPoll] at hpoll
  · split at he
    · rw [(Run.andReturn_trace _ _).1] at he
      obtain ⟨added, h1, h2⟩ := pollServiceInstance_trace rt i _ operation broker.ID
        service.CatalogID plan.CatalogID response.OperationKey true schedule
        (trace ++ [.callCreate obj (some operation)])
      rw [h1] at he
      simp only [List.mem_append, List.mem_singleton] at he
      rcases he with (he | he) | he
      · exact Or.inl he
      · simp [he, Event.isPoll] at hpoll
      · rcases h2 e he with h | h | h
        · exact Or.inr ⟨_, h, rfl⟩
        · simp [h, Event.isPoll] at hpoll
        · simp [h, Event.isPoll] at hpoll
    · simp at he
      rcases he with he | he
      · exact Or.inl he
      · simp [he, Event.isPoll] at hpoll

/-- The end of `AroundTxCreate` leaves the external id of the Operation as it is. -/
theorem createFinish_externalID (rt : Runtime) (i : ServiceInstanceInterceptor)
    (f : ServiceInstance → Except GoError ServiceInstance)
    (broker : ServiceBroker) (service : ServiceOffering) (plan : ServicePlan)
    (operation : Operation) (obj : ServiceInstance)
    (provisionResponse : Option ProvisionResponse) (schedule : List SelectEvent)
    (trace : List Event) :
    ∃ operation',
      (createFinish rt i f broker service plan operation obj provisionResponse schedule
        trace).operation = some operation' ∧
      operation'.ExternalID = operation.ExternalID := by
  unfold createFinish
  simp only []
  split
  · exact ⟨operation, rfl, rfl⟩
  · split
    · split
      · exact ⟨operation, rfl, rfl⟩
      · rw [(Run.andReturn_trace _ _).2]
        obtain ⟨op', h1, -, h3⟩ := pollServiceInstance_operation rt i _ operation broker.ID
          service.CatalogID plan.CatalogID _ true schedule
          (trace ++ [.callCreate obj (some operation)])
        exact ⟨op', h1, h3⟩
    · exact ⟨operation, rfl, rfl⟩

/-- A poll loop that starts with a tick of the ticker sends a poll request with the
request built on entry as its first call. -/
theorem pollServiceInstance_first_tick (rt : Runtime) (i : ServiceInstanceInterceptor)
    (inst : ServiceInstance) (operation : Operation)
    (brokerID serviceCatalogID planCatalogID : String) (operationKey : Option String)
    (enableOrphanMitigation : Bool) (reply : Except GoError LastOperationResponse)
    (rest : List SelectEvent) (trace : List Event) :
    ∃ added : List Event,
      (pollServiceInstance rt i inst operation brokerID serviceCatalogID planCatalogID
        operationKey enableOrphanMitigation (.tick reply :: rest) trace).trace =
        trace ++ .PollLastOperation
          { InstanceID := inst.ID, ServiceID := some serviceCatalogID,
            PlanID := some planCatalogID, OperationKey := operationKey } :: added := by
  unfold pollServiceInstance
  simp only []
  cases reply with
  | error err => exact ⟨[], by simp⟩
  | ok pollingResponse =>
    simp only []
    split
    · obtain ⟨added, h1, -⟩ := pollServiceInstance_trace rt i inst operation brokerID
        serviceCatalogID planCatalogID operationKey enableOrphanMitigation rest
        (trace ++ [.PollLastOperation
          { InstanceID := inst.ID, ServiceID := some serviceCatalogID,
            PlanID := some planCatalogID, OperationKey := operationKey }])
      exact ⟨added, by rw [h1]; simp⟩
    · split
      · split <;>
          exact ⟨[.repoUpdate (.operation { operation with Reschedule := false })],
            by simp⟩
      · split
        · split <;> exact ⟨[.repoUpdate (.serviceInstance inst)], by simp⟩
        · exact ⟨[], by simp⟩

/-- After a provision call that the broker accepted asynchronously, an Update that
succeeded and an inner create function that succeeded, `AroundTxCreate` runs the poller
on the object returned by `f`, with the Operation marked for reschedule, the catalog
ids of the resolved offering and plan, the operation key of the provision response and
orphan mitigation enabled, and returns that object when the poller returns nil. -/
theorem create_async_poll_run (rt : Runtime) (i : ServiceInstanceInterceptor)
    (f : ServiceInstance → Except GoError ServiceInstance) (operation : Operation)
    (obj : ServiceInstance) (schedule : List SelectEvent) (osbClient : Client)
    (broker : ServiceBroker) (service : ServiceOffering) (plan : ServicePlan)
    (trace : List Event) (response : ProvisionResponse) (object : ServiceInstance)
    (hplatform : obj.PlatformID = SMPlatform)
    (hreschedule : operation.Reschedule = false)
    (hprepare : prepare i obj [] = (trace, .ok (osbClient, broker, service, plan)))
    (hprovision :
      osbClient.ProvisionInstance (provisionRequestFor i obj service plan) = .ok response)
    (hasync : response.Async = true)
    (hupdate :
      i.repository.Update (.serviceInstance (applyDashboardURL obj response)) = none)
    (hf : f (applyDashboardURL obj response) = .ok object) :
    AroundTxCreate rt i f (some operation) obj schedule =
      (pollServiceInstance rt i object
        { ID := operation.ID, Reschedule := true,
          DeletionScheduled := operation.DeletionScheduled,
          ExternalID := operation.ExternalID }
        broker.ID service.CatalogID plan.CatalogID response.OperationKey true schedule
        (trace ++ [.ProvisionInstance (provisionRequestFor i obj service plan),
          .repoUpdate (.serviceInstance (applyDashboardURL obj response)),
          .callCreate (applyDashboardURL obj response)
            (some { ID := operation.ID, Reschedule := true,
                    DeletionScheduled := operation.DeletionScheduled,
                    ExternalID := operation.ExternalID })])).andReturn object := by
  rw [create_async_run rt i f operation obj schedule osbClient broker service plan
    trace response hplatform hreschedule hprepare hprovision hasync]
  simp [hupdate, createFinish, hf, List.append_assoc]

/-- The first call of the poller that follows an asynchronous provision, when the
schedule starts with a tick of the ticker: a poll request for the object returned by
`f` with the operation key of the provision response. -/
theorem create_async_first_poll (rt : Runtime) (i : ServiceInstanceInterceptor)
    (f : ServiceInstance → Except GoError ServiceInstance) (operation : Operation)
    (obj : ServiceInstance) (osbClient : Client)
    (broker : ServiceBroker) (service : ServiceOffering) (plan : ServicePlan)
    (trace : List Event) (response : ProvisionResponse) (object : ServiceInstance)
    (reply : Except GoError LastOperationResponse) (rest : List SelectEvent)
    (hplatform : obj.PlatformID = SMPlatform)
    (hreschedule : operation.Reschedule = false)
    (hprepare : prepare i obj [] = (trace, .ok (osbClient, broker, service, plan)))
    (hprovision :
      osbClient.ProvisionInstance (provisionRequestFor i obj service plan) = .ok response)
    (hasync : response.Async = true)
    (hupdate :
      i.repository.Update (.serviceInstance (applyDashboardURL obj response)) = none)
    (hf : f (applyDashboardURL obj response) = .ok object) :
    ∃ added : List Event,
      (AroundTxCreate rt i f (some operation) obj (.tick reply :: rest)).trace =
        trace ++ [.ProvisionInstance (provisionRequestFor i obj service plan),
          .repoUpdate (.serviceInstance (applyDashboardURL obj response)),
          .callCreate (applyDashboardURL obj response)
            (some { ID := operation.ID, Reschedule := true,
                    DeletionScheduled := operation.DeletionScheduled,
                    ExternalID := operation.ExternalID }),
          .PollLastOperation
            { InstanceID := object.ID, ServiceID := some service.CatalogID,
              PlanID := some plan.CatalogID, OperationKey := response.OperationKey }] ++
          added := by
  rw [create_async_poll_run rt i f operation obj _ osbClient broker service plan trace
    response object hplatform hreschedule hprepare hprovision hasync hupdate hf,
    (Run.andReturn_trace _ _).1]
  obtain ⟨added, h⟩ := pollServiceInstance_first_tick rt i object
    { ID := operation.ID, Reschedule := true,
      DeletionScheduled := operation.DeletionScheduled,
      ExternalID := operation.ExternalID }
    broker.ID service.CatalogID plan.CatalogID response.OperationKey true reply rest
    (trace ++ [.ProvisionInstance (provisionRequestFor i obj service plan),
      .repoUpdate (.serviceInstance (applyDashboardURL obj response)),
      .callCreate (applyDashboardURL obj response)
        (some { ID := operation.ID, Reschedule := true,
                DeletionScheduled := operation.DeletionScheduled,
                ExternalID := operation.ExternalID })])
  exact ⟨added, by rw [h]; simp⟩

/-- C3 (as stated, refuted): after a provision call that the broker accepted
asynchronously with operation key `key-1`, the object handed to Update is the service
instance, not the Operation record, and when `f` is called the Operation in the context
has reschedule=true but an external id that is still empty. -/
theorem create_async_update_and_external_id :
    (sampleClient (.ok asyncProvision) (.ok syncDeprovision)).ProvisionInstance
        (provisionRequestFor
          (sampleInterceptor (.ok asyncProvision) (.ok syncDeprovision) none [] 0)
          sampleInstance sampleOffering samplePlan) = .ok asyncProvision ∧
      asyncProvision.OperationKey = some "key-1" ∧
      (AroundTxCreate sampleRuntime
          (sampleInterceptor (.ok asyncProvision) (.ok syncDeprovision) none [] 0)
          sampleCreate (some sampleOperation) sampleInstance []).trace =
        prepareEvents sampleInstance samplePlan sampleOffering sampleBroker ++
          [.ProvisionInstance
              (provisionRequestFor
                (sampleInterceptor (.ok asyncProvision) (.ok syncDeprovision) none [] 0)
                sampleInstance sampleOffering samplePlan),
            .repoUpdate (.serviceInstance sampleInstance),
            .callCreate sampleInstance
              (some { ID := "op1", Reschedule := true, DeletionScheduled := none,
                      ExternalID := "" })] ∧
      (AroundTxCreate sampleRuntime
          (sampleInterceptor (.ok asyncProvision) (.ok syncDeprovision) none [] 0)
          sampleCreate (some sampleOperation) sampleInstance []).trace.filter
          Event.isUpdate = [.repoUpdate (.serviceInstance sampleInstance)] ∧
      some ("" : String) ≠ asyncProvision.OperationKey :=
  ⟨rfl, rfl, rfl, rfl, by decide⟩

/-- C3 (amended): for a create of a service-manager instance whose provision call is
accepted asynchronously, `f` is executed exactly when the repository Update that follows
the provision succeeds, and at that time the Operation in the context has
reschedule=true and its external id as on entry; the operation key returned by the
broker is not stored in the Operation (the external id is the same at the end of the
run) but is passed directly to the poller: when that Update and `f` succeed, the run
continues as the poller called with that key for the object returned by `f`, every poll
request sent carries that key, and a poll request with that key is sent as soon as the
ticker fires. -/
theorem create_async_before_f (rt : Runtime) (i : ServiceInstanceInterceptor)
    (f : ServiceInstance → Except GoError ServiceInstance) (operation : Operation)
    (obj : ServiceInstance) (schedule : List SelectEvent) (osbClient : Client)
    (broker : ServiceBroker) (service : ServiceOffering) (plan : ServicePlan)
    (trace : List Event) (response : ProvisionResponse)
    (hplatform : obj.PlatformID = SMPlatform)
    (hreschedule : operation.Reschedule = false)
    (hprepare : prepare i obj [] = (trace, .ok (osbClient, broker, service, plan)))
    (hprovision :
      osbClient.ProvisionInstance (provisionRequestFor i obj service plan) = .ok response)
    (hasync : response.Async = true) :
    (AroundTxCreate rt i f (some operation) obj schedule).trace.filter Event.isCallCreate =
        (if i.repository.Update (.serviceInstance (applyDashboardURL obj response)) = none
          then
            [.callCreate (applyDashboardURL obj response)
              (some { ID := operation.ID, Reschedule := true,
                      DeletionScheduled := operation.DeletionScheduled,
                      ExternalID := operation.ExternalID })]
          else []) ∧
      (∃ operation',
        (AroundTxCreate rt i f (some operation) obj schedule).operation = some operation' ∧
          operation'.ExternalID = operation.ExternalID) ∧
      (∀ e ∈ (AroundTxCreate rt i f (some operation) obj schedule).trace,
        e.isPoll = true →
          ∃ req, e = .PollLastOperation req ∧ req.OperationKey = response.OperationKey) ∧
      (∀ object,
        i.repository.Update (.serviceInstance (applyDashboardURL obj response)) = none →
        f (applyDashboardURL obj response) = .ok object →
        AroundTxCreate rt i f (some operation) obj schedule =
          (pollServiceInstance rt i object
            { ID := operation.ID, Reschedule := true,
              DeletionScheduled := operation.DeletionScheduled,
              ExternalID := operation.ExternalID }
            broker.ID service.CatalogID plan.CatalogID response.OperationKey true schedule
            (trace ++ [.ProvisionInstance (provisionRequestFor i obj service plan),
              .repoUpdate (.serviceInstance (applyDashboardURL obj response)),
              .callCreate (applyDashboardURL obj response)
                (some { ID := operation.ID, Reschedule := true,
                        DeletionScheduled := operation.DeletionScheduled,
                        ExternalID := operation.ExternalID })])).andReturn object) ∧
      (∀ object reply rest,
        i.repository.Update (.serviceInstance (applyDashboardURL obj response)) = none →
        f (applyDashboardURL obj response) = .ok object →
        schedule = .tick reply :: rest →
        (AroundTxCreate rt i f (some operation) obj schedule).trace.filter Event.isPoll ≠
            [] ∧
          .PollLastOperation
              { InstanceID := object.ID, ServiceID := some service.CatalogID,
                PlanID := some plan.CatalogID, OperationKey := response.OperationKey } ∈
            (AroundTxCreate rt i f (some operation) obj schedule).trace) := by
  refine ⟨?_, ?_, ?_, ?_, ?_⟩
  · have htrace := prepare_ok_trace i obj [] trace osbClient broker service plan hprepare
    rw [create_async_run rt i f operation obj schedule osbClient broker service plan
      trace response hplatform hreschedule hprepare hprovision hasync]
    subst htrace
    cases hu : i.repository.Update (.serviceInstance (applyDashboardURL obj response)) with
    | some uerr => simp [prepareEvents, Event.isCallCreate]
    | none =>
      simp only [createFinish_filter_callCreate]
      simp [prepareEvents, Event.isCallCreate]
  · rw [create_async_run rt i f operation obj schedule osbClient broker service plan
      trace response hplatform hreschedule hprepare hprovision hasync]
    cases hu : i.repository.Update (.serviceInstance (applyDashboardURL obj response)) with
    | some uerr => exact ⟨_, rfl, rfl⟩
    | none => exact createFinish_externalID rt i f broker service plan _ _ _ schedule _
  · have htrace := prepare_ok_trace i obj [] trace osbClient broker service plan hprepare
    rw [create_async_run rt i f operation obj schedule osbClient broker service plan
      trace response hplatform hreschedule hprepare hprovision hasync]
    subst htrace
    cases hu : i.repository.Update (.serviceInstance (applyDashboardURL obj response)) with
    | some uerr =>
      intro e he hpoll
      simp [prepareEvents] at he
      rcases he with he | he | he | he | he | he <;> simp [he, Event.isPoll] at hpoll
    | none =>
      intro e he hpoll
      rcases createFinish_polls rt i f broker service plan _ _ response schedule _ e he
        hpoll with h | h
      · simp [prepareEvents] at h
        rcases h with h | h | h | h | h | h <;> simp [h, Event.isPoll] at hpoll
      · exact h
  · intro object hupdate hf
    exact create_async_poll_run rt i f operation obj schedule osbClient broker service plan
      trace response object hplatform hreschedule hprepare hprovision hasync hupdate hf
  · intro object reply rest hupdate hf hschedule
    subst hschedule
    obtain ⟨added, h⟩ := create_async_first_poll rt i f operation obj osbClient broker
      service plan trace response object reply rest hplatform hreschedule hprepare
      hprovision hasync hupdate hf
    rw [h]
    constructor
    · simp [List.filter_append, Event.isPoll]
    · simp

/-- C3 (amended), at a sample input: asynchronous provision with operation key `key-1`,
one in-progress poll, then success. Both poll requests carry `key-1`. -/
theorem create_async_before_f_witness :
    sampleInstance.PlatformID = SMPlatform ∧
      sampleOperation.Reschedule = false ∧
      asyncProvision.Async = true ∧
      asyncProvision.OperationKey = some "key-1" ∧
      (AroundTxCreate sampleRuntime
          (sampleInterceptor (.ok asyncProvision) (.ok syncDeprovision) none [] 0)
          sampleCreate (some sampleOperation) sampleInstance
          [.tick (.ok { State := StateInProgress, Description := none }),
            .tick (.ok { State := StateSucceeded, Description := none })]).trace =
        prepareEvents sampleInstance samplePlan sampleOffering sampleBroker ++
          [.ProvisionInstance
              (provisionRequestFor
                (sampleInterceptor (.ok asyncProvision) (.ok syncDeprovision) none [] 0)
                sampleInstance sampleOffering samplePlan),
            .repoUpdate (.serviceInstance sampleInstance),
            .callCreate sampleInstance
              (some { ID := "op1", Reschedule := true, DeletionScheduled := none,
                      ExternalID := "" }),
            .PollLastOperation
              { InstanceID := "i1", ServiceID := some "cs1", PlanID := some "cp1",
                OperationKey := some "key-1" },
            .PollLastOperation
              { InstanceID := "i1", ServiceID := some "cs1", PlanID := some "cp1",
                OperationKey := some "key-1" },
            .repoUpdate (.operation
              { ID := "op1", Reschedule := false, DeletionScheduled := none,
                ExternalID := "" })] ∧
      .PollLastOperation
          { InstanceID := "i1", ServiceID := some "cs1", PlanID := some "cp1",
            OperationKey := some "key-1" } ∈
        (AroundTxCreate sampleRuntime
          (sampleInterceptor (.ok asyncProvision) (.ok syncDeprovision) none [] 0)
          sampleCreate (some sampleOperation) sampleInstance
          [.tick (.ok { State := StateInProgress, Description := none }),
            .tick (.ok { State := StateSucceeded, Description := none })]).trace :=
  ⟨rfl, rfl, rfl, rfl, rfl,
    ((create_async_before_f sampleRuntime
      (sampleInterceptor (.ok asyncProvision) (.ok syncDeprovision) none [] 0)
      sampleCreate sampleOperation sampleInstance
      [.tick (.ok { State := StateInProgress, Description := none }),
        .tick (.ok { State := StateSucceeded, Description := none })]
      (sampleClient (.ok asyncProvision) (.ok syncDeprovision))
      sampleBroker sampleOffering samplePlan
      (prepareEvents sampleInstance samplePlan sampleOffering sampleBroker)
      asyncProvision rfl rfl rfl rfl rfl).2.2.2.2 sampleInstance
        (.ok { State := StateInProgress, Description := none })
        [.tick (.ok { State := StateSucceeded, Description := none })] rfl rfl rfl).2⟩

/-! ## Lemmas on delete -/

/-- The outcome of `prepare` does not depend on the trace so far, and its events are
added after that trace. -/
theorem prepare_append (i : ServiceInstanceInterceptor) (inst : ServiceInstance)
    (trace : List Event) :
    prepare i inst trace = (trace ++ (prepare i inst []).1, (prepare i inst []).2) := by
  unfold prepare
  simp only []
  split
  · simp
  · split
    · simp
    · split
      · simp
      · split <;> simp

/-- A successful `prepare`, started from any trace. -/
theorem prepare_ok_from (i : ServiceInstanceInterceptor) (inst : ServiceInstance)
    (trace trace0 : List Event) (osbClient : Client) (broker : ServiceBroker)
    (service : ServiceOffering) (plan : ServicePlan)
    (h : prepare i inst [] = (trace0, .ok (osbClient, broker, service, plan))) :
    prepare i inst trace =
      (trace ++ prepareEvents inst plan service broker,
        .ok (osbClient, broker, service, plan)) := by
  have h0 := prepare_ok_trace i inst [] trace0 osbClient broker service plan h
  rw [prepare_append, h, h0]
  simp

/-- A delete that matches one service-manager instance, with an Operation in the
context, runs `deleteSingleInstance` and calls `f` when that returns nil. -/
theorem delete_single_run (rt : Runtime) (i : ServiceInstanceInterceptor)
    (f : List Criterion → Option GoError) (operation : Operation)
    (deletionCriteria : List Criterion) (schedule : List SelectEvent)
    (inst : ServiceInstance)
    (hlist : i.repository.ListInstances deletionCriteria = .ok [inst])
    (hplatform : inst.PlatformID = SMPlatform) :
    AroundTxDelete rt i f (some operation) deletionCriteria schedule =
      match (deleteSingleInstance rt i inst operation schedule
          [.repoList .ServiceInstanceType deletionCriteria]).outcome with
      | .ret _ =>
        deleteFinish f
          (deleteSingleInstance rt i inst operation schedule
            [.repoList .ServiceInstanceType deletionCriteria]).operation
          deletionCriteria
          (deleteSingleInstance rt i inst operation schedule
            [.repoList .ServiceInstanceType deletionCriteria]).trace
      | _ =>
        deleteSingleInstance rt i inst operation schedule
          [.repoList .ServiceInstanceType deletionCriteria] := by
  unfold AroundTxDelete
  simp [hlist, hplatform]

/-- The part of `deleteSingleInstance` after the binding count and `prepare`, when there
are no bindings and the Operation is not marked for reschedule: the deprovision call. -/
theorem deleteSingleInstance_deprovision (rt : Runtime) (i : ServiceInstanceInterceptor)
    (inst : ServiceInstance) (operation : Operation) (schedule : List SelectEvent)
    (trace trace0 : List Event) (osbClient : Client) (broker : ServiceBroker)
    (service : ServiceOffering) (plan : ServicePlan) (bindingsCount : Int)
    (hcount : i.repository.Count .ServiceBindingType
      [ByField EqualsOperator "service_instance_id" [inst.ID]] = .ok bindingsCount)
    (hnone : ¬ bindingsCount > 0)
    (hprepare : prepare i inst [] = (trace0, .ok (osbClient, broker, service, plan)))
    (hreschedule : operation.Reschedule = false) :
    deleteSingleInstance rt i inst operation schedule trace =
      match osbClient.DeprovisionInstance
          { InstanceID := inst.ID, AcceptsIncomplete := true,
            ServiceID := service.CatalogID, PlanID := plan.CatalogID } with
      | .error err =>
        if IsGoneError err then
          ⟨some operation,
            trace ++ [.repoCount .ServiceBindingType
                [ByField EqualsOperator "service_instance_id" [inst.ID]]] ++
              prepareEvents inst plan service broker ++
              [.DeprovisionInstance
                { InstanceID := inst.ID, AcceptsIncomplete := true,
                  ServiceID := service.CatalogID, PlanID := plan.CatalogID }],
            .ret ()⟩
        else if shouldStartOrphanMitigation err then
          ⟨some (operation.mitigationScheduled rt.now),
            trace ++ [.repoCount .ServiceBindingType
                [ByField EqualsOperator "service_instance_id" [inst.ID]]] ++
              prepareEvents inst plan service broker ++
              [.DeprovisionInstance
                { InstanceID := inst.ID, AcceptsIncomplete := true,
                  ServiceID := service.CatalogID, PlanID := plan.CatalogID },
                .repoUpdate (.operation (operation.mitigationScheduled rt.now))],
            match i.repository.Update
                (.operation (operation.mitigationScheduled rt.now)) with
            | some uerr =>
              .fail (.errorf ("failed to update operation with id " ++ operation.ID ++
                " to schedule orphan mitigation after broker error " ++
                ("Failed deprovisioning request " ++
                  rt.fmtDeprovisionRequest
                    { InstanceID := inst.ID, AcceptsIncomplete := true,
                      ServiceID := service.CatalogID, PlanID := plan.CatalogID } ++
                  ": " ++ err.Error) ++ ": " ++ uerr.Error))
            | none =>
              .fail (.utilHTTP "BrokerError" ("Failed deprovisioning request " ++
                rt.fmtDeprovisionRequest
                  { InstanceID := inst.ID, AcceptsIncomplete := true,
                    ServiceID := service.CatalogID, PlanID := plan.CatalogID } ++
                ": " ++ err.Error))⟩
        else
          ⟨some operation,
            trace ++ [.repoCount .ServiceBindingType
                [ByField EqualsOperator "service_instance_id" [inst.ID]]] ++
              prepareEvents inst plan service broker ++
              [.DeprovisionInstance
                { InstanceID := inst.ID, AcceptsIncomplete := true,
                  ServiceID := service.CatalogID, PlanID := plan.CatalogID }],
            .fail (.utilHTTP "BrokerError" ("Failed deprovisioning request " ++
              rt.fmtDeprovisionRequest
                { InstanceID := inst.ID, AcceptsIncomplete := true,
                  ServiceID := service.CatalogID, PlanID := plan.CatalogID } ++
              ": " ++ err.Error))⟩
      | .ok response =>
        if response.Async then
          match i.repository.Update (.serviceInstance inst) with
          | some _ =>
            ⟨some { operation with Reschedule := true },
              trace ++ [.repoCount .ServiceBindingType
                  [ByField EqualsOperator "service_instance_id" [inst.ID]]] ++
                prepareEvents inst plan service broker ++
                [.DeprovisionInstance
                  { InstanceID := inst.ID, AcceptsIncomplete := true,
                    ServiceID := service.CatalogID, PlanID := plan.CatalogID },
                  .repoUpdate (.serviceInstance inst)],
              .fail (.errorf ("failed to update operation with id " ++ operation.ID ++
                " to mark that rescheduling is possible"))⟩
          | none =>
            pollServiceInstance rt i inst { operation with Reschedule := true } broker.ID
              service.CatalogID plan.CatalogID response.OperationKey true schedule
              (trace ++ [.repoCount .ServiceBindingType
                  [ByField EqualsOperator "service_instance_id" [inst.ID]]] ++
                prepareEvents inst plan service broker ++
                [.DeprovisionInstance
                  { InstanceID := inst.ID, AcceptsIncomplete := true,
                    ServiceID := service.CatalogID, PlanID := plan.CatalogID },
                  .repoUpdate (.serviceInstance inst)])
        else
          ⟨some operation,
            trace ++ [.repoCount .ServiceBindingType
                [ByField EqualsOperator "service_instance_id" [inst.ID]]] ++
              prepareEvents inst plan service broker ++
              [.DeprovisionInstance
                { InstanceID := inst.ID, AcceptsIncomplete := true,
                  ServiceID := service.CatalogID, PlanID := plan.CatalogID }],
            .ret ()⟩ := by
  unfold deleteSingleInstance
  simp only [hcount, hnone, ↓reduceIte,
    prepare_ok_from i inst _ trace0 osbClient broker service plan hprepare, hreschedule,
    Bool.not_false, deletePoll, Operation.mitigationScheduled]
  cases hd : osbClient.DeprovisionInstance
      { InstanceID := inst.ID, AcceptsIncomplete := true,
        ServiceID := service.CatalogID, PlanID := plan.CatalogID } with
  | error err =>
    simp only []
    by_cases hg : IsGoneError err = true
    · simp [hg]
    · by_cases hm : shouldStartOrphanMitigation err = true
      · simp only [hg, hm, ↓reduceIte, GoError.Error]
        cases hu : i.repository.Update (.operation
          { operation with DeletionScheduled := some rt.now, Reschedule := false }) <;>
          simp [List.append_assoc]
      · simp [hg, hm]
  | ok response =>
    simp only []
    by_cases ha : response.Async = true
    · simp only [ha, ↓reduceIte]
      cases hu : i.repository.Update (.serviceInstance inst) <;> simp [List.append_assoc]
    · simp [ha, hreschedule]

/-- The part of `deleteSingleInstance` after the binding count and `prepare`, when there
are no bindings and the Operation is already marked for reschedule: no deprovision
request is sent and the read of the operation key faults. -/
theorem deleteSingleInstance_resumed (rt : Runtime) (i : ServiceInstanceInterceptor)
    (inst : ServiceInstance) (operation : Operation) (schedule : List SelectEvent)
    (trace trace0 : List Event) (osbClient : Client) (broker : ServiceBroker)
    (service : ServiceOffering) (plan : ServicePlan) (bindingsCount : Int)
    (hcount : i.repository.Count .ServiceBindingType
      [ByField EqualsOperator "service_instance_id" [inst.ID]] = .ok bindingsCount)
    (hnone : ¬ bindingsCount > 0)
    (hprepare : prepare i inst [] = (trace0, .ok (osbClient, broker, service, plan)))
    (hreschedule : operation.Reschedule = true) :
    deleteSingleInstance rt i inst operation schedule trace =
      ⟨some operation,
        trace ++ [.repoCount .ServiceBindingType
            [ByField EqualsOperator "service_instance_id" [inst.ID]]] ++
          prepareEvents inst plan service broker,
        .nilDereference⟩ := by
  unfold deleteSingleInstance
  simp [hcount, hnone, prepare_ok_from i inst _ trace0 osbClient broker service plan hprepare,
    hreschedule, deletePoll]

/-! ## Resumed operations -/

/-- A create whose Operation is already marked for reschedule sends no provision
request, calls `f`, and, when `f` succeeds, faults on reading the operation key of the
provision response, which is nil. -/
theorem create_resumed_run (rt : Runtime) (i : ServiceInstanceInterceptor)
    (f : ServiceInstance → Except GoError ServiceInstance) (operation : Operation)
    (obj : ServiceInstance) (schedule : List SelectEvent) (osbClient : Client)
    (broker : ServiceBroker) (service : ServiceOffering) (plan : ServicePlan)
    (trace : List Event)
    (hplatform : obj.PlatformID = SMPlatform)
    (hreschedule : operation.Reschedule = true)
    (hprepare : prepare i obj [] = (trace, .ok (osbClient, broker, service, plan))) :
    AroundTxCreate rt i f (some operation) obj schedule =
      ⟨some operation, trace ++ [.callCreate obj (some operation)],
        match f obj with
        | .ok _ => .nilDereference
        | .error err => .fail err⟩ := by
  unfold AroundTxCreate
  simp only [hplatform, ne_eq, not_true_eq_false, ↓reduceIte, hprepare, hreschedule,
    Bool.not_true, createFinish]
  cases hf : f obj <;> simp

/-- A delete of one service-manager instance without bindings whose Operation is
already marked for reschedule sends no deprovision request, faults on reading the
operation key of the deprovision response, which is nil, and never reaches `f`. -/
theorem delete_resumed_run (rt : Runtime) (i : ServiceInstanceInterceptor)
    (f : List Criterion → Option GoError) (operation : Operation)
    (deletionCriteria : List Criterion) (schedule : List SelectEvent)
    (inst : ServiceInstance) (trace0 : List Event) (osbClient : Client)
    (broker : ServiceBroker) (service : ServiceOffering) (plan : ServicePlan)
    (bindingsCount : Int)
    (hlist : i.repository.ListInstances deletionCriteria = .ok [inst])
    (hplatform : inst.PlatformID = SMPlatform)
    (hcount : i.repository.Count .ServiceBindingType
      [ByField EqualsOperator "service_instance_id" [inst.ID]] = .ok bindingsCount)
    (hnone : ¬ bindingsCount > 0)
    (hprepare : prepare i inst [] = (trace0, .ok (osbClient, broker, service, plan)))
    (hreschedule : operation.Reschedule = true) :
    AroundTxDelete rt i f (some operation) deletionCriteria schedule =
      ⟨some operation,
        [.repoList .ServiceInstanceType deletionCriteria,
          .repoCount .ServiceBindingType
            [ByField EqualsOperator "service_instance_id" [inst.ID]]] ++
          prepareEvents inst plan service broker,
        .nilDereference⟩ := by
  rw [delete_single_run rt i f operation deletionCriteria schedule inst hlist hplatform,
    deleteSingleInstance_resumed rt i inst operation schedule _ trace0 osbClient broker
      service plan bindingsCount hcount hnone hprepare hreschedule]
  simp

/-- C4 (code at the failing input): a create and a delete resumed with an Operation
that has reschedule=true and a stored operation key, with the broker ready to report
success on the first poll. Neither run sends a provision, deprovision or poll request;
both end in a nil pointer dereference, the create after `f` has run and the delete
before `f` is reached. -/
theorem resumed_operation_nil_dereference :
    sampleResumedOperation.Reschedule = true ∧
      AroundTxCreate sampleRuntime
          (sampleInterceptor (.ok asyncProvision) (.ok asyncDeprovision) none
            [sampleInstance] 0)
          sampleCreate (some sampleResumedOperation) sampleInstance
          [.tick (.ok { State := StateSucceeded, Description := none })] =
        ⟨some sampleResumedOperation,
          prepareEvents sampleInstance samplePlan sampleOffering sampleBroker ++
            [.callCreate sampleInstance (some sampleResumedOperation)],
          .nilDereference⟩ ∧
      AroundTxDelete sampleRuntime
          (sampleInterceptor (.ok asyncProvision) (.ok asyncDeprovision) none
            [sampleInstance] 0)
          sampleDelete (some sampleResumedOperation) []
          [.tick (.ok { State := StateSucceeded, Description := none })] =
        ⟨some sampleResumedOperation,
          [.repoList .ServiceInstanceType [],
            .repoCount .ServiceBindingType
              [ByField EqualsOperator "service_instance_id" ["i1"]]] ++
            prepareEvents sampleInstance samplePlan sampleOffering sampleBroker,
          .nilDereference⟩ :=
  ⟨rfl, rfl, rfl⟩

/-! ## Create: synchronous success -/

/-- C5: for a create of a service-manager instance with an Operation in the context
that has reschedule=false, a successful resolution of plan, offering and broker, and a
provision call that succeeds synchronously, `f` is executed exactly once, the wrapped
create returns the object that `f` returns or the error of `f`, no poll request is sent,
and the Operation (with its reschedule and deletion_scheduled fields) is as on entry,
also at the time `f` is called. -/
theorem create_sync_success (rt : Runtime) (i : ServiceInstanceInterceptor)
    (f : ServiceInstance → Except GoError ServiceInstance) (operation : Operation)
    (obj : ServiceInstance) (schedule : List SelectEvent) (osbClient : Client)
    (broker : ServiceBroker) (service : ServiceOffering) (plan : ServicePlan)
    (trace : List Event) (response : ProvisionResponse)
    (hplatform : obj.PlatformID = SMPlatform)
    (hreschedule : operation.Reschedule = false)
    (hprepare : prepare i obj [] = (trace, .ok (osbClient, broker, service, plan)))
    (hprovision :
      osbClient.ProvisionInstance (provisionRequestFor i obj service plan) = .ok response)
    (hsync : response.Async = false) :
    (AroundTxCreate rt i f (some operation) obj schedule).trace.filter Event.isCallCreate =
        [.callCreate (applyDashboardURL obj response) (some operation)] ∧
      (AroundTxCreate rt i f (some operation) obj schedule).outcome =
        (match f (applyDashboardURL obj response) with
          | .ok object => .ret object
          | .error err => .fail err) ∧
      (AroundTxCreate rt i f (some operation) obj schedule).trace.filter Event.isPoll = [] ∧
      (AroundTxCreate rt i f (some operation) obj schedule).operation = some operation := by
  have htrace := prepare_ok_trace i obj [] trace osbClient broker service plan hprepare
  rw [create_sync_run rt i f operation obj schedule osbClient broker service plan
    trace response hplatform hreschedule hprepare hprovision hsync]
  subst htrace
  simp [prepareEvents, Event.isCallCreate, Event.isPoll]

/-- C5, at a sample input: synchronous provision and an inner create that succeeds. -/
theorem create_sync_success_witness :
    sampleInstance.PlatformID = SMPlatform ∧
      sampleOperation.Reschedule = false ∧
      syncProvision.Async = false ∧
      (AroundTxCreate sampleRuntime
          (sampleInterceptor (.ok syncProvision) (.ok syncDeprovision) none [] 0)
          sampleCreate (some sampleOperation) sampleInstance []).outcome =
        .ret sampleInstance :=
  ⟨rfl, rfl, rfl,
    (create_sync_success sampleRuntime
      (sampleInterceptor (.ok syncProvision) (.ok syncDeprovision) none [] 0)
      sampleCreate sampleOperation sampleInstance []
      (sampleClient (.ok syncProvision) (.ok syncDeprovision))
      sampleBroker sampleOffering samplePlan
      (prepareEvents sampleInstance samplePlan sampleOffering sampleBroker)
      syncProvision rfl rfl rfl rfl rfl).2.1⟩

/-! ## Delete: the deprovision call fails -/

/-- C6: for a delete that matches exactly one service-manager instance with no bindings
and an Operation with reschedule=false, a deprovision call that fails with 410 Gone is
a success of the broker step: `deleteSingleInstance` returns nil, no Update is made, the
Operation (with its deletion_scheduled field) is as on entry, and `f` is run once, the
delete returning what `f` returns. -/
theorem delete_gone_is_success (rt : Runtime) (i : ServiceInstanceInterceptor)
    (f : List Criterion → Option GoError) (operation : Operation)
    (deletionCriteria : List Criterion) (schedule : List SelectEvent)
    (inst : ServiceInstance) (trace0 : List Event) (osbClient : Client)
    (broker : ServiceBroker) (service : ServiceOffering) (plan : ServicePlan)
    (msg : String)
    (hlist : i.repository.ListInstances deletionCriteria = .ok [inst])
    (hplatform : inst.PlatformID = SMPlatform)
    (hcount : i.repository.Count .ServiceBindingType
      [ByField EqualsOperator "service_instance_id" [inst.ID]] = .ok 0)
    (hprepare : prepare i inst [] = (trace0, .ok (osbClient, broker, service, plan)))
    (hreschedule : operation.Reschedule = false)
    (hgone : osbClient.DeprovisionInstance
      { InstanceID := inst.ID, AcceptsIncomplete := true,
        ServiceID := service.CatalogID, PlanID := plan.CatalogID } =
      .error (.httpStatus 410 msg)) :
    (deleteSingleInstance rt i inst operation schedule
        [.repoList .ServiceInstanceType deletionCriteria]).outcome = .ret () ∧
      (AroundTxDelete rt i f (some operation) deletionCriteria schedule).outcome =
        (match f deletionCriteria with
          | none => .ret ()
          | some err => .fail err) ∧
      (AroundTxDelete rt i f (some operation) deletionCriteria schedule).trace.filter
          Event.isCallDelete = [.callDelete deletionCriteria (some operation)] ∧
      (AroundTxDelete rt i f (some operation) deletionCriteria schedule).trace.filter
          Event.isUpdate = [] ∧
      (AroundTxDelete rt i f (some operation) deletionCriteria schedule).operation =
        some operation := by
  have hsingle := deleteSingleInstance_deprovision rt i inst operation schedule
    [.repoList .ServiceInstanceType deletionCriteria] trace0 osbClient broker service plan 0
    hcount (by decide) hprepare hreschedule
  rw [hgone] at hsingle
  simp only [IsGoneError, IsHTTPError, StatusGone, beq_self_eq_true, ↓reduceIte] at hsingle
  rw [delete_single_run rt i f operation deletionCriteria schedule inst hlist hplatform,
    hsingle]
  simp only [deleteFinish]
  cases hf : f deletionCriteria <;>
    simp [prepareEvents, Event.isCallDelete, Event.isUpdate]

/-- C6, at a sample input: the broker answers the deprovision request with 410. -/
theorem delete_gone_is_success_witness :
    sampleInstance.PlatformID = SMPlatform ∧
      sampleOperation.Reschedule = false ∧
      AroundTxDelete sampleRuntime
          (sampleInterceptor (.ok syncProvision) (.error (.httpStatus 410 "gone")) none
            [sampleInstance] 0)
          sampleDelete (some sampleOperation) [] [] =
        ⟨some sampleOperation,
          [.repoList .ServiceInstanceType [],
            .repoCount .ServiceBindingType
              [ByField EqualsOperator "service_instance_id" ["i1"]]] ++
            prepareEvents sampleInstance samplePlan sampleOffering sampleBroker ++
            [.DeprovisionInstance
              { InstanceID := "i1", AcceptsIncomplete := true, ServiceID := "cs1",
                PlanID := "cp1" },
              .callDelete [] (some sampleOperation)],
          .ret ()⟩ ∧
      (AroundTxDelete sampleRuntime
          (sampleInterceptor (.ok syncProvision) (.error (.httpStatus 410 "gone")) none
            [sampleInstance] 0)
          sampleDelete (some sampleOperation) [] []).outcome = .ret () :=
  ⟨rfl, rfl, rfl,
    (delete_gone_is_success sampleRuntime
      (sampleInterceptor (.ok syncProvision) (.error (.httpStatus 410 "gone")) none
        [sampleInstance] 0)
      sampleDelete sampleOperation [] [] sampleInstance
      (prepareEvents sampleInstance samplePlan sampleOffering sampleBroker)
      (sampleClient (.ok syncProvision) (.error (.httpStatus 410 "gone")))
      sampleBroker sampleOffering samplePlan "gone" rfl rfl rfl rfl rfl rfl).2.1⟩

/-- C7 (as stated, refuted): a delete of one service-manager instance without bindings,
with reschedule=false, whose deprovision call fails with status 500 does not return a
BrokerError when the repository Update of the Operation fails; it returns the plain
error about the failed update, and the Operation is not persisted. -/
theorem delete_5xx_not_always_broker_error :
    sampleInstance.PlatformID = SMPlatform ∧
      sampleOperation.Reschedule = false ∧
      (sampleClient (.ok syncProvision) (.error (.httpStatus 500 "boom"))).DeprovisionInstance
          { InstanceID := "i1", AcceptsIncomplete := true, ServiceID := "cs1",
            PlanID := "cp1" } = .error (.httpStatus 500 "boom") ∧
      (sampleInterceptor (.ok syncProvision) (.error (.httpStatus 500 "boom"))
          (some (.errorf "conflict")) [sampleInstance] 0).repository.Update
          (.operation (sampleOperation.mitigationScheduled 42)) =
        some (.errorf "conflict") ∧
      ∃ e,
        (AroundTxDelete sampleRuntime
            (sampleInterceptor (.ok syncProvision) (.error (.httpStatus 500 "boom"))
              (some (.errorf "conflict")) [sampleInstance] 0)
            sampleDelete (some sampleOperation) [] []).outcome = .fail e ∧
          e.isBrokerError = false :=
  ⟨rfl, rfl, rfl, rfl, _, rfl, rfl⟩

/-- C7 (amended): for a delete that matches exactly one service-manager instance with
no bindings and an Operation with reschedule=false, when the deprovision call fails
with an HTTP 5xx error the Operation gets deletion_scheduled = now and reschedule=false,
that Operation record is the one object passed to repository Update, `f` is not
invoked, and an error is returned: a BrokerError when the Update succeeds, a plain error
about the failed update otherwise. -/
theorem delete_5xx_schedules_mitigation (rt : Runtime) (i : ServiceInstanceInterceptor)
    (f : List Criterion → Option GoError) (operation : Operation)
    (deletionCriteria : List Criterion) (schedule : List SelectEvent)
    (inst : ServiceInstance) (trace0 : List Event) (osbClient : Client)
    (broker : ServiceBroker) (service : ServiceOffering) (plan : ServicePlan)
    (statusCode : Int) (msg : String)
    (hlist : i.repository.ListInstances deletionCriteria = .ok [inst])
    (hplatform : inst.PlatformID = SMPlatform)
    (hcount : i.repository.Count .ServiceBindingType
      [ByField EqualsOperator "service_instance_id" [inst.ID]] = .ok 0)
    (hprepare : prepare i inst [] = (trace0, .ok (osbClient, broker, service, plan)))
    (hreschedule : operation.Reschedule = false)
    (h5xx : 500 ≤ statusCode ∧ statusCode < 600)
    (hfail : osbClient.DeprovisionInstance
      { InstanceID := inst.ID, AcceptsIncomplete := true,
        ServiceID := service.CatalogID, PlanID := plan.CatalogID } =
      .error (.httpStatus statusCode msg)) :
    (AroundTxDelete rt i f (some operation) deletionCriteria schedule).operation =
        some (operation.mitigationScheduled rt.now) ∧
      (operation.mitigationScheduled rt.now).DeletionScheduled = some rt.now ∧
      (operation.mitigationScheduled rt.now).Reschedule = false ∧
      (AroundTxDelete rt i f (some operation) deletionCriteria schedule).trace.filter
          Event.isUpdate =
        [.repoUpdate (.operation (operation.mitigationScheduled rt.now))] ∧
      (AroundTxDelete rt i f (some operation) deletionCriteria schedule).trace.filter
          Event.isCallDelete = [] ∧
      ∃ e,
        (AroundTxDelete rt i f (some operation) deletionCriteria schedule).outcome =
            .fail e ∧
          (e.isBrokerError = true ↔
            i.repository.Update (.operation (operation.mitigationScheduled rt.now)) =
              none) := by
  have hsingle := deleteSingleInstance_deprovision rt i inst operation schedule
    [.repoList .ServiceInstanceType deletionCriteria] trace0 osbClient broker service plan 0
    hcount (by decide) hprepare hreschedule
  rw [hfail] at hsingle
  have hgone : IsGoneError (.httpStatus statusCode msg) = false := by
    simp only [IsGoneError, IsHTTPError, StatusGone, beq_eq_false_iff_ne, ne_eq]
    omega
  have hmit : shouldStartOrphanMitigation (.httpStatus statusCode msg) = true := by
    simp only [shouldStartOrphanMitigation, IsHTTPError, StatusOK, StatusRequestTimeout]
    simp
    omega
  simp only [hgone, hmit, Bool.false_eq_true, ↓reduceIte] at hsingle
  rw [delete_single_run rt i f operation deletionCriteria schedule inst hlist hplatform,
    hsingle]
  cases hu : i.repository.Update (.operation (operation.mitigationScheduled rt.now)) <;>
    simp [prepareEvents, Event.isCallDelete, Event.isUpdate, GoError.isBrokerError,
      Operation.mitigationScheduled]

/-- C7 (amended), at a sample input: deprovision fails with status 500 and the Update
succeeds. -/
theorem delete_5xx_schedules_mitigation_witness :
    sampleInstance.PlatformID = SMPlatform ∧
      sampleOperation.Reschedule = false ∧
      ((500 : Int) ≤ 500 ∧ (500 : Int) < 600) ∧
      (AroundTxDelete sampleRuntime
          (sampleInterceptor (.ok syncProvision) (.error (.httpStatus 500 "boom")) none
            [sampleInstance] 0)
          sampleDelete (some sampleOperation) [] []).operation =
        some { ID := "op1", Reschedule := false, DeletionScheduled := some 42,
               ExternalID := "" } :=
  ⟨rfl, rfl, by decide,
    (delete_5xx_schedules_mitigation sampleRuntime
      (sampleInterceptor (.ok syncProvision) (.error (.httpStatus 500 "boom")) none
        [sampleInstance] 0)
      sampleDelete sampleOperation [] [] sampleInstance
      (prepareEvents sampleInstance samplePlan sampleOffering sampleBroker)
      (sampleClient (.ok syncProvision) (.error (.httpStatus 500 "boom")))
      sampleBroker sampleOffering samplePlan 500 "boom" rfl rfl rfl rfl rfl
      (by decide) rfl).1⟩

/-! ## Delete: polling and the inner delete function -/

/-- After `k` in-progress replies the poll loop returns nil when the request context is
done: `k` polls were sent, no Update was made and the Operation is as on entry. -/
theorem pollServiceInstance_ctxDone (rt : Runtime) (i : ServiceInstanceInterceptor)
    (inst : ServiceInstance) (operation : Operation)
    (brokerID serviceCatalogID planCatalogID : String) (operationKey : Option String)
    (enableOrphanMitigation : Bool) (k : Nat) (description : Option String)
    (rest : List SelectEvent) (trace : List Event) :
    pollServiceInstance rt i inst operation brokerID serviceCatalogID planCatalogID
        operationKey enableOrphanMitigation
        (List.replicate k (.tick (.ok { State := StateInProgress, Description := description }))
          ++ .ctxDone :: rest) trace =
      ⟨some operation,
        trace ++ List.replicate k (.PollLastOperation
          { InstanceID := inst.ID, ServiceID := some serviceCatalogID,
            PlanID := some planCatalogID, OperationKey := operationKey }),
        .ret ()⟩ := by
  induction k generalizing trace with
  | zero => simp [pollServiceInstance]
  | succ n ih =>
    rw [List.replicate_succ, List.cons_append]
    unfold pollServiceInstance
    simp only [↓reduceIte]
    rw [ih]
    simp [List.replicate_succ]

/-- A delete whose deprovision was accepted asynchronously and whose polling is ended by
the request context after `k` in-progress replies still runs `f`. -/
theorem delete_async_ctxDone_run (rt : Runtime) (i : ServiceInstanceInterceptor)
    (f : List Criterion → Option GoError) (operation : Operation)
    (deletionCriteria : List Criterion) (k : Nat) (rest : List SelectEvent)
    (inst : ServiceInstance) (trace0 : List Event) (osbClient : Client)
    (broker : ServiceBroker) (service : ServiceOffering) (plan : ServicePlan)
    (response : DeprovisionResponse)
    (hlist : i.repository.ListInstances deletionCriteria = .ok [inst])
    (hplatform : inst.PlatformID = SMPlatform)
    (hcount : i.repository.Count .ServiceBindingType
      [ByField EqualsOperator "service_instance_id" [inst.ID]] = .ok 0)
    (hprepare : prepare i inst [] = (trace0, .ok (osbClient, broker, service, plan)))
    (hreschedule : operation.Reschedule = false)
    (hdeprovision : osbClient.DeprovisionInstance
      { InstanceID := inst.ID, AcceptsIncomplete := true,
        ServiceID := service.CatalogID, PlanID := plan.CatalogID } = .ok response)
    (hasync : response.Async = true)
    (hupdate : i.repository.Update (.serviceInstance inst) = none) :
    (AroundTxDelete rt i f (some operation) deletionCriteria
        (List.replicate k (.tick (.ok { State := StateInProgress, Description := none }))
          ++ .ctxDone :: rest)).trace.filter Event.isCallDelete =
      [.callDelete deletionCriteria (some { operation with Reschedule := true })] := by
  have hsingle := deleteSingleInstance_deprovision rt i inst operation
    (List.replicate k (.tick (.ok { State := StateInProgress, Description := none }))
      ++ .ctxDone :: rest)
    [.repoList .ServiceInstanceType deletionCriteria] trace0 osbClient broker service plan 0
    hcount (by decide) hprepare hreschedule
  rw [hdeprovision] at hsingle
  simp only [hasync, ↓reduceIte, hupdate, pollServiceInstance_ctxDone] at hsingle
  rw [delete_single_run rt i f operation deletionCriteria _ inst hlist hplatform, hsingle]
  simp only [deleteFinish]
  cases hf : f deletionCriteria <;>
    simp [prepareEvents, Event.isCallDelete, List.filter_replicate]

/-- C8 (code at the failing input): a delete whose deprovision request is accepted
asynchronously, with one in-progress poll reply and then a cancelled request context.
The poller returns nil, so `deleteSingleInstance` returns nil and `f` is called and
removes the row, although the broker never reported success and the Operation still has
reschedule=true. -/
theorem delete_runs_f_after_cancelled_poll :
    asyncDeprovision.Async = true ∧
      AroundTxDelete sampleRuntime
          (sampleInterceptor (.ok syncProvision) (.ok asyncDeprovision) none
            [sampleInstance] 0)
          sampleDelete (some sampleOperation) []
          [.tick (.ok { State := StateInProgress, Description := none }), .ctxDone] =
        ⟨some { ID := "op1", Reschedule := true, DeletionScheduled := none,
                ExternalID := "" },
          [.repoList .ServiceInstanceType [],
            .repoCount .ServiceBindingType
              [ByField EqualsOperator "service_instance_id" ["i1"]]] ++
            prepareEvents sampleInstance samplePlan sampleOffering sampleBroker ++
            [.DeprovisionInstance
              { InstanceID := "i1", AcceptsIncomplete := true, ServiceID := "cs1",
                PlanID := "cp1" },
              .repoUpdate (.serviceInstance sampleInstance),
              .PollLastOperation
                { InstanceID := "i1", ServiceID := some "cs1", PlanID := some "cp1",
                  OperationKey := some "key-1" },
              .callDelete []
                (some { ID := "op1", Reschedule := true, DeletionScheduled := none,
                        ExternalID := "" })],
          .ret ()⟩ :=
  ⟨rfl, rfl⟩

/-! ## Delete: guards -/

/-- C9 (as stated, refuted): a delete that matches exactly one service-manager instance
with three bindings, in a request context without an Operation, fails with the plain
error about the missing Operation and not with a BadRequest error; the bindings are
not counted. -/
theorem delete_with_bindings_without_operation :
    (sampleInterceptor (.ok syncProvision) (.ok syncDeprovision) none
          [sampleInstance] 3).repository.ListInstances [] = .ok [sampleInstance] ∧
      sampleInstance.PlatformID = SMPlatform ∧
      (sampleInterceptor (.ok syncProvision) (.ok syncDeprovision) none
          [sampleInstance] 3).repository.Count .ServiceBindingType
          [ByField EqualsOperator "service_instance_id" [sampleInstance.ID]] = .ok 3 ∧
      AroundTxDelete sampleRuntime
          (sampleInterceptor (.ok syncProvision) (.ok syncDeprovision) none
            [sampleInstance] 3)
          sampleDelete none [] [] =
        ⟨none, [.repoList .ServiceInstanceType []],
          .fail (.errorf "operation missing from context")⟩ ∧
      (GoError.errorf "operation missing from context").isBadRequest = false :=
  ⟨rfl, rfl, rfl, rfl, rfl⟩

/-- C9 (amended): for a delete that matches exactly one service-manager instance, with
an Operation in the request context, if the number of bindings whose
service_instance_id equals the instance id is greater than zero, the delete fails with a
BadRequest error, no request is sent to the broker, `f` is not invoked, and the
Operation is as on entry. -/
theorem delete_with_bindings_rejected (rt : Runtime) (i : ServiceInstanceInterceptor)
    (f : List Criterion → Option GoError) (operation : Operation)
    (deletionCriteria : List Criterion) (schedule : List SelectEvent)
    (inst : ServiceInstance) (bindingsCount : Int)
    (hlist : i.repository.ListInstances deletionCriteria = .ok [inst])
    (hplatform : inst.PlatformID = SMPlatform)
    (hcount : i.repository.Count .ServiceBindingType
      [ByField EqualsOperator "service_instance_id" [inst.ID]] = .ok bindingsCount)
    (hbindings : bindingsCount > 0) :
    (∃ e, (AroundTxDelete rt i f (some operation) deletionCriteria schedule).outcome =
        .fail e ∧ e.isBadRequest = true) ∧
      (AroundTxDelete rt i f (some operation) deletionCriteria schedule).trace =
        [.repoList .ServiceInstanceType deletionCriteria,
          .repoCount .ServiceBindingType
            [ByField EqualsOperator "service_instance_id" [inst.ID]]] ∧
      (AroundTxDelete rt i f (some operation) deletionCriteria schedule).trace.filter
          Event.isBrokerCall = [] ∧
      (AroundTxDelete rt i f (some operation) deletionCriteria schedule).trace.filter
          Event.isCallDelete = [] ∧
      (AroundTxDelete rt i f (some operation) deletionCriteria schedule).operation =
        some operation := by
  have hsingle : deleteSingleInstance rt i inst operation schedule
      [.repoList .ServiceInstanceType deletionCriteria] =
      ⟨some operation,
        [.repoList .ServiceInstanceType deletionCriteria,
          .repoCount .ServiceBindingType
            [ByField EqualsOperator "service_instance_id" [inst.ID]]],
        .fail (.utilHTTP "BadRequest" ("could not delete instance due to " ++
          toString bindingsCount ++ " existing bindings"))⟩ := by
    unfold deleteSingleInstance
    simp [hcount, hbindings]
  rw [delete_single_run rt i f operation deletionCriteria schedule inst hlist hplatform,
    hsingle]
  simp [Event.isBrokerCall, Event.isCallDelete, GoError.isBadRequest]

/-- C9 (amended), at a sample input: one instance with three bindings. -/
theorem delete_with_bindings_rejected_witness :
    sampleInstance.PlatformID = SMPlatform ∧
      (3 : Int) > 0 ∧
      (AroundTxDelete sampleRuntime
          (sampleInterceptor (.ok syncProvision) (.ok syncDeprovision) none
            [sampleInstance] 3)
          sampleDelete (some sampleOperation) [] []).trace =
        [.repoList .ServiceInstanceType [],
          .repoCount .ServiceBindingType
            [ByField EqualsOperator "service_instance_id" ["i1"]]] :=
  ⟨rfl, by decide,
    (delete_with_bindings_rejected sampleRuntime
      (sampleInterceptor (.ok syncProvision) (.ok syncDeprovision) none
        [sampleInstance] 3)
      sampleDelete sampleOperation [] [] sampleInstance 3 rfl rfl rfl (by decide)).2.1⟩

/-- C10: a delete whose criteria match more than one instance is rejected with the
error that deletion of multiple instances is not supported, whatever the platforms of
the matched instances and whether or not an Operation is in the context; only the List
call is made, so no request is sent to the broker and `f` is not invoked. -/
theorem delete_multiple_rejected (rt : Runtime) (i : ServiceInstanceInterceptor)
    (f : List Criterion → Option GoError) (ctxOperation : Option Operation)
    (deletionCriteria : List Criterion) (schedule : List SelectEvent)
    (instances : List ServiceInstance)
    (hlist : i.repository.ListInstances deletionCriteria = .ok instances)
    (hmany : instances.length > 1) :
    (AroundTxDelete rt i f ctxOperation deletionCriteria schedule).outcome =
        .fail (.errorf "deletion of multiple instances is not supported") ∧
      (AroundTxDelete rt i f ctxOperation deletionCriteria schedule).trace =
        [.repoList .ServiceInstanceType deletionCriteria] ∧
      (AroundTxDelete rt i f ctxOperation deletionCriteria schedule).trace.filter
          Event.isBrokerCall = [] ∧
      (AroundTxDelete rt i f ctxOperation deletionCriteria schedule).trace.filter
          Event.isCallDelete = [] ∧
      (AroundTxDelete rt i f ctxOperation deletionCriteria schedule).operation =
        ctxOperation := by
  unfold AroundTxDelete
  simp [hlist, hmany, Event.isBrokerCall, Event.isCallDelete]

/-- C10, at a sample input: the criteria match an instance of the service-manager
platform and an instance of a foreign platform. -/
theorem delete_multiple_rejected_witness :
    [sampleInstance, sampleForeignInstance].length > 1 ∧
      (AroundTxDelete sampleRuntime
          (sampleInterceptor (.ok syncProvision) (.ok syncDeprovision) none
            [sampleInstance, sampleForeignInstance] 0)
          sampleDelete (some sampleOperation) [] []).outcome =
        .fail (.errorf "deletion of multiple instances is not supported") :=
  ⟨by decide,
    (delete_multiple_rejected sampleRuntime
      (sampleInterceptor (.ok syncProvision) (.ok syncDeprovision) none
        [sampleInstance, sampleForeignInstance] 0)
      sampleDelete (some sampleOperation) [] []
      [sampleInstance, sampleForeignInstance] rfl (by decide)).1⟩

/-! ## Instances of other platforms and requests without an Operation -/

/-- C13: for a create of an instance whose platform is not service-manager, whether or
not an Operation is in the context, the wrapped create returns exactly what `f` returns
for the same object (value or error); the call of `f` is the only call made, so `f` is
invoked once and there is no repository lookup and no broker call, and the Operation in
the context is as on entry. -/
theorem create_foreign_platform_defers (rt : Runtime) (i : ServiceInstanceInterceptor)
    (f : ServiceInstance → Except GoError ServiceInstance)
    (ctxOperation : Option Operation) (obj : ServiceInstance)
    (schedule : List SelectEvent)
    (hplatform : obj.PlatformID ≠ SMPlatform) :
    (AroundTxCreate rt i f ctxOperation obj schedule).outcome =
        (match f obj with
          | .ok object => .ret object
          | .error err => .fail err) ∧
      (AroundTxCreate rt i f ctxOperation obj schedule).trace =
        [.callCreate obj ctxOperation] ∧
      (AroundTxCreate rt i f ctxOperation obj schedule).operation = ctxOperation := by
  unfold AroundTxCreate
  simp only [ne_eq, hplatform, not_false_eq_true, ↓reduceIte]
  cases f obj <;> simp

/-- C13, at a sample input: an instance of a foreign platform and no Operation in the
context. -/
theorem create_foreign_platform_defers_witness :
    sampleForeignInstance.PlatformID ≠ SMPlatform ∧
      AroundTxCreate sampleRuntime
          (sampleInterceptor (.ok syncProvision) (.ok syncDeprovision) none [] 0)
          sampleCreate none sampleForeignInstance [] =
        ⟨none, [.callCreate sampleForeignInstance none], .ret sampleForeignInstance⟩ ∧
      (AroundTxCreate sampleRuntime
          (sampleInterceptor (.ok syncProvision) (.ok syncDeprovision) none [] 0)
          sampleCreate none sampleForeignInstance []).trace =
        [.callCreate sampleForeignInstance none] :=
  ⟨by decide, rfl,
    (create_foreign_platform_defers sampleRuntime
      (sampleInterceptor (.ok syncProvision) (.ok syncDeprovision) none [] 0)
      sampleCreate none sampleForeignInstance [] (by decide)).2.1⟩

/-- C14: for a delete whose criteria match no instance, and for a delete whose single
matched instance has a platform other than service-manager, whether or not an Operation
is in the context, the wrapped delete returns exactly what `f` returns for the same
criteria; the only calls made are the List call and the call of `f`, so there is no
broker call and no binding count, and the Operation in the context is as on entry. -/
theorem delete_defers_to_f (rt : Runtime) (i : ServiceInstanceInterceptor)
    (f : List Criterion → Option GoError) (ctxOperation : Option Operation)
    (deletionCriteria : List Criterion) (schedule : List SelectEvent)
    (hdefer : i.repository.ListInstances deletionCriteria = .ok [] ∨
      ∃ inst, i.repository.ListInstances deletionCriteria = .ok [inst] ∧
        inst.PlatformID ≠ SMPlatform) :
    (AroundTxDelete rt i f ctxOperation deletionCriteria schedule).outcome =
        (match f deletionCriteria with
          | none => .ret ()
          | some err => .fail err) ∧
      (AroundTxDelete rt i f ctxOperation deletionCriteria schedule).trace =
        [.repoList .ServiceInstanceType deletionCriteria,
          .callDelete deletionCriteria ctxOperation] ∧
      (AroundTxDelete rt i f ctxOperation deletionCriteria schedule).operation =
        ctxOperation := by
  unfold AroundTxDelete
  rcases hdefer with hlist | ⟨inst, hlist, hplatform⟩
  · simp only [hlist, List.length_nil, gt_iff_lt, Nat.not_lt_zero, ↓reduceIte, deleteFinish]
    cases f deletionCriteria <;> simp
  · simp only [hlist, List.length_singleton, gt_iff_lt, Nat.lt_irrefl, ↓reduceIte, ne_eq,
      hplatform, not_false_eq_true, deleteFinish]
    cases f deletionCriteria <;> simp

/-- C14, at a sample input: the criteria match one instance of a foreign platform and
the context holds no Operation. -/
theorem delete_defers_to_f_witness :
    sampleForeignInstance.PlatformID ≠ SMPlatform ∧
      AroundTxDelete sampleRuntime
          (sampleInterceptor (.ok syncProvision) (.ok syncDeprovision) none
            [sampleForeignInstance] 3)
          sampleDelete none [] [] =
        ⟨none, [.repoList .ServiceInstanceType [], .callDelete [] none], .ret ()⟩ ∧
      (AroundTxDelete sampleRuntime
          (sampleInterceptor (.ok syncProvision) (.ok syncDeprovision) none
            [sampleForeignInstance] 3)
          sampleDelete none [] []).trace =
        [.repoList .ServiceInstanceType [], .callDelete [] none] :=
  ⟨by decide, rfl,
    (delete_defers_to_f sampleRuntime
      (sampleInterceptor (.ok syncProvision) (.ok syncDeprovision) none
        [sampleForeignInstance] 3)
      sampleDelete none [] [] (Or.inr ⟨sampleForeignInstance, rfl, by decide⟩)).2.1⟩

/-- Replies that report the operation as in progress each cost one poll and leave the
poll loop where it was. -/
theorem pollServiceInstance_inProgress (rt : Runtime) (i : ServiceInstanceInterceptor)
    (inst : ServiceInstance) (operation : Operation)
    (brokerID serviceCatalogID planCatalogID : String) (operationKey : Option String)
    (enableOrphanMitigation : Bool) (inProgress : List LastOperationResponse)
    (rest : List SelectEvent) (trace : List Event)
    (hin : ∀ r ∈ inProgress, r.State = StateInProgress) :
    pollServiceInstance rt i inst operation brokerID serviceCatalogID planCatalogID
        operationKey enableOrphanMitigation
        (inProgress.map (fun r => .tick (.ok r)) ++ rest) trace =
      pollServiceInstance rt i inst operation brokerID serviceCatalogID planCatalogID
        operationKey enableOrphanMitigation rest
        (trace ++ List.replicate inProgress.length (.PollLastOperation
          { InstanceID := inst.ID, ServiceID := some serviceCatalogID,
            PlanID := some planCatalogID, OperationKey := operationKey })) := by
  induction inProgress generalizing trace with
  | nil => simp
  | cons r rs ih =>
    have hr : r.State = StateInProgress := hin r (List.mem_cons_self _ _)
    have hrs : ∀ r' ∈ rs, r'.State = StateInProgress :=
      fun r' h => hin r' (List.mem_cons_of_mem _ h)
    rw [List.map_cons, List.cons_append]
    conv => lhs; unfold pollServiceInstance
    simp only [hr, ↓reduceIte]
    rw [ih _ hrs]
    simp [List.replicate_succ]

/-- C16: for `k` in-progress replies followed by a succeeded reply, with the request
context not cancelled in between and the repository Update succeeding, the poller sends
exactly `k + 1` poll requests, sets reschedule=false, passes the Operation record to
one repository Update, leaves deletion_scheduled (and id and external id) unchanged, and
returns nil. -/
theorem poll_until_succeeded (rt : Runtime) (i : ServiceInstanceInterceptor)
    (inst : ServiceInstance) (operation : Operation)
    (brokerID serviceCatalogID planCatalogID : String) (operationKey : Option String)
    (enableOrphanMitigation : Bool) (inProgress : List LastOperationResponse)
    (succeeded : LastOperationResponse) (rest : List SelectEvent) (trace : List Event)
    (hin : ∀ r ∈ inProgress, r.State = StateInProgress)
    (hsucceeded : succeeded.State = StateSucceeded)
    (hupdate : i.repository.Update (.operation
      { ID := operation.ID, Reschedule := false,
        DeletionScheduled := operation.DeletionScheduled,
        ExternalID := operation.ExternalID }) = none) :
    pollServiceInstance rt i inst operation brokerID serviceCatalogID planCatalogID
        operationKey enableOrphanMitigation
        (inProgress.map (fun r => .tick (.ok r)) ++ .tick (.ok succeeded) :: rest) trace =
      ⟨some { ID := operation.ID, Reschedule := false,
              DeletionScheduled := operation.DeletionScheduled,
              ExternalID := operation.ExternalID },
        trace ++ List.replicate (inProgress.length + 1) (.PollLastOperation
            { InstanceID := inst.ID, ServiceID := some serviceCatalogID,
              PlanID := some planCatalogID, OperationKey := operationKey }) ++
          [.repoUpdate (.operation
            { ID := operation.ID, Reschedule := false,
              DeletionScheduled := operation.DeletionScheduled,
              ExternalID := operation.ExternalID })],
        .ret ()⟩ := by
  rw [pollServiceInstance_inProgress rt i inst operation brokerID serviceCatalogID
    planCatalogID operationKey enableOrphanMitigation inProgress _ trace hin]
  have hne : ¬ StateSucceeded = StateInProgress := by decide
  unfold pollServiceInstance
  simp only [hsucceeded, hne, ↓reduceIte, hupdate]
  simp [List.replicate_succ', List.append_assoc]

/-- C16, at a sample input: two in-progress replies, then succeeded. -/
theorem poll_until_succeeded_witness :
    (∀ r ∈ [({ State := StateInProgress, Description := none } : LastOperationResponse),
        { State := StateInProgress, Description := some "working" }],
        r.State = StateInProgress) ∧
      pollServiceInstance sampleRuntime
          (sampleInterceptor (.ok asyncProvision) (.ok syncDeprovision) none [] 0)
          sampleInstance sampleResumedOperation "b1" "cs1" "cp1" (some "key-1") true
          [.tick (.ok { State := StateInProgress, Description := none }),
            .tick (.ok { State := StateInProgress, Description := some "working" }),
            .tick (.ok { State := StateSucceeded, Description := none })] [] =
        ⟨some { ID := "op1", Reschedule := false, DeletionScheduled := none,
                ExternalID := "key-1" },
          [.PollLastOperation
              { InstanceID := "i1", ServiceID := some "cs1", PlanID := some "cp1",
                OperationKey := some "key-1" },
            .PollLastOperation
              { InstanceID := "i1", ServiceID := some "cs1", PlanID := some "cp1",
                OperationKey := some "key-1" },
            .PollLastOperation
              { InstanceID := "i1", ServiceID := some "cs1", PlanID := some "cp1",
                OperationKey := some "key-1" },
            .repoUpdate (.operation
              { ID := "op1", Reschedule := false, DeletionScheduled := none,
                ExternalID := "key-1" })],
          .ret ()⟩ :=
  ⟨by decide,
    poll_until_succeeded sampleRuntime
      (sampleInterceptor (.ok asyncProvision) (.ok syncDeprovision) none [] 0)
      sampleInstance sampleResumedOperation "b1" "cs1" "cp1" (some "key-1") true
      [{ State := StateInProgress, Description := none },
        { State := StateInProgress, Description := some "working" }]
      { State := StateSucceeded, Description := none } [] []
      (by decide) rfl rfl⟩

/-- C17 (as stated, refuted): a poll answered with state failed and description
`quota exceeded`, with the orphan-mitigation flag set and a repository Update that
fails. The object passed to Update is the service instance and not the Operation
record, and the error returned is the plain error about the failed update, not a
BrokerError. -/
theorem poll_failed_not_always_broker_error :
    pollServiceInstance sampleRuntime
          (sampleInterceptor (.ok asyncProvision) (.ok syncDeprovision)
            (some (.errorf "conflict")) [] 0)
          sampleInstance sampleResumedOperation "b1" "cs1" "cp1" (some "key-1") true
          [.tick (.ok { State := StateFailed, Description := some "quota exceeded" })] [] =
        ⟨some { ID := "op1", Reschedule := false, DeletionScheduled := some 42,
                ExternalID := "key-1" },
          [.PollLastOperation
              { InstanceID := "i1", ServiceID := some "cs1", PlanID := some "cp1",
                OperationKey := some "key-1" },
            .repoUpdate (.serviceInstance sampleInstance)],
          .fail (.errorf ("failed to update operation with id op1 after failed of last " ++
            "operation for instance with id i1"))⟩ ∧
      (GoError.errorf ("failed to update operation with id op1 after failed of last " ++
        "operation for instance with id i1")).isBrokerError = false :=
  ⟨rfl, rfl⟩

/-- C17 (amended): for a poll whose reply has state failed (after any number of
in-progress replies), the poller sets reschedule=false, sets deletion_scheduled to the
current time if the orphan-mitigation flag is true and leaves it as it was otherwise,
makes one repository Update, and returns an error: when the Update succeeds, a
BrokerError whose description ends with the description given by the broker, or with
`no description provided by broker` when there is none; when the Update fails, the
plain error about the failed update. -/
theorem poll_failed (rt : Runtime) (i : ServiceInstanceInterceptor)
    (inst : ServiceInstance) (operation : Operation)
    (brokerID serviceCatalogID planCatalogID : String) (operationKey : Option String)
    (enableOrphanMitigation : Bool) (inProgress : List LastOperationResponse)
    (failed : LastOperationResponse) (rest : List SelectEvent) (trace : List Event)
    (hin : ∀ r ∈ inProgress, r.State = StateInProgress)
    (hfailed : failed.State = StateFailed) :
    ∃ obj : Object,
      pollServiceInstance rt i inst operation brokerID serviceCatalogID planCatalogID
          operationKey enableOrphanMitigation
          (inProgress.map (fun r => .tick (.ok r)) ++ .tick (.ok failed) :: rest) trace =
        ⟨some { ID := operation.ID, Reschedule := false,
                DeletionScheduled :=
                  if enableOrphanMitigation then some rt.now
                  else operation.DeletionScheduled,
                ExternalID := operation.ExternalID },
          trace ++ List.replicate (inProgress.length + 1) (.PollLastOperation
              { InstanceID := inst.ID, ServiceID := some serviceCatalogID,
                PlanID := some planCatalogID, OperationKey := operationKey }) ++
            [.repoUpdate obj],
          match i.repository.Update obj with
          | none =>
            .fail (.utilHTTP "BrokerError"
              ("failed polling operation for instance with id " ++ inst.ID ++
                " and name " ++ inst.Name ++ " due to polling last operation error: " ++
                (match failed.Description with
                  | some description => description
                  | none => "no description provided by broker")))
          | some _ =>
            .fail (.errorf ("failed to update operation with id " ++ operation.ID ++
              " after failed of last operation for instance with id " ++ inst.ID))⟩ := by
  refine ⟨.serviceInstance inst, ?_⟩
  rw [pollServiceInstance_inProgress rt i inst operation brokerID serviceCatalogID
    planCatalogID operationKey enableOrphanMitigation inProgress _ trace hin]
  have hne1 : ¬ StateFailed = StateInProgress := by decide
  have hne2 : ¬ StateFailed = StateSucceeded := by decide
  unfold pollServiceInstance
  simp only [hfailed, hne1, hne2, ↓reduceIte]
  cases hu : i.repository.Update (.serviceInstance inst) <;>
    cases enableOrphanMitigation <;>
    simp [List.replicate_succ', List.append_assoc]

/-- C17 (amended), at a sample input: one in-progress reply, then failed with the
description `quota exceeded`; the flag is set and the Update succeeds. -/
theorem poll_failed_witness :
    (∀ r ∈ [({ State := StateInProgress, Description := none } : LastOperationResponse)],
        r.State = StateInProgress) ∧
      pollServiceInstance sampleRuntime
          (sampleInterceptor (.ok asyncProvision) (.ok syncDeprovision) none [] 0)
          sampleInstance sampleResumedOperation "b1" "cs1" "cp1" (some "key-1") true
          [.tick (.ok { State := StateInProgress, Description := none }),
            .tick (.ok { State := StateFailed, Description := some "quota exceeded" })] [] =
        ⟨some { ID := "op1", Reschedule := false, DeletionScheduled := some 42,
                ExternalID := "key-1" },
          [.PollLastOperation
              { InstanceID := "i1", ServiceID := some "cs1", PlanID := some "cp1",
                OperationKey := some "key-1" },
            .PollLastOperation
              { InstanceID := "i1", ServiceID := some "cs1", PlanID := some "cp1",
                OperationKey := some "key-1" },
            .repoUpdate (.serviceInstance sampleInstance)],
          .fail (.utilHTTP "BrokerError"
            ("failed polling operation for instance with id i1 and name db due to " ++
              "polling last operation error: quota exceeded"))⟩ ∧
      ∃ obj : Object,
        (pollServiceInstance sampleRuntime
            (sampleInterceptor (.ok asyncProvision) (.ok syncDeprovision) none [] 0)
            sampleInstance sampleResumedOperation "b1" "cs1" "cp1" (some "key-1") true
            [.tick (.ok { State := StateInProgress, Description := none }),
              .tick (.ok { State := StateFailed, Description := some "quota exceeded" })]
            []).trace =
          [] ++ List.replicate (1 + 1) (.PollLastOperation
              { InstanceID := "i1", ServiceID := some "cs1", PlanID := some "cp1",
                OperationKey := some "key-1" }) ++ [.repoUpdate obj] :=
  ⟨by decide, rfl,
    (poll_failed sampleRuntime
      (sampleInterceptor (.ok asyncProvision) (.ok syncDeprovision) none [] 0)
      sampleInstance sampleResumedOperation "b1" "cs1" "cp1" (some "key-1") true
      [{ State := StateInProgress, Description := none }]
      { State := StateFailed, Description := some "quota exceeded" } [] []
      (by decide) rfl).imp (fun _ h => congrArg Run.trace h)⟩

/-- C18: when a poll request itself fails (after any number of in-progress replies),
the poller returns a BrokerError and stops polling: the rest of the schedule plays no
part, no repository Update is made, and the Operation record is returned as it was on
entry, every field unchanged. -/
theorem poll_error (rt : Runtime) (i : ServiceInstanceInterceptor)
    (inst : ServiceInstance) (operation : Operation)
    (brokerID serviceCatalogID planCatalogID : String) (operationKey : Option String)
    (enableOrphanMitigation : Bool) (inProgress : List LastOperationResponse)
    (err : GoError) (rest : List SelectEvent) (trace : List Event)
    (hin : ∀ r ∈ inProgress, r.State = StateInProgress) :
    pollServiceInstance rt i inst operation brokerID serviceCatalogID planCatalogID
          operationKey enableOrphanMitigation
          (inProgress.map (fun r => .tick (.ok r)) ++ .tick (.error err) :: rest) trace =
        ⟨some operation,
          trace ++ List.replicate (inProgress.length + 1) (.PollLastOperation
            { InstanceID := inst.ID, ServiceID := some serviceCatalogID,
              PlanID := some planCatalogID, OperationKey := operationKey }),
          .fail (.utilHTTP "BrokerError"
            ("Failed poll last operation request " ++
              rt.fmtLastOperationRequest
                { InstanceID := inst.ID, ServiceID := some serviceCatalogID,
                  PlanID := some planCatalogID, OperationKey := operationKey } ++
              " for instance with id " ++ inst.ID ++ " and name " ++ inst.Name ++ ": " ++
              err.Error))⟩ ∧
      (∃ e,
        (pollServiceInstance rt i inst operation brokerID serviceCatalogID planCatalogID
            operationKey enableOrphanMitigation
            (inProgress.map (fun r => .tick (.ok r)) ++ .tick (.error err) :: rest)
            trace).outcome = .fail e ∧ e.isBrokerError = true) ∧
      (pollServiceInstance rt i inst operation brokerID serviceCatalogID planCatalogID
          operationKey enableOrphanMitigation
          (inProgress.map (fun r => .tick (.ok r)) ++ .tick (.error err) :: rest)
          trace).trace.filter Event.isUpdate = trace.filter Event.isUpdate := by
  rw [pollServiceInstance_inProgress rt i inst operation brokerID serviceCatalogID
    planCatalogID operationKey enableOrphanMitigation inProgress _ trace hin]
  unfold pollServiceInstance
  simp [List.replicate_succ', List.append_assoc, GoError.isBrokerError, Event.isUpdate,
    List.filter_replicate]

/-- C18, at a sample input: one in-progress reply, then a network timeout. -/
theorem poll_error_witness :
    (∀ r ∈ [({ State := StateInProgress, Description := none } : LastOperationResponse)],
        r.State = StateInProgress) ∧
      (pollServiceInstance sampleRuntime
          (sampleInterceptor (.ok asyncProvision) (.ok syncDeprovision) none [] 0)
          sampleInstance sampleResumedOperation "b1" "cs1" "cp1" (some "key-1") true
          [.tick (.ok { State := StateInProgress, Description := none }),
            .tick (.error (.urlError true "timeout")),
            .tick (.ok { State := StateSucceeded, Description := none })] []).operation =
        some sampleResumedOperation :=
  ⟨by decide,
    congrArg Run.operation
      (poll_error sampleRuntime
        (sampleInterceptor (.ok asyncProvision) (.ok syncDeprovision) none [] 0)
        sampleInstance sampleResumedOperation "b1" "cs1" "cp1" (some "key-1") true
        [{ State := StateInProgress, Description := none }]
        (.urlError true "timeout")
        [.tick (.ok { State := StateSucceeded, Description := none })] []
        (by decide)).1⟩

/-- C19: when the request context is done while the poller waits, after any number of
in-progress replies and before a terminal reply, the poller returns nil: no further
poll request is sent (the rest of the schedule plays no part), no repository Update is
made, and the Operation record, with its reschedule, deletion_scheduled and external
id, is as it was when the poller was entered. -/
theorem poll_cancelled (rt : Runtime) (i : ServiceInstanceInterceptor)
    (inst : ServiceInstance) (operation : Operation)
    (brokerID serviceCatalogID planCatalogID : String) (operationKey : Option String)
    (enableOrphanMitigation : Bool) (inProgress : List LastOperationResponse)
    (rest : List SelectEvent) (trace : List Event)
    (hin : ∀ r ∈ inProgress, r.State = StateInProgress) :
    pollServiceInstance rt i inst operation brokerID serviceCatalogID planCatalogID
          operationKey enableOrphanMitigation
          (inProgress.map (fun r => .tick (.ok r)) ++ .ctxDone :: rest) trace =
        ⟨some operation,
          trace ++ List.replicate inProgress.length (.PollLastOperation
            { InstanceID := inst.ID, ServiceID := some serviceCatalogID,
              PlanID := some planCatalogID, OperationKey := operationKey }),
          .ret ()⟩ ∧
      (pollServiceInstance rt i inst operation brokerID serviceCatalogID planCatalogID
          operationKey enableOrphanMitigation
          (inProgress.map (fun r => .tick (.ok r)) ++ .ctxDone :: rest)
          trace).trace.filter Event.isUpdate = trace.filter Event.isUpdate := by
  rw [pollServiceInstance_inProgress rt i inst operation brokerID serviceCatalogID
    planCatalogID operationKey enableOrphanMitigation inProgress _ trace hin]
  unfold pollServiceInstance
  simp [Event.isUpdate, List.filter_replicate]

/-- C19, at a sample input: one in-progress reply, then the context is done although
the broker would report success on the next poll. -/
theorem poll_cancelled_witness :
    (∀ r ∈ [({ State := StateInProgress, Description := none } : LastOperationResponse)],
        r.State = StateInProgress) ∧
      pollServiceInstance sampleRuntime
          (sampleInterceptor (.ok asyncProvision) (.ok syncDeprovision) none [] 0)
          sampleInstance sampleResumedOperation "b1" "cs1" "cp1" (some "key-1") true
          [.tick (.ok { State := StateInProgress, Description := none }),
            .ctxDone,
            .tick (.ok { State := StateSucceeded, Description := none })] [] =
        ⟨some sampleResumedOperation,
          [.PollLastOperation
            { InstanceID := "i1", ServiceID := some "cs1", PlanID := some "cp1",
              OperationKey := some "key-1" }],
          .ret ()⟩ :=
  ⟨by decide,
    (poll_cancelled sampleRuntime
      (sampleInterceptor (.ok asyncProvision) (.ok syncDeprovision) none [] 0)
      sampleInstance sampleResumedOperation "b1" "cs1" "cp1" (some "key-1") true
      [{ State := StateInProgress, Description := none }]
      [.tick (.ok { State := StateSucceeded, Description := none })] []
      (by decide)).1⟩

/-! ## Reference plans and reference instances -/

/-- The poll loop adds nothing to the trace but poll requests and Updates. -/
theorem pollServiceInstance_filter (p : Event → Bool)
    (hpoll : ∀ req, p (.PollLastOperation req) = false)
    (hupdate : ∀ obj, p (.repoUpdate obj) = false)
    (rt : Runtime) (i : ServiceInstanceInterceptor)
    (inst : ServiceInstance) (operation : Operation)
    (brokerID serviceCatalogID planCatalogID : String) (operationKey : Option String)
    (enableOrphanMitigation : Bool) (schedule : List SelectEvent) (trace : List Event) :
    (pollServiceInstance rt i inst operation brokerID serviceCatalogID planCatalogID
      operationKey enableOrphanMitigation schedule trace).trace.filter p =
      trace.filter p := by
  obtain ⟨added, h1, h2⟩ := pollServiceInstance_trace rt i inst operation brokerID
    serviceCatalogID planCatalogID operationKey enableOrphanMitigation schedule trace
  rw [h1, List.filter_append]
  have : added.filter p = [] := by
    rw [List.filter_eq_nil_iff]
    intro e he
    rcases h2 e he with h | h | h <;> simp [h, hpoll, hupdate]
  simp [this]

/-- The end of `AroundTxCreate` adds nothing to the trace but the call of `f`, poll
requests and Updates. -/
theorem createFinish_filter (p : Event → Bool)
    (hpoll : ∀ req, p (.PollLastOperation req) = false)
    (hupdate : ∀ obj, p (.repoUpdate obj) = false)
    (hcall : ∀ obj ctxOperation, p (.callCreate obj ctxOperation) = false)
    (rt : Runtime) (i : ServiceInstanceInterceptor)
    (f : ServiceInstance → Except GoError ServiceInstance)
    (broker : ServiceBroker) (service : ServiceOffering) (plan : ServicePlan)
    (operation : Operation) (obj : ServiceInstance)
    (provisionResponse : Option ProvisionResponse) (schedule : List SelectEvent)
    (trace : List Event) :
    (createFinish rt i f broker service plan operation obj provisionResponse schedule
      trace).trace.filter p = trace.filter p := by
  unfold createFinish
  simp only []
  split
  · simp [hcall]
  · split
    · split
      · simp [hcall]
      · rw [(Run.andReturn_trace _ _).1, pollServiceInstance_filter p hpoll hupdate]
        simp [hcall]
    · simp [hcall]

/-- The call of `f` at the end of `AroundTxDelete` is the only event added to the trace
of `deleteSingleInstance`. -/
theorem delete_single_filter (p : Event → Bool)
    (hcall : ∀ criteria ctxOperation, p (.callDelete criteria ctxOperation) = false)
    (rt : Runtime) (i : ServiceInstanceInterceptor)
    (f : List Criterion → Option GoError) (operation : Operation)
    (deletionCriteria : List Criterion) (schedule : List SelectEvent)
    (inst : ServiceInstance)
    (hlist : i.repository.ListInstances deletionCriteria = .ok [inst])
    (hplatform : inst.PlatformID = SMPlatform) :
    (AroundTxDelete rt i f (some operation) deletionCriteria schedule).trace.filter p =
      (deleteSingleInstance rt i inst operation schedule
        [.repoList .ServiceInstanceType deletionCriteria]).trace.filter p := by
  rw [delete_single_run rt i f operation deletionCriteria schedule inst hlist hplatform]
  split
  · unfold deleteFinish
    split <;> simp [hcall]
  · rfl

/-- The trace of `AroundTxDelete` for one service-manager instance is the trace of
`deleteSingleInstance` followed by at most one call of `f`, made with the deletion
criteria and the Operation left by `deleteSingleInstance`. -/
theorem delete_single_trace (rt : Runtime) (i : ServiceInstanceInterceptor)
    (f : List Criterion → Option GoError) (operation : Operation)
    (deletionCriteria : List Criterion) (schedule : List SelectEvent)
    (inst : ServiceInstance)
    (hlist : i.repository.ListInstances deletionCriteria = .ok [inst])
    (hplatform : inst.PlatformID = SMPlatform) :
    ∃ calls : List Event,
      (AroundTxDelete rt i f (some operation) deletionCriteria schedule).trace =
        (deleteSingleInstance rt i inst operation schedule
          [.repoList .ServiceInstanceType deletionCriteria]).trace ++ calls ∧
      (calls = [] ∨
        calls = [.callDelete deletionCriteria
          (deleteSingleInstance rt i inst operation schedule
            [.repoList .ServiceInstanceType deletionCriteria]).operation]) := by
  rw [delete_single_run rt i f operation deletionCriteria schedule inst hlist hplatform]
  split
  · unfold deleteFinish
    split <;> exact ⟨_, rfl, Or.inr rfl⟩
  · exact ⟨[], by simp, Or.inl rfl⟩

/-- C11 (as stated, refuted): a create of a service-manager instance whose plan
resolves to a stored plan named `reference-plan`, with a fresh Operation. A provision
request with the catalog id of that plan is sent to the broker. -/
theorem create_reference_plan_sends_provision :
    sampleReferenceInstance.PlatformID = SMPlatform ∧
      (sampleReferenceInterceptor (.ok syncProvision) (.ok syncDeprovision) none []
          0).repository.GetPlan
          [ByField EqualsOperator "id" [sampleReferenceInstance.ServicePlanID]] =
        .ok sampleReferencePlan ∧
      sampleReferencePlan.Name = ReferencePlanName ∧
      (AroundTxCreate sampleRuntime
          (sampleReferenceInterceptor (.ok syncProvision) (.ok syncDeprovision) none [] 0)
          sampleCreate (some sampleOperation) sampleReferenceInstance []).trace =
        prepareEvents sampleReferenceInstance sampleReferencePlan sampleOffering
            sampleBroker ++
          [.ProvisionInstance
              { InstanceID := "i3", AcceptsIncomplete := true, ServiceID := "cs1",
                PlanID := "cp-ref", OrganizationGUID := "-", SpaceGUID := "-",
                Parameters := "",
                Context := [("platform", .str "service-manager")] },
            .callCreate sampleReferenceInstance (some sampleOperation)] :=
  ⟨rfl, rfl, rfl, rfl⟩

/-- C11 (amended): the interceptor does not look at the name of the resolved plan. For
a create of a service-manager instance whose resolved plan is the reserved reference
plan, with an Operation in the context that has reschedule=false and a successful
resolution of plan, offering and broker, exactly one provision request is sent to the
broker, with the catalog id of the reference plan as plan id, and no deprovision
request. When the broker accepts the request asynchronously and the Update and `f`
succeed, the run continues as the poller for the object returned by `f`, and as soon as
the ticker fires a poll request with the catalog id of the reference plan follows the
provision request in the trace. -/
theorem create_reference_plan_provisions (rt : Runtime) (i : ServiceInstanceInterceptor)
    (f : ServiceInstance → Except GoError ServiceInstance) (operation : Operation)
    (obj : ServiceInstance) (schedule : List SelectEvent) (osbClient : Client)
    (broker : ServiceBroker) (service : ServiceOffering) (plan : ServicePlan)
    (trace : List Event)
    (hplatform : obj.PlatformID = SMPlatform)
    (hreschedule : operation.Reschedule = false)
    (hprepare : prepare i obj [] = (trace, .ok (osbClient, broker, service, plan)))
    (hreference : plan.Name = ReferencePlanName) :
    (AroundTxCreate rt i f (some operation) obj schedule).trace.filter
          Event.isProvisionOrDeprovision =
        [.ProvisionInstance (provisionRequestFor i obj service plan)] ∧
      (provisionRequestFor i obj service plan).PlanID = plan.CatalogID ∧
      plan.Name = ReferencePlanName ∧
      (∀ response object,
        osbClient.ProvisionInstance (provisionRequestFor i obj service plan) =
          .ok response →
        response.Async = true →
        i.repository.Update (.serviceInstance (applyDashboardURL obj response)) = none →
        f (applyDashboardURL obj response) = .ok object →
        AroundTxCreate rt i f (some operation) obj schedule =
          (pollServiceInstance rt i object
            { ID := operation.ID, Reschedule := true,
              DeletionScheduled := operation.DeletionScheduled,
              ExternalID := operation.ExternalID }
            broker.ID service.CatalogID plan.CatalogID response.OperationKey true schedule
            (trace ++ [.ProvisionInstance (provisionRequestFor i obj service plan),
              .repoUpdate (.serviceInstance (applyDashboardURL obj response)),
              .callCreate (applyDashboardURL obj response)
                (some { ID := operation.ID, Reschedule := true,
                        DeletionScheduled := operation.DeletionScheduled,
                        ExternalID := operation.ExternalID })])).andReturn object) ∧
      (∀ response object reply rest,
        osbClient.ProvisionInstance (provisionRequestFor i obj service plan) =
          .ok response →
        response.Async = true →
        i.repository.Update (.serviceInstance (applyDashboardURL obj response)) = none →
        f (applyDashboardURL obj response) = .ok object →
        schedule = .tick reply :: rest →
        ∃ added : List Event,
          (AroundTxCreate rt i f (some operation) obj schedule).trace =
            trace ++ [.ProvisionInstance (provisionRequestFor i obj service plan),
              .repoUpdate (.serviceInstance (applyDashboardURL obj response)),
              .callCreate (applyDashboardURL obj response)
                (some { ID := operation.ID, Reschedule := true,
                        DeletionScheduled := operation.DeletionScheduled,
                        ExternalID := operation.ExternalID }),
              .PollLastOperation
                { InstanceID := object.ID, ServiceID := some service.CatalogID,
                  PlanID := some plan.CatalogID,
                  OperationKey := response.OperationKey }] ++ added) := by
  have htrace := prepare_ok_trace i obj [] trace osbClient broker service plan hprepare
  refine ⟨?_, ?_, hreference, ?_, ?_⟩
  · cases hprovision :
        osbClient.ProvisionInstance (provisionRequestFor i obj service plan) with
    | error err =>
      rw [create_provision_error_run rt i f operation obj schedule osbClient broker
        service plan trace err hplatform hreschedule hprepare hprovision]
      subst htrace
      split <;> simp [prepareEvents, Event.isProvisionOrDeprovision]
    | ok response =>
      by_cases hasync : response.Async = true
      · rw [create_async_run rt i f operation obj schedule osbClient broker service plan
          trace response hplatform hreschedule hprepare hprovision hasync]
        subst htrace
        split
        · simp [prepareEvents, Event.isProvisionOrDeprovision]
        · rw [createFinish_filter Event.isProvisionOrDeprovision (fun _ => rfl)
            (fun _ => rfl) (fun _ _ => rfl)]
          simp [prepareEvents, Event.isProvisionOrDeprovision]
      · rw [create_sync_run rt i f operation obj schedule osbClient broker service plan
          trace response hplatform hreschedule hprepare hprovision (by simpa using hasync)]
        subst htrace
        simp [prepareEvents, Event.isProvisionOrDeprovision]
  · unfold provisionRequestFor
    simp only []
    split
    · split <;> rfl
    · rfl
  · intro response object hprovision hasync hupdate hf
    exact create_async_poll_run rt i f operation obj schedule osbClient broker service plan
      trace response object hplatform hreschedule hprepare hprovision hasync hupdate hf
  · intro response object reply rest hprovision hasync hupdate hf hschedule
    subst hschedule
    exact create_async_first_poll rt i f operation obj osbClient broker service plan trace
      response object reply rest hplatform hreschedule hprepare hprovision hasync hupdate hf

/-- C11 (amended), at a sample input: the stored reference plan and an asynchronous
provision reply. One provision request with plan id `cp-ref` is sent, and a poll request
with that plan id follows the call of `f`. -/
theorem create_reference_plan_provisions_witness :
    sampleReferenceInstance.PlatformID = SMPlatform ∧
      sampleOperation.Reschedule = false ∧
      sampleReferencePlan.Name = ReferencePlanName ∧
      (AroundTxCreate sampleRuntime
          (sampleReferenceInterceptor (.ok asyncProvision) (.ok syncDeprovision) none [] 0)
          sampleCreate (some sampleOperation) sampleReferenceInstance
          [.tick (.ok { State := StateSucceeded, Description := none })]).trace.filter
          Event.isProvisionOrDeprovision =
        [.ProvisionInstance
          (provisionRequestFor
            (sampleReferenceInterceptor (.ok asyncProvision) (.ok syncDeprovision) none [] 0)
            sampleReferenceInstance sampleOffering sampleReferencePlan)] ∧
      (∃ added : List Event,
        (AroundTxCreate sampleRuntime
            (sampleReferenceInterceptor (.ok asyncProvision) (.ok syncDeprovision) none []
              0)
            sampleCreate (some sampleOperation) sampleReferenceInstance
            [.tick (.ok { State := StateSucceeded, Description := none })]).trace =
          prepareEvents sampleReferenceInstance sampleReferencePlan sampleOffering
              sampleBroker ++
            [.ProvisionInstance
                (provisionRequestFor
                  (sampleReferenceInterceptor (.ok asyncProvision) (.ok syncDeprovision)
                    none [] 0)
                  sampleReferenceInstance sampleOffering sampleReferencePlan),
              .repoUpdate (.serviceInstance
                (applyDashboardURL sampleReferenceInstance asyncProvision)),
              .callCreate (applyDashboardURL sampleReferenceInstance asyncProvision)
                (some { ID := sampleOperation.ID, Reschedule := true,
                        DeletionScheduled := sampleOperation.DeletionScheduled,
                        ExternalID := sampleOperation.ExternalID }),
              .PollLastOperation
                { InstanceID := sampleReferenceInstance.ID,
                  ServiceID := some sampleOffering.CatalogID,
                  PlanID := some sampleReferencePlan.CatalogID,
                  OperationKey := asyncProvision.OperationKey }] ++ added) :=
  ⟨rfl, rfl, rfl,
    (create_reference_plan_provisions sampleRuntime
      (sampleReferenceInterceptor (.ok asyncProvision) (.ok syncDeprovision) none [] 0)
      sampleCreate sampleOperation sampleReferenceInstance
      [.tick (.ok { State := StateSucceeded, Description := none })]
      (sampleClient (.ok asyncProvision) (.ok syncDeprovision))
      sampleBroker sampleOffering sampleReferencePlan
      (prepareEvents sampleReferenceInstance sampleReferencePlan sampleOffering
        sampleBroker)
      rfl rfl rfl rfl).1,
    (create_reference_plan_provisions sampleRuntime
      (sampleReferenceInterceptor (.ok asyncProvision) (.ok syncDeprovision) none [] 0)
      sampleCreate sampleOperation sampleReferenceInstance
      [.tick (.ok { State := StateSucceeded, Description := none })]
      (sampleClient (.ok asyncProvision) (.ok syncDeprovision))
      sampleBroker sampleOffering sampleReferencePlan
      (prepareEvents sampleReferenceInstance sampleReferencePlan sampleOffering
        sampleBroker)
      rfl rfl rfl rfl).2.2.2.2 asyncProvision sampleReferenceInstance
        (.ok { State := StateSucceeded, Description := none }) [] rfl rfl rfl rfl rfl⟩

/-- C12 (as stated, refuted): a delete that matches exactly one service-manager instance
whose referenced_instance_id is set, without bindings and with a fresh Operation. A
deprovision request for the reference instance is sent to the broker before `f` is
called. -/
theorem delete_reference_sends_deprovision :
    sampleReferenceInstance.PlatformID = SMPlatform ∧
      sampleReferenceInstance.ReferencedInstanceID = "i1" ∧
      AroundTxDelete sampleRuntime
          (sampleReferenceInterceptor (.ok syncProvision) (.ok syncDeprovision) none
            [sampleReferenceInstance] 0)
          sampleDelete (some sampleOperation) [] [] =
        ⟨some sampleOperation,
          [.repoList .ServiceInstanceType [],
            .repoCount .ServiceBindingType
              [ByField EqualsOperator "service_instance_id" ["i3"]]] ++
            prepareEvents sampleReferenceInstance sampleReferencePlan sampleOffering
              sampleBroker ++
            [.DeprovisionInstance
              { InstanceID := "i3", AcceptsIncomplete := true, ServiceID := "cs1",
                PlanID := "cp-ref" },
              .callDelete [] (some sampleOperation)],
          .ret ()⟩ :=
  ⟨rfl, rfl, rfl⟩

/-- C12 (amended): the interceptor does not look at referenced_instance_id. For a
delete that matches exactly one service-manager instance that is a reference, with an
Operation in the context that has reschedule=false, no bindings and a successful
resolution of plan, offering and broker, exactly one deprovision request for the
instance is sent to the broker, and no provision request; `f` is called at most once,
with the deletion criteria, and only after that deprovision request; and when the
broker answers the request synchronously with success, `f` is called right after it
with the Operation as it was on entry. -/
theorem delete_reference_deprovisions (rt : Runtime) (i : ServiceInstanceInterceptor)
    (f : List Criterion → Option GoError) (operation : Operation)
    (deletionCriteria : List Criterion) (schedule : List SelectEvent)
    (inst : ServiceInstance) (trace0 : List Event) (osbClient : Client)
    (broker : ServiceBroker) (service : ServiceOffering) (plan : ServicePlan)
    (hlist : i.repository.ListInstances deletionCriteria = .ok [inst])
    (hplatform : inst.PlatformID = SMPlatform)
    (hreference : inst.ReferencedInstanceID ≠ "")
    (hcount : i.repository.Count .ServiceBindingType
      [ByField EqualsOperator "service_instance_id" [inst.ID]] = .ok 0)
    (hprepare : prepare i inst [] = (trace0, .ok (osbClient, broker, service, plan)))
    (hreschedule : operation.Reschedule = false) :
    (AroundTxDelete rt i f (some operation) deletionCriteria schedule).trace.filter
          Event.isProvisionOrDeprovision =
        [.DeprovisionInstance
          { InstanceID := inst.ID, AcceptsIncomplete := true,
            ServiceID := service.CatalogID, PlanID := plan.CatalogID }] ∧
      inst.ReferencedInstanceID ≠ "" ∧
      (∃ calls : List Event,
        (AroundTxDelete rt i f (some operation) deletionCriteria schedule).trace.filter
            (fun e => e.isProvisionOrDeprovision || e.isCallDelete) =
          .DeprovisionInstance
            { InstanceID := inst.ID, AcceptsIncomplete := true,
              ServiceID := service.CatalogID, PlanID := plan.CatalogID } :: calls ∧
        (calls = [] ∨ ∃ ctxOperation, calls = [.callDelete deletionCriteria ctxOperation])) ∧
      (∀ response,
        osbClient.DeprovisionInstance
            { InstanceID := inst.ID, AcceptsIncomplete := true,
              ServiceID := service.CatalogID, PlanID := plan.CatalogID } = .ok response →
        response.Async = false →
        (AroundTxDelete rt i f (some operation) deletionCriteria schedule).trace =
          [.repoList .ServiceInstanceType deletionCriteria,
            .repoCount .ServiceBindingType
              [ByField EqualsOperator "service_instance_id" [inst.ID]]] ++
            prepareEvents inst plan service broker ++
            [.DeprovisionInstance
              { InstanceID := inst.ID, AcceptsIncomplete := true,
                ServiceID := service.CatalogID, PlanID := plan.CatalogID },
              .callDelete deletionCriteria (some operation)]) := by
  have hfilter :
      (deleteSingleInstance rt i inst operation schedule
          [.repoList .ServiceInstanceType deletionCriteria]).trace.filter
          (fun e => e.isProvisionOrDeprovision || e.isCallDelete) =
        [.DeprovisionInstance
          { InstanceID := inst.ID, AcceptsIncomplete := true,
            ServiceID := service.CatalogID, PlanID := plan.CatalogID }] := by
    rw [deleteSingleInstance_deprovision rt i inst operation schedule
      [.repoList .ServiceInstanceType deletionCriteria] trace0 osbClient broker service
      plan 0 hcount (by decide) hprepare hreschedule]
    split
    · split
      · simp [prepareEvents, Event.isProvisionOrDeprovision, Event.isCallDelete]
      · split <;> simp [prepareEvents, Event.isProvisionOrDeprovision, Event.isCallDelete]
    · split
      · split
        · simp [prepareEvents, Event.isProvisionOrDeprovision, Event.isCallDelete]
        · rw [pollServiceInstance_filter
            (fun e => e.isProvisionOrDeprovision || e.isCallDelete) (fun _ => rfl)
            (fun _ => rfl)]
          simp [prepareEvents, Event.isProvisionOrDeprovision, Event.isCallDelete]
      · simp [prepareEvents, Event.isProvisionOrDeprovision, Event.isCallDelete]
  refine ⟨?_, hreference, ?_, ?_⟩
  · rw [delete_single_filter Event.isProvisionOrDeprovision (fun _ _ => rfl) rt i f
        operation deletionCriteria schedule inst hlist hplatform,
      deleteSingleInstance_deprovision rt i inst operation schedule
        [.repoList .ServiceInstanceType deletionCriteria] trace0 osbClient broker service
        plan 0 hcount (by decide) hprepare hreschedule]
    split
    · split
      · simp [prepareEvents, Event.isProvisionOrDeprovision]
      · split <;> simp [prepareEvents, Event.isProvisionOrDeprovision]
    · split
      · split
        · simp [prepareEvents, Event.isProvisionOrDeprovision]
        · rw [pollServiceInstance_filter Event.isProvisionOrDeprovision (fun _ => rfl)
            (fun _ => rfl)]
          simp [prepareEvents, Event.isProvisionOrDeprovision]
      · simp [prepareEvents, Event.isProvisionOrDeprovision]
  · obtain ⟨calls, htrace, hcalls⟩ := delete_single_trace rt i f operation
      deletionCriteria schedule inst hlist hplatform
    refine ⟨calls, ?_, ?_⟩
    · rw [htrace, List.filter_append, hfilter]
      rcases hcalls with h | h <;> simp [h, Event.isProvisionOrDeprovision,
        Event.isCallDelete]
    · rcases hcalls with h | h
      · exact Or.inl h
      · exact Or.inr ⟨_, h⟩
  · intro response hdeprovision hasync
    have htrace := prepare_ok_trace i inst [] trace0 osbClient broker service plan hprepare
    rw [delete_single_run rt i f operation deletionCriteria schedule inst hlist hplatform,
      deleteSingleInstance_deprovision rt i inst operation schedule
        [.repoList .ServiceInstanceType deletionCriteria] trace0 osbClient broker service
        plan 0 hcount (by decide) hprepare hreschedule]
    simp only [hdeprovision, hasync]
    simp [deleteFinish]
    cases f deletionCriteria <;> simp

/-- C12 (amended), at a sample input: a reference instance and a synchronous
deprovision reply. The deprovision request for the reference instance comes first and
the call of `f` after it. -/
theorem delete_reference_deprovisions_witness :
    sampleReferenceInstance.PlatformID = SMPlatform ∧
      sampleReferenceInstance.ReferencedInstanceID ≠ "" ∧
      sampleOperation.Reschedule = false ∧
      (AroundTxDelete sampleRuntime
          (sampleReferenceInterceptor (.ok syncProvision) (.ok syncDeprovision) none
            [sampleReferenceInstance] 0)
          sampleDelete (some sampleOperation) [] []).trace.filter
          Event.isProvisionOrDeprovision =
        [.DeprovisionInstance
          { InstanceID := "i3", AcceptsIncomplete := true, ServiceID := "cs1",
            PlanID := "cp-ref" }] ∧
      (AroundTxDelete sampleRuntime
          (sampleReferenceInterceptor (.ok syncProvision) (.ok syncDeprovision) none
            [sampleReferenceInstance] 0)
          sampleDelete (some sampleOperation) [] []).trace =
        [.repoList .ServiceInstanceType [],
          .repoCount .ServiceBindingType
            [ByField EqualsOperator "service_instance_id" [sampleReferenceInstance.ID]]] ++
          prepareEvents sampleReferenceInstance sampleReferencePlan sampleOffering
            sampleBroker ++
          [.DeprovisionInstance
            { InstanceID := sampleReferenceInstance.ID, AcceptsIncomplete := true,
              ServiceID := sampleOffering.CatalogID,
              PlanID := sampleReferencePlan.CatalogID },
            .callDelete [] (some sampleOperation)] :=
  ⟨rfl, by decide, rfl,
    (delete_reference_deprovisions sampleRuntime
      (sampleReferenceInterceptor (.ok syncProvision) (.ok syncDeprovision) none
        [sampleReferenceInstance] 0)
      sampleDelete sampleOperation [] [] sampleReferenceInstance
      (prepareEvents sampleReferenceInstance sampleReferencePlan sampleOffering
        sampleBroker)
      (sampleClient (.ok syncProvision) (.ok syncDeprovision))
      sampleBroker sampleOffering sampleReferencePlan
      rfl rfl (by decide) rfl rfl rfl).1,
    (delete_reference_deprovisions sampleRuntime
      (sampleReferenceInterceptor (.ok syncProvision) (.ok syncDeprovision) none
        [sampleReferenceInstance] 0)
      sampleDelete sampleOperation [] [] sampleReferenceInstance
      (prepareEvents sampleReferenceInstance sampleReferencePlan sampleOffering
        sampleBroker)
      (sampleClient (.ok syncProvision) (.ok syncDeprovision))
      sampleBroker sampleOffering sampleReferencePlan
      rfl rfl (by decide) rfl rfl rfl).2.2.2 syncDeprovision rfl rfl⟩

/-! ## Catalog verification -/

/-- The inner loop reports the reserved name exactly when some plan of the offering
carries it as name or as catalog name. -/
theorem verifyPlans_eq (handleInstanceSharingError : SharingError → String → GoError)
    (plans : List ServicePlan) :
    verifyPlans handleInstanceSharingError plans =
      if ∃ plan ∈ plans, plan.Name = ReferencePlanName ∨ plan.CatalogName = ReferencePlanName
      then some (handleInstanceSharingError .ErrCatalogUsesReservedPlanName ReferencePlanName)
      else none := by
  induction plans with
  | nil => simp [verifyPlans]
  | cons plan rest ih =>
    unfold verifyPlans
    by_cases h : plan.Name = ReferencePlanName ∨ plan.CatalogName = ReferencePlanName
    · simp [h]
    · rw [if_neg h, ih]
      simp [h]

/-- The outer loop reports the reserved name exactly when some plan of some offering
carries it as name or as catalog name. -/
theorem verifyServices_eq (handleInstanceSharingError : SharingError → String → GoError)
    (catalogServices : List ServiceOffering) :
    verifyServices handleInstanceSharingError catalogServices =
      if ∃ service ∈ catalogServices, ∃ plan ∈ service.Plans,
          plan.Name = ReferencePlanName ∨ plan.CatalogName = ReferencePlanName
      then some (handleInstanceSharingError .ErrCatalogUsesReservedPlanName ReferencePlanName)
      else none := by
  induction catalogServices with
  | nil => simp [verifyServices]
  | cons service rest ih =>
    unfold verifyServices
    rw [verifyPlans_eq]
    by_cases h : ∃ plan ∈ service.Plans,
        plan.Name = ReferencePlanName ∨ plan.CatalogName = ReferencePlanName
    · simp only [h, ↓reduceIte]
      rw [if_pos]
      exact ⟨service, List.mem_cons_self _ _, h⟩
    · simp only [h, ↓reduceIte]
      rw [ih]
      by_cases h' : ∃ service' ∈ rest, ∃ plan ∈ service'.Plans,
          plan.Name = ReferencePlanName ∨ plan.CatalogName = ReferencePlanName
      · rw [if_pos h', if_pos]
        obtain ⟨s, hs, hp⟩ := h'
        exact ⟨s, List.mem_cons_of_mem _ hs, hp⟩
      · rw [if_neg h', if_neg]
        rintro ⟨s, hs, hp⟩
        rcases List.mem_cons.mp hs with rfl | hs
        · exact h hp
        · exact h' ⟨s, hs, hp⟩

/-- C20: `VerifyCatalogDoesNotUseReferencePlan` returns the error that
`util.HandleInstanceSharingError` builds for `ErrCatalogUsesReservedPlanName` exactly
when some plan of some offering of the catalog has the name or the catalog name
`reference-plan`; for every other catalog, among them the empty catalog and catalogs
whose offerings have no plans, it returns nil; in both cases the catalog after the call
is the catalog passed in. -/
theorem VerifyCatalogDoesNotUseReferencePlan_iff
    (handleInstanceSharingError : SharingError → String → GoError)
    (catalogServices : List ServiceOffering) :
    ((VerifyCatalogDoesNotUseReferencePlan handleInstanceSharingError catalogServices).err =
          some (handleInstanceSharingError .ErrCatalogUsesReservedPlanName
            ReferencePlanName) ↔
        ∃ service ∈ catalogServices, ∃ plan ∈ service.Plans,
          plan.Name = ReferencePlanName ∨ plan.CatalogName = ReferencePlanName) ∧
      ((VerifyCatalogDoesNotUseReferencePlan handleInstanceSharingError catalogServices).err =
          none ↔
        ¬ ∃ service ∈ catalogServices, ∃ plan ∈ service.Plans,
          plan.Name = ReferencePlanName ∨ plan.CatalogName = ReferencePlanName) ∧
      (VerifyCatalogDoesNotUseReferencePlan handleInstanceSharingError []).err = none ∧
      ((∀ service ∈ catalogServices, service.Plans = []) →
        (VerifyCatalogDoesNotUseReferencePlan handleInstanceSharingError
          catalogServices).err = none) ∧
      (VerifyCatalogDoesNotUseReferencePlan handleInstanceSharingError
        catalogServices).catalogServices = catalogServices := by
  refine ⟨?_, ?_, ?_, ?_, rfl⟩ <;>
    simp only [VerifyCatalogDoesNotUseReferencePlan, verifyServices_eq]
  · by_cases h : ∃ service ∈ catalogServices, ∃ plan ∈ service.Plans,
        plan.Name = ReferencePlanName ∨ plan.CatalogName = ReferencePlanName
    · simp only [h, ↓reduceIte]
    · simp only [h, ↓reduceIte, reduceCtorEq]
  · by_cases h : ∃ service ∈ catalogServices, ∃ plan ∈ service.Plans,
        plan.Name = ReferencePlanName ∨ plan.CatalogName = ReferencePlanName
    · simp only [h, ↓reduceIte, reduceCtorEq, not_true_eq_false]
    · simp only [h, ↓reduceIte, not_false_eq_true]
  · simp
  · intro hempty
    rw [if_neg]
    rintro ⟨service, hs, plan, hp, -⟩
    rw [hempty service hs] at hp
    simp at hp

/-- C20, at sample inputs: a catalog with a reserved catalog name in its second offering
is rejected and a catalog without reserved names is accepted. -/
theorem VerifyCatalogDoesNotUseReferencePlan_iff_witness :
    (VerifyCatalogDoesNotUseReferencePlan sampleHandleInstanceSharingError
          sampleReservedCatalog).err =
        some (.utilHTTP "CatalogUsesReservedPlanName" "reference-plan") ∧
      (VerifyCatalogDoesNotUseReferencePlan sampleHandleInstanceSharingError
          sampleCleanCatalog).err = none ∧
      (VerifyCatalogDoesNotUseReferencePlan sampleHandleInstanceSharingError
          [sampleOffering]).err = none :=
  ⟨(VerifyCatalogDoesNotUseReferencePlan_iff sampleHandleInstanceSharingError
      sampleReservedCatalog).1.mpr
      ⟨{ sampleOffering with
          ID := "s2", CatalogID := "cs2",
          Plans := [samplePlan,
            { samplePlan with ID := "p2", CatalogName := "reference-plan" }] },
        by simp [sampleReservedCatalog],
        { samplePlan with ID := "p2", CatalogName := "reference-plan" },
        by simp, Or.inr rfl⟩,
    rfl,
    (VerifyCatalogDoesNotUseReferencePlan_iff sampleHandleInstanceSharingError
      [sampleOffering]).2.2.2.1 (by simp [sampleOffering])⟩

/-! ## Create: the inner create function fails after a successful provision -/

/-- C30: for a create of a service-manager instance whose provision call succeeded,
synchronously or asynchronously, and whose inner create function `f` is then called
(in the asynchronous case this is after the Update that follows the provision has
succeeded) and fails, the wrapped create returns the error of `f`, no poll request and
no deprovision request is sent, and deletion_scheduled of the Operation is as on entry:
no orphan mitigation is scheduled. -/
theorem create_f_fails_after_provision (rt : Runtime) (i : ServiceInstanceInterceptor)
    (f : ServiceInstance → Except GoError ServiceInstance) (operation : Operation)
    (obj : ServiceInstance) (schedule : List SelectEvent) (osbClient : Client)
    (broker : ServiceBroker) (service : ServiceOffering) (plan : ServicePlan)
    (trace : List Event) (response : ProvisionResponse) (ferr : GoError)
    (hplatform : obj.PlatformID = SMPlatform)
    (hreschedule : operation.Reschedule = false)
    (hprepare : prepare i obj [] = (trace, .ok (osbClient, broker, service, plan)))
    (hprovision :
      osbClient.ProvisionInstance (provisionRequestFor i obj service plan) = .ok response)
    (hupdate : response.Async = true →
      i.repository.Update (.serviceInstance (applyDashboardURL obj response)) = none)
    (hf : f (applyDashboardURL obj response) = .error ferr) :
    (AroundTxCreate rt i f (some operation) obj schedule).outcome = .fail ferr ∧
      (AroundTxCreate rt i f (some operation) obj schedule).trace.filter Event.isPoll = [] ∧
      (AroundTxCreate rt i f (some operation) obj schedule).trace.filter
          Event.isProvisionOrDeprovision =
        [.ProvisionInstance (provisionRequestFor i obj service plan)] ∧
      (AroundTxCreate rt i f (some operation) obj schedule).trace.filter
          Event.isCallCreate =
        [.callCreate (applyDashboardURL obj response)
          (some { operation with Reschedule := response.Async })] ∧
      (AroundTxCreate rt i f (some operation) obj schedule).operation =
        some { ID := operation.ID, Reschedule := response.Async,
               DeletionScheduled := operation.DeletionScheduled,
               ExternalID := operation.ExternalID } := by
  have htrace := prepare_ok_trace i obj [] trace osbClient broker service plan hprepare
  by_cases hasync : response.Async = true
  · rw [create_async_run rt i f operation obj schedule osbClient broker service plan
      trace response hplatform hreschedule hprepare hprovision hasync]
    subst htrace
    simp [hupdate hasync, createFinish, hf, hasync, prepareEvents, Event.isPoll,
      Event.isProvisionOrDeprovision, Event.isCallCreate]
  · have hsync : response.Async = false := by simpa using hasync
    rw [create_sync_run rt i f operation obj schedule osbClient broker service plan
      trace response hplatform hreschedule hprepare hprovision hsync]
    subst htrace
    simp [hf, hsync, prepareEvents, Event.isPoll, Event.isProvisionOrDeprovision,
      Event.isCallCreate, hreschedule.symm]

/-- C30, at a sample input: asynchronous provision, then the inner create function
fails. -/
theorem create_f_fails_after_provision_witness :
    sampleInstance.PlatformID = SMPlatform ∧
      sampleOperation.Reschedule = false ∧
      AroundTxCreate sampleRuntime
          (sampleInterceptor (.ok asyncProvision) (.ok syncDeprovision) none [] 0)
          (fun _ => .error (.errorf "insert failed")) (some sampleOperation) sampleInstance
          [.tick (.ok { State := StateSucceeded, Description := none })] =
        ⟨some { ID := "op1", Reschedule := true, DeletionScheduled := none,
                ExternalID := "" },
          prepareEvents sampleInstance samplePlan sampleOffering sampleBroker ++
            [.ProvisionInstance
                (provisionRequestFor
                  (sampleInterceptor (.ok asyncProvision) (.ok syncDeprovision) none [] 0)
                  sampleInstance sampleOffering samplePlan),
              .repoUpdate (.serviceInstance sampleInstance),
              .callCreate sampleInstance
                (some { ID := "op1", Reschedule := true, DeletionScheduled := none,
                        ExternalID := "" })],
          .fail (.errorf "insert failed")⟩ ∧
      (AroundTxCreate sampleRuntime
          (sampleInterceptor (.ok asyncProvision) (.ok syncDeprovision) none [] 0)
          (fun _ => .error (.errorf "insert failed")) (some sampleOperation) sampleInstance
          [.tick (.ok { State := StateSucceeded, Description := none })]).outcome =
        .fail (.errorf "insert failed") :=
  ⟨rfl, rfl, rfl,
    (create_f_fails_after_provision sampleRuntime
      (sampleInterceptor (.ok asyncProvision) (.ok syncDeprovision) none [] 0)
      (fun _ => .error (.errorf "insert failed")) sampleOperation sampleInstance
      [.tick (.ok { State := StateSucceeded, Description := none })]
      (sampleClient (.ok asyncProvision) (.ok syncDeprovision))
      sampleBroker sampleOffering samplePlan
      (prepareEvents sampleInstance samplePlan sampleOffering sampleBroker)
      asyncProvision (.errorf "insert failed") rfl rfl rfl rfl (fun _ => rfl) rfl).1⟩

/-! ## Create: the provision request -/

/-- A create with a fresh Operation and a successful resolution sends exactly one
provision request, the one built by `provisionRequestFor`, and no deprovision
request. -/
theorem create_fresh_provision_filter (rt : Runtime) (i : ServiceInstanceInterceptor)
    (f : ServiceInstance → Except GoError ServiceInstance) (operation : Operation)
    (obj : ServiceInstance) (schedule : List SelectEvent) (osbClient : Client)
    (broker : ServiceBroker) (service : ServiceOffering) (plan : ServicePlan)
    (trace : List Event)
    (hplatform : obj.PlatformID = SMPlatform)
    (hreschedule : operation.Reschedule = false)
    (hprepare : prepare i obj [] = (trace, .ok (osbClient, broker, service, plan))) :
    (AroundTxCreate rt i f (some operation) obj schedule).trace.filter
        Event.isProvisionOrDeprovision =
      [.ProvisionInstance (provisionRequestFor i obj service plan)] := by
  have htrace := prepare_ok_trace i obj [] trace osbClient broker service plan hprepare
  cases hprovision :
      osbClient.ProvisionInstance (provisionRequestFor i obj service plan) with
  | error err =>
    rw [create_provision_error_run rt i f operation obj schedule osbClient broker
      service plan trace err hplatform hreschedule hprepare hprovision]
    subst htrace
    split <;> simp [prepareEvents, Event.isProvisionOrDeprovision]
  | ok response =>
    by_cases hasync : response.Async = true
    · rw [create_async_run rt i f operation obj schedule osbClient broker service plan
        trace response hplatform hreschedule hprepare hprovision hasync]
      subst htrace
      split
      · simp [prepareEvents, Event.isProvisionOrDeprovision]
      · rw [createFinish_filter Event.isProvisionOrDeprovision (fun _ => rfl)
          (fun _ => rfl) (fun _ _ => rfl)]
        simp [prepareEvents, Event.isProvisionOrDeprovision]
    · rw [create_sync_run rt i f operation obj schedule osbClient broker service plan
        trace response hplatform hreschedule hprepare hprovision (by simpa using hasync)]
      subst htrace
      simp [prepareEvents, Event.isProvisionOrDeprovision]

/-- C25 (as stated, refuted): with the tenant key configured as `platform` and an
instance that carries a label `platform`, the context of the provision request that is
sent has the tenant values under the key `platform` and no entry
platform = service-manager. -/
theorem provision_context_tenant_key_platform :
    (AroundTxCreate sampleRuntime
          { sampleInterceptor (.ok syncProvision) (.ok syncDeprovision) none [] 0 with
            tenantKey := "platform" }
          sampleCreate (some sampleOperation)
          { sampleInstance with Labels := [("platform", ["tenant-1"])] } []).trace.filter
          Event.isProvisionOrDeprovision =
        [.ProvisionInstance
          { InstanceID := "i1", AcceptsIncomplete := true, ServiceID := "cs1",
            PlanID := "cp1", OrganizationGUID := "-", SpaceGUID := "-", Parameters := "",
            Context := [("platform", .strs ["tenant-1"])] }] ∧
      mapGet [("platform", ContextValue.strs ["tenant-1"])] "platform" ≠
        some (.str "service-manager") :=
  ⟨rfl, by decide⟩

/-- C25 (amended): for a create of a service-manager instance with reschedule=false,
with the configured tenant key different from `platform`, exactly one provision request
is sent; it has the id of the instance, the catalog ids of the resolved offering and
plan, the parameters of the instance, accepts_incomplete=true, and a context made of
the entry platform = service-manager, followed by the entry tenant key -> tenant values
exactly when the tenant key is not empty and the instance carries a label with that
key; the context has no other entries. -/
theorem provision_request_fields (rt : Runtime) (i : ServiceInstanceInterceptor)
    (f : ServiceInstance → Except GoError ServiceInstance) (operation : Operation)
    (obj : ServiceInstance) (schedule : List SelectEvent) (osbClient : Client)
    (broker : ServiceBroker) (service : ServiceOffering) (plan : ServicePlan)
    (trace : List Event)
    (hplatform : obj.PlatformID = SMPlatform)
    (hreschedule : operation.Reschedule = false)
    (hprepare : prepare i obj [] = (trace, .ok (osbClient, broker, service, plan)))
    (htenant : i.tenantKey ≠ "platform") :
    (AroundTxCreate rt i f (some operation) obj schedule).trace.filter
          Event.isProvisionOrDeprovision =
        [.ProvisionInstance
          { InstanceID := obj.ID,
            AcceptsIncomplete := true,
            ServiceID := service.CatalogID,
            PlanID := plan.CatalogID,
            OrganizationGUID := "-",
            SpaceGUID := "-",
            Parameters := obj.Parameters,
            Context :=
              ("platform", .str "service-manager") ::
                (match (if i.tenantKey ≠ "" then mapGet obj.Labels i.tenantKey else none) with
                  | some tenantValue => [(i.tenantKey, .strs tenantValue)]
                  | none => []) }] := by
  rw [create_fresh_provision_filter rt i f operation obj schedule osbClient broker service
    plan trace hplatform hreschedule hprepare]
  have hne : ¬ "platform" = i.tenantKey := fun h => htenant h.symm
  unfold provisionRequestFor
  by_cases hempty : i.tenantKey = ""
  · simp [hempty]
  · have hlen : i.tenantKey.length ≠ 0 := by
      intro h
      apply hempty
      have : i.tenantKey.data = [] := List.length_eq_zero.mp h
      exact String.ext this
    simp only [ne_eq, hlen, not_false_eq_true, ↓reduceIte, hempty]
    cases hlabel : mapGet obj.Labels i.tenantKey <;> simp [mapSet, hne]

/-- C25 (amended), at a sample input: tenant key `tenant` and an instance labelled with
tenant `tenant-1`. -/
theorem provision_request_fields_witness :
    sampleInstance.PlatformID = SMPlatform ∧
      sampleOperation.Reschedule = false ∧
      ("tenant" : String) ≠ "platform" ∧
      (AroundTxCreate sampleRuntime
          { sampleInterceptor (.ok syncProvision) (.ok syncDeprovision) none [] 0 with
            tenantKey := "tenant" }
          sampleCreate (some sampleOperation)
          { sampleInstance with Labels := [("tenant", ["tenant-1"])] } []).trace.filter
          Event.isProvisionOrDeprovision =
        [.ProvisionInstance
          { InstanceID := "i1", AcceptsIncomplete := true, ServiceID := "cs1",
            PlanID := "cp1", OrganizationGUID := "-", SpaceGUID := "-", Parameters := "",
            Context := [("platform", .str "service-manager"),
              ("tenant", .strs ["tenant-1"])] }] :=
  ⟨rfl, rfl, by decide,
    provision_request_fields sampleRuntime
      { sampleInterceptor (.ok syncProvision) (.ok syncDeprovision) none [] 0 with
        tenantKey := "tenant" }
      sampleCreate sampleOperation
      { sampleInstance with Labels := [("tenant", ["tenant-1"])] } []
      (sampleClient (.ok syncProvision) (.ok syncDeprovision))
      sampleBroker sampleOffering samplePlan
      (prepareEvents { sampleInstance with Labels := [("tenant", ["tenant-1"])] }
        samplePlan sampleOffering sampleBroker)
      rfl rfl rfl (by decide)⟩

/-! ## Update is a pass-through -/

/-- C26: `AroundTxUpdate` is a pass-through: for every inner update function `h`,
`AroundTxUpdate h` is `h` itself, so for every context, object and label changes the
wrapped update leaves behind exactly what `h` leaves behind: the same returned object
or error, the same calls and the same Operation, with nothing added by the
interceptor. -/
theorem AroundTxUpdate_pass_through (i : ServiceInstanceInterceptor)
    (h : InterceptUpdateAroundTxFunc) :
    AroundTxUpdate i h = h ∧
      ∀ (ctxOperation : Option Operation) (obj : Object) (labelChanges : List LabelChange),
        (AroundTxUpdate i h ctxOperation obj labelChanges).outcome =
            (h ctxOperation obj labelChanges).outcome ∧
          (AroundTxUpdate i h ctxOperation obj labelChanges).trace =
            (h ctxOperation obj labelChanges).trace ∧
          (AroundTxUpdate i h ctxOperation obj labelChanges).operation =
            (h ctxOperation obj labelChanges).operation :=
  ⟨rfl, fun _ _ _ => ⟨rfl, rfl, rfl⟩⟩

/-- C26, at a sample input: the wrapped update of a service-manager instance makes the
one call that the inner update function makes. -/
theorem AroundTxUpdate_pass_through_witness :
    (AroundTxUpdate
        (sampleInterceptor (.ok syncProvision) (.ok syncDeprovision) none [] 0)
        sampleUpdate (some sampleOperation) (.serviceInstance sampleInstance) []).trace =
      [.repoUpdate (.serviceInstance sampleInstance)] :=
  ((AroundTxUpdate_pass_through
    (sampleInterceptor (.ok syncProvision) (.ok syncDeprovision) none [] 0)
    sampleUpdate).2 (some sampleOperation) (.serviceInstance sampleInstance) []).2.1

/-! ## Lemmas on reference plan generation -/

/-- The inner loop acts on the first shareable plan of the list, if there is one. -/
theorem generateForPlans_eq (env : CatalogEnv) (service : ServiceOffering)
    (state : GenerateState) (plans : List ServicePlan) :
    generateForPlans env service state plans =
      match plans.find? (fun plan => plan.Shareable) with
      | none => .next service state
      | some plan =>
        if !isPlanBindable service plan then
          .fail (env.handleInstanceSharingError .ErrPlanMustBeBindable plan.Name)
        else
          match state.existingReferencePlan with
          | some referencePlan =>
            .next (attachReferencePlan service state referencePlan).1
              (attachReferencePlan service state referencePlan).2
          | none =>
            match generateReferencePlanObject env state.uuidCount plan.ServiceOfferingID with
            | none => .uuidPanic
            | some referencePlan =>
              .next
                (attachReferencePlan service
                  { state with uuidCount := state.uuidCount + 1 } referencePlan).1
                (attachReferencePlan service
                  { state with uuidCount := state.uuidCount + 1 } referencePlan).2 := by
  induction plans with
  | nil => simp [generateForPlans]
  | cons plan rest ih =>
    unfold generateForPlans
    by_cases hs : plan.Shareable = true
    · simp [hs, List.find?_cons]
    · simp only [hs, Bool.false_eq_true, ↓reduceIte, List.find?_cons]
      rw [ih]

/-- An iteration of the inner loop that goes on to the next offering leaves an offering
without shareable plan as it is and appends one plan to the plans of an offering with a
shareable plan: the plan held in `existingReferencePlan`, or else a generated one. -/
theorem generateForPlans_next (env : CatalogEnv) (service service' : ServiceOffering)
    (state state' : GenerateState)
    (h : generateForPlans env service state service.Plans = .next service' state') :
    (hasShareablePlan service = false ∧ service' = service ∧ state' = state) ∨
      (hasShareablePlan service = true ∧
        ∃ referencePlan,
          service' = { service with Plans := service.Plans ++ [referencePlan] } ∧
          state'.existingReferencePlan = state.existingReferencePlan ∧
          state' =
            (attachReferencePlan service { state with uuidCount := state'.uuidCount }
              referencePlan).2 ∧
          ((state.existingReferencePlan = some referencePlan ∧
              state'.uuidCount = state.uuidCount) ∨
            (state.existingReferencePlan = none ∧
              state'.uuidCount = state.uuidCount + 1 ∧
              ∃ plan, service.Plans.find? (fun plan => plan.Shareable) = some plan ∧
                generateReferencePlanObject env state.uuidCount plan.ServiceOfferingID =
                  some referencePlan))) := by
  rw [generateForPlans_eq] at h
  cases hfind : service.Plans.find? (fun plan => plan.Shareable) with
  | none =>
    rw [hfind] at h
    simp only [StepResult.next.injEq] at h
    left
    refine ⟨?_, h.1.symm, h.2.symm⟩
    simpa [hasShareablePlan, List.find?_eq_none] using hfind
  | some plan =>
    rw [hfind] at h
    right
    have hany : hasShareablePlan service = true := by
      simp only [hasShareablePlan, List.any_eq_true]
      exact ⟨plan, List.mem_of_find?_eq_some hfind, by
        simpa using List.find?_some hfind⟩
    refine ⟨hany, ?_⟩
    simp only [] at h
    split at h
    · simp at h
    · cases hex : state.existingReferencePlan with
      | some referencePlan =>
        rw [hex] at h
        simp only [StepResult.next.injEq] at h
        obtain ⟨h1, h2⟩ := h
        exact ⟨referencePlan, by rw [← h1]; rfl,
          by rw [← h2]; simp [attachReferencePlan, hex],
          by rw [← h2]; simp [attachReferencePlan, hex],
          Or.inl ⟨rfl, by rw [← h2]; simp [attachReferencePlan]⟩⟩
      | none =>
        rw [hex] at h
        simp only [] at h
        cases hgen : generateReferencePlanObject env state.uuidCount
            plan.ServiceOfferingID with
        | none => rw [hgen] at h; simp at h
        | some referencePlan =>
          rw [hgen] at h
          simp only [StepResult.next.injEq] at h
          obtain ⟨h1, h2⟩ := h
          exact ⟨referencePlan, by rw [← h1]; rfl,
            by rw [← h2]; simp [attachReferencePlan, hex],
            by rw [← h2]; simp [attachReferencePlan, hex],
            Or.inr ⟨rfl, by rw [← h2]; simp [attachReferencePlan], plan, rfl, hgen⟩⟩

/-- One iteration of the outer loop that goes on to the next offering: a property that
holds of the plan in `existingReferencePlan`, of every plan returned by the lookup of
the stored reference plan and of every generated plan holds of the plan in
`existingReferencePlan` afterwards and of the plan appended to the offering. -/
theorem generateForOffering_next (P : ServicePlan → Prop) (env : CatalogEnv)
    (state state' : GenerateState) (service service' : ServiceOffering)
    (hstate : ∀ p, state.existingReferencePlan = some p → P p)
    (hget : ∀ id p, getExistingReferencePlan env id = .ok (some p) → P p)
    (hgen : ∀ n id p, generateReferencePlanObject env n id = some p → P p)
    (h : generateForOffering env state service = .next service' state') :
    (∀ p, state'.existingReferencePlan = some p → P p) ∧
      (hasShareablePlan service = false → service' = service) ∧
      (hasShareablePlan service = true →
        ∃ referencePlan, P referencePlan ∧
          service' = { service with Plans := service.Plans ++ [referencePlan] }) := by
  unfold generateForOffering at h
  split at h
  · simp at h
  · rcases generateForPlans_next env service service' state state' h with
      ⟨h1, h2, h3⟩ | ⟨h1, ref, h2, h3, -, h5⟩
    · subst h3
      exact ⟨hstate, fun _ => h2, fun hc => by simp [h1] at hc⟩
    · refine ⟨fun p hp => hstate p (h3 ▸ hp), fun hc => by simp [h1] at hc, fun _ => ?_⟩
      rcases h5 with ⟨h6, -⟩ | ⟨-, -, plan, -, h7⟩
      · exact ⟨ref, hstate ref h6, h2⟩
      · exact ⟨ref, hgen _ _ _ h7, h2⟩
  · rename_i serviceOffering hso
    split at h
    · simp at h
    · rename_i existing hexisting
      have hstate2 : ∀ p, ({ state with existingReferencePlan := existing } :
          GenerateState).existingReferencePlan = some p → P p := by
        intro p hp
        simp only [] at hp
        subst hp
        exact hget _ p hexisting
      rcases generateForPlans_next env service service' _ state' h with
        ⟨h1, h2, h3⟩ | ⟨h1, ref, h2, h3, -, h5⟩
      · subst h3
        exact ⟨hstate2, fun _ => h2, fun hc => by simp [h1] at hc⟩
      · refine ⟨fun p hp => hstate2 p (h3 ▸ hp), fun hc => by simp [h1] at hc, fun _ => ?_⟩
        rcases h5 with ⟨h6, -⟩ | ⟨-, -, plan, -, h7⟩
        · exact ⟨ref, hstate2 ref h6, h2⟩
        · exact ⟨ref, hgen _ _ _ h7, h2⟩

/-- A run of the outer loop that returns nil has left every offering without shareable
plan as it is and has appended one plan to the plans of every offering with a shareable
plan; see `generateForOffering_next` for the property of the appended plans. -/
theorem generateLoop_ok (P : ServicePlan → Prop) (env : CatalogEnv)
    (hget : ∀ id p, getExistingReferencePlan env id = .ok (some p) → P p)
    (hgen : ∀ n id p, generateReferencePlanObject env n id = some p → P p)
    (catalogServices : List ServiceOffering) (state : GenerateState)
    (done : List ServiceOffering)
    (hstate : ∀ p, state.existingReferencePlan = some p → P p)
    (hok : (generateLoop env state done catalogServices).outcome = .ok) :
    ∃ after,
      (generateLoop env state done catalogServices).catalogServices = done ++ after ∧
      List.Forall₂
        (fun service service' =>
          (hasShareablePlan service = false → service' = service) ∧
          (hasShareablePlan service = true →
            ∃ referencePlan, P referencePlan ∧
              service' = { service with Plans := service.Plans ++ [referencePlan] }))
        catalogServices after := by
  induction catalogServices generalizing state done with
  | nil => exact ⟨[], by simp [generateLoop], List.Forall₂.nil⟩
  | cons service rest ih =>
    unfold generateLoop at hok ⊢
    cases hstep : generateForOffering env state service with
    | next service' state' =>
      rw [hstep] at hok
      simp only [] at hok ⊢
      obtain ⟨hstate', hshape⟩ :=
        generateForOffering_next P env state state' service service' hstate hget hgen hstep
      obtain ⟨after, h1, h2⟩ := ih state' (done ++ [service']) hstate' hok
      exact ⟨service' :: after, by rw [h1]; simp, List.Forall₂.cons hshape h2⟩
    | fail err => rw [hstep] at hok; simp at hok
    | uuidPanic => rw [hstep] at hok; simp at hok

/-- A run of the outer loop that returns an error has processed the offerings before
some offering without error, has failed in the iteration for that offering, and has
left that offering and the offerings after it as they were. -/
theorem generateLoop_fail (env : CatalogEnv) (catalogServices : List ServiceOffering)
    (state : GenerateState) (done : List ServiceOffering) (err : GoError)
    (hfail : (generateLoop env state done catalogServices).outcome = .fail err) :
    ∃ before service after,
      catalogServices = before ++ service :: after ∧
      (generateLoop env state done before).outcome = .ok ∧
      generateForOffering env (generateLoop env state done before).state service =
        .fail err ∧
      (generateLoop env state done catalogServices).catalogServices =
        (generateLoop env state done before).catalogServices ++ service :: after ∧
      (generateLoop env state done catalogServices).state =
        (generateLoop env state done before).state := by
  induction catalogServices generalizing state done with
  | nil => simp [generateLoop] at hfail
  | cons service rest ih =>
    unfold generateLoop at hfail
    cases hstep : generateForOffering env state service with
    | next service' state' =>
      rw [hstep] at hfail
      simp only [] at hfail
      obtain ⟨before, failing, after, h1, h2, h3, h4, h5⟩ :=
        ih state' (done ++ [service']) hfail
      refine ⟨service :: before, failing, after, by rw [h1]; rfl, ?_, ?_, ?_, ?_⟩
      · rw [generateLoop, hstep]; exact h2
      · rw [generateLoop, hstep]; exact h3
      · conv => lhs; rw [generateLoop, hstep]
        conv => rhs; rw [generateLoop, hstep]
        exact h4
      · conv => lhs; rw [generateLoop, hstep]
        conv => rhs; rw [generateLoop, hstep]
        exact h5
    | fail err' =>
      rw [hstep] at hfail
      simp only [GenerateOutcome.fail.injEq] at hfail
      subst hfail
      refine ⟨[], service, rest, rfl, by simp [generateLoop], ?_, ?_, ?_⟩
      · simpa [generateLoop] using hstep
      · conv => lhs; rw [generateLoop, hstep]
        simp [generateLoop]
      · conv => lhs; rw [generateLoop, hstep]
        simp [generateLoop]
    | uuidPanic => rw [hstep] at hfail; simp at hfail

/-- The outer loop on a catalog that starts with offerings processed without error goes
on with the rest of the catalog from the state reached. -/
theorem generateLoop_append (env : CatalogEnv) (before rest : List ServiceOffering)
    (state : GenerateState) (done : List ServiceOffering)
    (hok : (generateLoop env state done before).outcome = .ok) :
    generateLoop env state done (before ++ rest) =
      generateLoop env (generateLoop env state done before).state
        (generateLoop env state done before).catalogServices rest := by
  induction before generalizing state done with
  | nil => simp [generateLoop]
  | cons service more ih =>
    rw [List.cons_append]
    unfold generateLoop at hok
    cases hstep : generateForOffering env state service with
    | next service' state' =>
      rw [hstep] at hok
      simp only [] at hok
      conv => lhs; rw [generateLoop, hstep]
      conv => rhs; rw [generateLoop, hstep]
      exact ih state' (done ++ [service']) hok
    | fail err => rw [hstep] at hok; simp at hok
    | uuidPanic => rw [hstep] at hok; simp at hok

/-- A plan returned by `getExistingReferencePlan` is the plan that the repository
returned for the query. -/
theorem getExistingReferencePlan_some (env : CatalogEnv) (serviceID : String)
    (plan : ServicePlan) (h : getExistingReferencePlan env serviceID = .ok (some plan)) :
    env.repository.GetPlan (referencePlanCriteria serviceID) = .ok plan := by
  unfold getExistingReferencePlan at h
  split at h
  · split at h <;> simp at h
  · simp only [Except.ok.injEq, Option.some.injEq] at h
    subst h
    assumption

/-- The fields of a generated reference plan. -/
theorem generateReferencePlanObject_some (env : CatalogEnv) (uuidCount : Nat)
    (serviceOfferingId : String) (plan : ServicePlan)
    (h : generateReferencePlanObject env uuidCount serviceOfferingId = some plan) :
    ∃ UUID, env.uuidNewV4 uuidCount = .ok UUID ∧
      plan =
        { ID := UUID, CatalogID := UUID, CatalogName := ReferencePlanName,
          Name := ReferencePlanName, Description := env.referencePlanDescription,
          ServiceOfferingID := serviceOfferingId, Bindable := some true,
          Shareable := false } := by
  unfold generateReferencePlanObject at h
  split at h
  · simp at h
  · rename_i UUID hu
    exact ⟨UUID, hu, by simpa using h.symm⟩

/-- In a catalog accepted by `VerifyCatalogDoesNotUseReferencePlan` no plan carries the
reserved name. -/
theorem referencePlanCount_of_verified
    (handleInstanceSharingError : SharingError → String → GoError)
    (catalogServices : List ServiceOffering)
    (hverify :
      (VerifyCatalogDoesNotUseReferencePlan handleInstanceSharingError catalogServices).err =
        none)
    (service : ServiceOffering) (hmem : service ∈ catalogServices) :
    referencePlanCount service = 0 := by
  simp only [VerifyCatalogDoesNotUseReferencePlan, verifyServices_eq] at hverify
  have hnone : ¬ ∃ service ∈ catalogServices, ∃ plan ∈ service.Plans,
      plan.Name = ReferencePlanName ∨ plan.CatalogName = ReferencePlanName := by
    intro hex
    rw [if_pos hex] at hverify
    simp at hverify
  simp only [referencePlanCount, List.length_eq_zero, List.filter_eq_nil_iff,
    decide_eq_true_eq]
  intro plan hplan hname
  exact hnone ⟨service, hmem, plan, hplan, Or.inl hname⟩

/-- C21: for a catalog accepted by `VerifyCatalogDoesNotUseReferencePlan` on which
`GenerateReferencePlanForShareableOfferings` returns no error, with a repository whose
lookup of a stored reference plan returns plans that match the query, afterwards the
catalog has the same offerings in the same order, every offering that had at least one
shareable plan contains exactly one plan named `reference-plan`, and every offering
that had no shareable plan contains none. -/
theorem reference_plan_count_after_generate (env : CatalogEnv)
    (handleInstanceSharingError : SharingError → String → GoError)
    (catalogServices : List ServiceOffering)
    (catalogPlansMap : Option (List (String × List ServicePlan)))
    (hsound : env.repository.referencePlanLookupSound)
    (hverify :
      (VerifyCatalogDoesNotUseReferencePlan handleInstanceSharingError catalogServices).err =
        none)
    (hok : (GenerateReferencePlanForShareableOfferings env catalogServices
      catalogPlansMap).outcome = .ok) :
    List.Forall₂
      (fun service service' =>
        referencePlanCount service' = if hasShareablePlan service then 1 else 0)
      catalogServices
      (GenerateReferencePlanForShareableOfferings env catalogServices
        catalogPlansMap).catalogServices := by
  obtain ⟨after, h1, h2⟩ := generateLoop_ok (fun p => p.Name = ReferencePlanName) env
    (fun id p h => (hsound id p (getExistingReferencePlan_some env id p h)).2)
    (fun n id p h => by
      obtain ⟨UUID, -, rfl⟩ := generateReferencePlanObject_some env n id p h
      rfl)
    catalogServices
    { existingReferencePlan := none, uuidCount := 0, catalogPlansMap := catalogPlansMap }
    [] (by simp) hok
  have hzero := referencePlanCount_of_verified handleInstanceSharingError catalogServices
    hverify
  unfold GenerateReferencePlanForShareableOfferings
  rw [h1, List.nil_append]
  clear h1 hok hverify
  induction h2 with
  | nil => exact List.Forall₂.nil
  | @cons service service' rest rest' hhead _ ih =>
    refine List.Forall₂.cons ?_ (ih (fun s hs => hzero s (List.mem_cons_of_mem _ hs)))
    have hs := hzero service (List.mem_cons_self _ _)
    cases hshare : hasShareablePlan service with
    | false =>
      rw [hhead.1 hshare]
      simpa using hs
    | true =>
      obtain ⟨ref, hname, hservice⟩ := hhead.2 hshare
      subst hservice
      simp only [referencePlanCount, List.filter_append, List.length_append] at hs ⊢
      simp [hs, hname]

/-- C21, at a sample input: a stored offering and a new offering with one shareable
plan each, and an offering without plans. -/
theorem reference_plan_count_after_generate_witness :
    (VerifyCatalogDoesNotUseReferencePlan sampleHandleInstanceSharingError
          [sampleCatalogOfferingA, sampleOffering, sampleCatalogOfferingC]).err = none ∧
      (GenerateReferencePlanForShareableOfferings sampleCatalogEnv
          [sampleCatalogOfferingA, sampleOffering, sampleCatalogOfferingC]
          (some [])).outcome = .ok ∧
      List.Forall₂
        (fun service service' =>
          referencePlanCount service' = if hasShareablePlan service then 1 else 0)
        [sampleCatalogOfferingA, sampleOffering, sampleCatalogOfferingC]
        (GenerateReferencePlanForShareableOfferings sampleCatalogEnv
          [sampleCatalogOfferingA, sampleOffering, sampleCatalogOfferingC]
          (some [])).catalogServices :=
  ⟨rfl, rfl,
    reference_plan_count_after_generate sampleCatalogEnv sampleHandleInstanceSharingError
      [sampleCatalogOfferingA, sampleOffering, sampleCatalogOfferingC] (some [])
      (by
        intro serviceID plan h
        simp only [sampleCatalogEnv, sampleCatalogRepository] at h
        split at h
        · rename_i hc
          simp only [Except.ok.injEq] at h
          subst h
          simp only [referencePlanCriteria, ByField, List.cons.injEq, Criterion.mk.injEq,
            and_true, true_and] at hc
          exact ⟨hc.symm ▸ rfl, rfl⟩
        · simp at h)
      rfl rfl⟩

/-! ## Shareable plans must be bindable -/

/-- C23 (code at the failing input): a catalog of a stored offering (catalog id `cs1`,
stored under id `s1` with the reference plan `p-ref`) followed by a new offering
(id `s2`, catalog id `cs2`), each with one bindable shareable plan. The run succeeds
and the reference plan attached to the new offering is the stored reference plan of the
first offering: its service_offering_id is `s1`, not `s2`. -/
theorem reference_plan_of_other_offering_attached :
    (GenerateReferencePlanForShareableOfferings sampleCatalogEnv
          [sampleCatalogOfferingA, sampleCatalogOfferingB] (some [])).outcome = .ok ∧
      (GenerateReferencePlanForShareableOfferings sampleCatalogEnv
          [sampleCatalogOfferingA, sampleCatalogOfferingB] (some [])).catalogServices =
        [{ sampleCatalogOfferingA with
            Plans := [sampleShareablePlan "s1", sampleReferencePlan] },
          { sampleCatalogOfferingB with
            Plans := [sampleShareablePlan "s2", sampleReferencePlan] }] ∧
      sampleReferencePlan.ServiceOfferingID = sampleCatalogOfferingA.ID ∧
      sampleReferencePlan.ServiceOfferingID ≠ sampleCatalogOfferingB.ID :=
  ⟨rfl, rfl, rfl, by decide⟩

/-- C24 (code at the failing input): the store holds no offering with catalog id `cs2`,
and on its own the new offering gets a generated plan with a drawn UUID as id and
catalog id; processed after the stored offering with catalog id `cs1`, it gets the
stored reference plan `p-ref` of that offering instead, and no UUID is drawn. -/
theorem stale_reference_plan_instead_of_fresh :
    getServiceOfferingByCatalogID sampleCatalogEnv sampleCatalogOfferingB.CatalogID =
        .ok none ∧
      (GenerateReferencePlanForShareableOfferings sampleCatalogEnv
          [sampleCatalogOfferingB] none).catalogServices =
        [{ sampleCatalogOfferingB with
            Plans := [sampleShareablePlan "s2",
              { ID := "uuid-0", CatalogID := "uuid-0", CatalogName := "reference-plan",
                Name := "reference-plan", Description := "Reference plan",
                ServiceOfferingID := "s2", Bindable := some true,
                Shareable := false }] }] ∧
      (GenerateReferencePlanForShareableOfferings sampleCatalogEnv
          [sampleCatalogOfferingA, sampleCatalogOfferingB] none).catalogServices =
        [{ sampleCatalogOfferingA with
            Plans := [sampleShareablePlan "s1", sampleReferencePlan] },
          { sampleCatalogOfferingB with
            Plans := [sampleShareablePlan "s2", sampleReferencePlan] }] ∧
      (GenerateReferencePlanForShareableOfferings sampleCatalogEnv
          [sampleCatalogOfferingA, sampleCatalogOfferingB] none).state.uuidCount = 0 ∧
      sampleReferencePlan.ID = "p-ref" :=
  ⟨rfl, rfl, rfl, rfl, rfl⟩

/-! ## Failure of the generation -/

/-- C29 (as stated, refuted): a catalog of a new offering with a shareable plan followed
by an offering whose shareable plan is not bindable. The run returns the
PlanMustBeBindable error, and the first offering keeps the reference plan appended to
its plans and the map keeps the entry added for it. -/
theorem generate_not_atomic_on_failure :
    GenerateReferencePlanForShareableOfferings sampleCatalogEnv
        [sampleCatalogOfferingB, sampleCatalogOfferingD] (some []) =
      ⟨[{ sampleCatalogOfferingB with
            Plans := [sampleShareablePlan "s2",
              { ID := "uuid-0", CatalogID := "uuid-0", CatalogName := "reference-plan",
                Name := "reference-plan", Description := "Reference plan",
                ServiceOfferingID := "s2", Bindable := some true,
                Shareable := false }] },
          sampleCatalogOfferingD],
        { existingReferencePlan := none, uuidCount := 1,
          catalogPlansMap := some [("cs2",
            [{ ID := "uuid-0", CatalogID := "uuid-0", CatalogName := "reference-plan",
               Name := "reference-plan", Description := "Reference plan",
               ServiceOfferingID := "s2", Bindable := some true,
               Shareable := false }])] },
        .fail (.utilHTTP "PlanMustBeBindable" "locked")⟩ ∧
      (GenerateReferencePlanForShareableOfferings sampleCatalogEnv
          [sampleCatalogOfferingB, sampleCatalogOfferingD] (some [])).catalogServices ≠
        [sampleCatalogOfferingB, sampleCatalogOfferingD] ∧
      (GenerateReferencePlanForShareableOfferings sampleCatalogEnv
          [sampleCatalogOfferingB, sampleCatalogOfferingD]
          (some [])).state.catalogPlansMap ≠ some [] :=
  ⟨rfl, by decide, by decide⟩

/-- C29 (amended): when `GenerateReferencePlanForShareableOfferings` returns an error,
it failed at some offering of the catalog: the offerings before it were processed
without error, the iteration for that offering returned the error from the state they
left, and a run on the catalog cut after that offering returns the same error. That
offering and every offering after it are as on entry, while the offerings before it and
`catalogPlansMap` are as after a run on those offerings alone that returned no error:
each of them without shareable plan is as on entry and each of them with a shareable
plan has one plan appended to its plans. -/
theorem generate_failure_keeps_earlier_changes (env : CatalogEnv)
    (catalogServices : List ServiceOffering)
    (catalogPlansMap : Option (List (String × List ServicePlan))) (err : GoError)
    (hfail : (GenerateReferencePlanForShareableOfferings env catalogServices
      catalogPlansMap).outcome = .fail err) :
    ∃ before service after,
      catalogServices = before ++ service :: after ∧
      (GenerateReferencePlanForShareableOfferings env before catalogPlansMap).outcome =
        .ok ∧
      generateForOffering env
          (GenerateReferencePlanForShareableOfferings env before catalogPlansMap).state
          service = .fail err ∧
      (GenerateReferencePlanForShareableOfferings env (before ++ [service])
          catalogPlansMap).outcome = .fail err ∧
      (GenerateReferencePlanForShareableOfferings env catalogServices
          catalogPlansMap).catalogServices =
        (GenerateReferencePlanForShareableOfferings env before
          catalogPlansMap).catalogServices ++ service :: after ∧
      (GenerateReferencePlanForShareableOfferings env catalogServices
          catalogPlansMap).state.catalogPlansMap =
        (GenerateReferencePlanForShareableOfferings env before
          catalogPlansMap).state.catalogPlansMap ∧
      List.Forall₂
        (fun service service' =>
          (hasShareablePlan service = false → service' = service) ∧
          (hasShareablePlan service = true →
            ∃ referencePlan,
              service' = { service with Plans := service.Plans ++ [referencePlan] }))
        before
        (GenerateReferencePlanForShareableOfferings env before
          catalogPlansMap).catalogServices := by
  unfold GenerateReferencePlanForShareableOfferings at hfail ⊢
  obtain ⟨before, service, after, h1, h2, h3, h4, h5⟩ :=
    generateLoop_fail env catalogServices _ [] err hfail
  refine ⟨before, service, after, h1, h2, h3, ?_, h4, by rw [h5], ?_⟩
  · rw [generateLoop_append env before [service] _ [] h2]
    simp [generateLoop, h3]
  · obtain ⟨news, h6, h7⟩ := generateLoop_ok (fun _ => True) env (fun _ _ _ => trivial)
      (fun _ _ _ _ => trivial) before
      { existingReferencePlan := none, uuidCount := 0, catalogPlansMap := catalogPlansMap }
      [] (fun _ _ => trivial) h2
    rw [h6, List.nil_append]
    refine List.Forall₂.imp ?_ h7
    intro a b hab
    exact ⟨hab.1, fun hs => by
      obtain ⟨ref, -, href⟩ := hab.2 hs
      exact ⟨ref, href⟩⟩

/-- C29 (amended), at a sample input: the run fails at the second offering, after the
first offering was processed without error. -/
theorem generate_failure_keeps_earlier_changes_witness :
    (GenerateReferencePlanForShareableOfferings sampleCatalogEnv
          [sampleCatalogOfferingB, sampleCatalogOfferingD] (some [])).outcome =
        .fail (.utilHTTP "PlanMustBeBindable" "locked") ∧
      (GenerateReferencePlanForShareableOfferings sampleCatalogEnv
          [sampleCatalogOfferingB] (some [])).outcome = .ok ∧
      ∃ before service after,
        [sampleCatalogOfferingB, sampleCatalogOfferingD] = before ++ service :: after ∧
        (GenerateReferencePlanForShareableOfferings sampleCatalogEnv before
          (some [])).outcome = .ok ∧
        generateForOffering sampleCatalogEnv
            (GenerateReferencePlanForShareableOfferings sampleCatalogEnv before
              (some [])).state
            service = .fail (.utilHTTP "PlanMustBeBindable" "locked") ∧
        (GenerateReferencePlanForShareableOfferings sampleCatalogEnv (before ++ [service])
            (some [])).outcome = .fail (.utilHTTP "PlanMustBeBindable" "locked") ∧
        (GenerateReferencePlanForShareableOfferings sampleCatalogEnv
            [sampleCatalogOfferingB, sampleCatalogOfferingD] (some [])).catalogServices =
          (GenerateReferencePlanForShareableOfferings sampleCatalogEnv before
            (some [])).catalogServices ++ service :: after :=
  ⟨rfl, rfl,
    (generate_failure_keeps_earlier_changes sampleCatalogEnv
      [sampleCatalogOfferingB, sampleCatalogOfferingD] (some [])
      (.utilHTTP "PlanMustBeBindable" "locked") rfl).imp
      (fun _ h => h.imp (fun _ h => h.imp (fun _ h =>
        ⟨h.1, h.2.1, h.2.2.1, h.2.2.2.1, h.2.2.2.2.1⟩)))⟩

/-! ## Children of a broker -/

/-- The value of a `gjson` result never has the dynamic type `[]string`. -/
theorem assertStringSlice_gjsonValue (result : Option Json) :
    assertStringSlice (gjsonValue result) = none := by
  cases result with
  | none => rfl
  | some json => cases json <;> rfl

/-- C27 (code at the failing input, and at every input): for the sample catalog, with
two services that have ids and plans with ids, the two queries find the offering ids
and, per service, the plan ids, but `GetChildrenCriteria` ends in a panic instead of
returning a table, as it does for every catalog: the value of a `gjson` result is never
a `[]string`, so the first type assertion fails. -/
theorem GetChildrenCriteria_panics :
    gjsonServiceIDs sampleCatalogDocument = some (.arr [.str "cs1", .str "cs2"]) ∧
      gjsonPlanIDs sampleCatalogDocument =
        some (.arr [.arr [.str "cp1", .str "cp2"], .arr [.str "cp3"]]) ∧
      GetChildrenCriteria sampleCatalogDocument = none ∧
      ∀ catalog, GetChildrenCriteria catalog = none :=
  ⟨rfl, rfl, rfl, fun catalog => by
    unfold GetChildrenCriteria
    simp only [assertStringSlice_gjsonValue]⟩

/-! ## Context signature -/

/-- C28 (as stated, refuted): with the private key configured and the public key empty,
a body with a context is forwarded as it is, without signature, although the same body
is signed when the public key is set as well. -/
theorem sign_skipped_without_public_key :
    parseRsaPrivateKey sampleSignatureLibrary "private" = .ok "private" ∧
      sampleSignatureLibrary.gjsonGet "body" "context" = some "context of body" ∧
      ContextSignaturePlugin.Provision sampleSignatureLibrary
          { CtxPrivateKey := "private", CtxPublicKey := "" } "body" id = "body" ∧
      ContextSignaturePlugin.Bind sampleSignatureLibrary
          { CtxPrivateKey := "private", CtxPublicKey := "" } "body" id = "body" ∧
      ContextSignaturePlugin.Provision sampleSignatureLibrary
          { CtxPrivateKey := "private", CtxPublicKey := "public" } "body" id =
        "body with context.signature = base64 of sha256 of sorted context of body " ++
          "signed with private" :=
  ⟨rfl, rfl, rfl, rfl, by decide⟩

/-- C28 (amended): for a provision or bind request whose body contains a context
object, when the plugin is configured with a private key that parses and with a public
key that is not empty, and signing the context and writing the signature into the body
succeed, the body forwarded to the next handler is the original body with
`context.signature` set by `sjson` to the base64 text of the RSA PKCS#1 v1.5 signature
of the SHA-256 hash of the context as marshalled again by `encoding/json`, that is with
its keys in sorted order; when the public key is empty the body is forwarded as it
is. -/
theorem sign_forwards_signed_body {α : Type} (lib : SignatureLibrary)
    (s : ContextSignaturePlugin) (body : String) (next : String → α)
    (privateKey : lib.PrivateKey) (ctxStr : String) (ctxMap : lib.JsonMap)
    (sorted signature signedBody : String)
    (hprivate : s.CtxPrivateKey ≠ "")
    (hparse : parseRsaPrivateKey lib s.CtxPrivateKey = .ok privateKey)
    (hcontext : lib.gjsonGet body "context" = some ctxStr)
    (hunmarshal : lib.jsonUnmarshal ctxStr = .ok ctxMap)
    (hmarshal : lib.jsonMarshal ctxMap = .ok sorted)
    (hsign : lib.signPKCS1v15 privateKey (lib.sha256Sum sorted) = .ok signature)
    (hset : lib.sjsonSet body "context.signature" (lib.base64Encode signature) =
      .ok signedBody) :
    (s.CtxPublicKey ≠ "" →
        s.Provision lib body next = next signedBody ∧
          s.Bind lib body next = next signedBody) ∧
      (s.CtxPublicKey = "" →
        s.Provision lib body next = next body ∧ s.Bind lib body next = next body) := by
  constructor
  · intro hpublic
    simp [ContextSignaturePlugin.Provision, ContextSignaturePlugin.Bind,
      ContextSignaturePlugin.sign, hprivate, hpublic, hparse, hcontext, hunmarshal,
      hmarshal, getSignature, hsign, hset]
  · intro hpublic
    simp [ContextSignaturePlugin.Provision, ContextSignaturePlugin.Bind,
      ContextSignaturePlugin.sign, hpublic]

/-- C28 (amended), at a sample input: both keys are set. -/
theorem sign_forwards_signed_body_witness :
    ("private" : String) ≠ "" ∧
      ("public" : String) ≠ "" ∧
      ContextSignaturePlugin.Bind sampleSignatureLibrary
          { CtxPrivateKey := "private", CtxPublicKey := "public" } "body" id =
        "body with context.signature = base64 of sha256 of sorted context of body " ++
          "signed with private" :=
  ⟨by decide, by decide,
    ((sign_forwards_signed_body sampleSignatureLibrary
      { CtxPrivateKey := "private", CtxPublicKey := "public" } "body" id
      "private" "context of body" "context of body" "sorted context of body"
      "sha256 of sorted context of body signed with private"
      ("body with context.signature = base64 of sha256 of sorted context of body " ++
        "signed with private")
      (by decide) rfl rfl rfl rfl rfl rfl).1 (by decide)).2⟩

end ServiceManager
